import Mathlib

/-!
# vtkVolumeProperty: a shallow embedding

The volume property of `Rendering/Core/vtkVolumeProperty.cxx` is embedded as a
record of its member variables inside a `World` that also carries the parts of
the surrounding object system the member functions touch: the global
time-stamp counter, the allocator, and, per object, its own modification time,
its nodes (for one-dimensional functions) and its image description (for 2D
transfer functions).

Conventions.
* A pointer is `Option Ptr`; `none` is `nullptr`.
* C++ `int` is `Int`, `double` is `ℚ` (stored and compared, never rounded here),
  `vtkMTimeType` is `Nat`.
* The per-component arrays have `VTK_MAX_VRCOMP = 4` elements and are indexed
  by `Fin 4`.  A member function that indexes an array with its `int` argument
  without validating it returns `Option`: `none` stands for the out-of-bounds
  array access (undefined behaviour in C++).
* `held p` is the number of references the property itself holds on object `p`:
  `Register(this)` adds one, `UnRegister(this)` removes one.
* Diagnostics written by `vtkErrorMacro` / `vtkWarningMacro` are not part of the
  state and are left out.
-/

namespace VTK

/-- Object identity (a non-null address). -/
abbrev Ptr := Nat

/-- A node of a transfer function: the location `x` and the values stored there
(one value for a piecewise function, three for a colour function). -/
abbrev Node := ℚ × List ℚ

/-- The std::map from label to function pointer, as an association list in which
the first entry of a key is the live one. -/
abbrev LabelMap := List (Int × Option Ptr)

/-- What `SetTransferFunction2D` inspects of a `vtkImageData`. -/
structure ImageInfo where
  hasScalars : Bool
  numberOfComponents : Int
  dataType : Int
  dim0 : Int
  dim1 : Int
deriving DecidableEq, Repr

/-- Number of per-component slots (`vtkVolumeProperty.h`). -/
def VTK_MAX_VRCOMP : Int := 4

/-- Scalar type tag of `float` (`vtkType.h`). -/
def VTK_FLOAT : Int := 10

/-- Interpolation type set by the constructor (`vtkSystemIncludes.h`). -/
def VTK_NEAREST_INTERPOLATION : Int := 0

/-- Smallest positive float, the constructor value of `ClippedVoxelIntensity`
(`vtkType.h`, 1.0e-38F). -/
def VTK_FLOAT_MIN : ℚ := 1 / 10 ^ 38

/-- The enumeration `vtkVolumeProperty::TransferMode`. -/
inductive TransferMode where
  | TF_1D
  | TF_2D
deriving DecidableEq, Repr

/-- Member variables of `vtkVolumeProperty`, with the ghost field `held`. -/
structure vtkVolumeProperty where
  MTime : Nat
  IsoSurfaceValues : Ptr
  IndependentComponents : Int
  InterpolationType : Int
  UseClippedVoxelIntensity : Int
  ClippedVoxelIntensity : ℚ
  ColorChannels : Fin 4 → Int
  GrayTransferFunction : Fin 4 → Option Ptr
  GrayTransferFunctionMTime : Fin 4 → Nat
  RGBTransferFunction : Fin 4 → Option Ptr
  RGBTransferFunctionMTime : Fin 4 → Nat
  ScalarOpacity : Fin 4 → Option Ptr
  ScalarOpacityMTime : Fin 4 → Nat
  ScalarOpacityUnitDistance : Fin 4 → ℚ
  GradientOpacity : Fin 4 → Option Ptr
  GradientOpacityMTime : Fin 4 → Nat
  DefaultGradientOpacity : Fin 4 → Option Ptr
  DisableGradientOpacity : Fin 4 → Int
  TransferFunction2D : Fin 4 → Option Ptr
  TransferFunction2DMTime : Fin 4 → Nat
  TransferFunctionMode : TransferMode
  ComponentWeight : Fin 4 → ℚ
  Shade : Fin 4 → Int
  Ambient : Fin 4 → ℚ
  Diffuse : Fin 4 → ℚ
  Specular : Fin 4 → ℚ
  SpecularPower : Fin 4 → ℚ
  LabelColor : LabelMap
  LabelColorMTime : Nat
  LabelScalarOpacity : LabelMap
  LabelScalarOpacityMTime : Nat
  LabelGradientOpacity : LabelMap
  LabelGradientOpacityMTime : Nat
  LabelMapLabels : List Int
  held : Ptr → Int

/-- The object system a property is constructed in: the global time-stamp
counter, the next fresh address, and per object its own modification time, its
nodes and its image description. -/
structure Env where
  clock : Nat
  next : Ptr
  objMTime : Ptr → Nat
  nodes : Ptr → List Node
  image : Ptr → ImageInfo

/-- The property (`self`) together with the object system around it. -/
structure World where
  clock : Nat
  next : Ptr
  objMTime : Ptr → Nat
  nodes : Ptr → List Node
  image : Ptr → ImageInfo
  self : vtkVolumeProperty

/-! ## The object system -/

/-- The array element an `int` index designates, if any. -/
def slot (index : Int) : Option (Fin 4) :=
  if h : 0 ≤ index ∧ index < 4 then some ⟨index.toNat, by omega⟩ else none

/-- The call `this->Modified()`: the global counter is incremented and stored. -/
@[simps -fullyApplied]
def Modified (w : World) : World :=
  { w with clock := w.clock + 1, self := { w.self with MTime := w.clock + 1 } }

/-- The call `obj->Modified()` on another object. -/
@[simps -fullyApplied]
def objModified (w : World) (p : Ptr) : World :=
  { w with clock := w.clock + 1, objMTime := Function.update w.objMTime p (w.clock + 1) }

/-- The nodes of object `p` are replaced. -/
@[simps -fullyApplied]
def World.setNodes (w : World) (p : Ptr) (ns : List Node) : World :=
  { w with nodes := Function.update w.nodes p ns }

/-- The allocator hands out the next address; the new object has no nodes. -/
@[simps -fullyApplied]
def World.allocate (w : World) : World :=
  { w with next := w.next + 1, nodes := Function.update w.nodes w.next [] }

/-- The call `T::New()`: the address of a fresh object without nodes, stamped
by its constructor, and the state afterwards. -/
def New (w : World) : Ptr × World :=
  (w.next, objModified w.allocate w.next)

/-- The call `obj->Register(this)`. -/
@[simps -fullyApplied]
def Register (w : World) (p : Ptr) : World :=
  { w with self := { w.self with held := Function.update w.self.held p (w.self.held p + 1) } }

/-- The call `obj->UnRegister(this)`. -/
@[simps -fullyApplied]
def UnRegister (w : World) (p : Ptr) : World :=
  { w with self := { w.self with held := Function.update w.self.held p (w.self.held p - 1) } }

/-- The guarded call `if (p != nullptr) p->Register(this)`. -/
@[simps -fullyApplied]
def RegisterIfSet (w : World) (p : Option Ptr) : World :=
  { w with self := { w.self with
      held := fun q => if p = some q then w.self.held q + 1 else w.self.held q } }

/-- The guarded call `if (p != nullptr) p->UnRegister(this)`. -/
@[simps -fullyApplied]
def UnRegisterIfSet (w : World) (p : Option Ptr) : World :=
  { w with self := { w.self with
      held := fun q => if p = some q then w.self.held q - 1 else w.self.held q } }

/-- Insertion of a node into a list ordered by location; a node at the same
location is replaced. -/
def insertNode : List Node → Node → List Node
  | [], n => [n]
  | m :: ms, n =>
    if n.1 < m.1 then n :: m :: ms
    else if n.1 = m.1 then n :: ms
    else m :: insertNode ms n

/-- The calls `f->AddPoint(x, y)` and `f->AddRGBPoint(x, r, g, b)`. -/
def AddPoint (w : World) (p : Ptr) (x : ℚ) (v : List ℚ) : World :=
  objModified (w.setNodes p (insertNode (w.nodes p) (x, v))) p

/-- The call `f->RemoveAllPoints()`. -/
def RemoveAllPoints (w : World) (p : Ptr) : World :=
  objModified (w.setNodes p []) p

/-! ## Assignments to member variables -/

/-- The assignment `this->GrayTransferFunction[i] = v`. -/
@[simps -fullyApplied]
def World.setGrayTransferFunction (w : World) (i : Fin 4) (v : Option Ptr) : World :=
  { w with self := { w.self with GrayTransferFunction := Function.update w.self.GrayTransferFunction i v } }

/-- The assignment `this->RGBTransferFunction[i] = v`. -/
@[simps -fullyApplied]
def World.setRGBTransferFunction (w : World) (i : Fin 4) (v : Option Ptr) : World :=
  { w with self := { w.self with RGBTransferFunction := Function.update w.self.RGBTransferFunction i v } }

/-- The assignment `this->ScalarOpacity[i] = v`. -/
@[simps -fullyApplied]
def World.setScalarOpacity (w : World) (i : Fin 4) (v : Option Ptr) : World :=
  { w with self := { w.self with ScalarOpacity := Function.update w.self.ScalarOpacity i v } }

/-- The assignment `this->GradientOpacity[i] = v`. -/
@[simps -fullyApplied]
def World.setGradientOpacity (w : World) (i : Fin 4) (v : Option Ptr) : World :=
  { w with self := { w.self with GradientOpacity := Function.update w.self.GradientOpacity i v } }

/-- The assignment `this->DefaultGradientOpacity[i] = v`. -/
@[simps -fullyApplied]
def World.setDefaultGradientOpacity (w : World) (i : Fin 4) (v : Option Ptr) : World :=
  { w with self := { w.self with DefaultGradientOpacity := Function.update w.self.DefaultGradientOpacity i v } }

/-- The assignment `this->TransferFunction2D[i] = v`. -/
@[simps -fullyApplied]
def World.setTransferFunction2D (w : World) (i : Fin 4) (v : Option Ptr) : World :=
  { w with self := { w.self with TransferFunction2D := Function.update w.self.TransferFunction2D i v } }

/-- The call `this->GrayTransferFunctionMTime[i].Modified()`. -/
@[simps -fullyApplied]
def World.stampGrayTransferFunctionMTime (w : World) (i : Fin 4) : World :=
  { w with clock := w.clock + 1, self := { w.self with
      GrayTransferFunctionMTime := Function.update w.self.GrayTransferFunctionMTime i (w.clock + 1) } }

/-- The call `this->RGBTransferFunctionMTime[i].Modified()`. -/
@[simps -fullyApplied]
def World.stampRGBTransferFunctionMTime (w : World) (i : Fin 4) : World :=
  { w with clock := w.clock + 1, self := { w.self with
      RGBTransferFunctionMTime := Function.update w.self.RGBTransferFunctionMTime i (w.clock + 1) } }

/-- The call `this->ScalarOpacityMTime[i].Modified()`. -/
@[simps -fullyApplied]
def World.stampScalarOpacityMTime (w : World) (i : Fin 4) : World :=
  { w with clock := w.clock + 1, self := { w.self with
      ScalarOpacityMTime := Function.update w.self.ScalarOpacityMTime i (w.clock + 1) } }

/-- The call `this->GradientOpacityMTime[i].Modified()`. -/
@[simps -fullyApplied]
def World.stampGradientOpacityMTime (w : World) (i : Fin 4) : World :=
  { w with clock := w.clock + 1, self := { w.self with
      GradientOpacityMTime := Function.update w.self.GradientOpacityMTime i (w.clock + 1) } }

/-- The call `this->TransferFunction2DMTime[i].Modified()`. -/
@[simps -fullyApplied]
def World.stampTransferFunction2DMTime (w : World) (i : Fin 4) : World :=
  { w with clock := w.clock + 1, self := { w.self with
      TransferFunction2DMTime := Function.update w.self.TransferFunction2DMTime i (w.clock + 1) } }

/-- The assignment `this->ColorChannels[i] = v`. -/
@[simps -fullyApplied]
def World.setColorChannels (w : World) (i : Fin 4) (v : Int) : World :=
  { w with self := { w.self with ColorChannels := Function.update w.self.ColorChannels i v } }

/-- The assignment `this->DisableGradientOpacity[i] = v`. -/
@[simps -fullyApplied]
def World.setDisableGradientOpacity (w : World) (i : Fin 4) (v : Int) : World :=
  { w with self := { w.self with DisableGradientOpacity := Function.update w.self.DisableGradientOpacity i v } }

/-- The assignment `this->Shade[i] = v`. -/
@[simps -fullyApplied]
def World.setShade (w : World) (i : Fin 4) (v : Int) : World :=
  { w with self := { w.self with Shade := Function.update w.self.Shade i v } }

/-- The assignment `this->ScalarOpacityUnitDistance[i] = v`. -/
@[simps -fullyApplied]
def World.setScalarOpacityUnitDistance (w : World) (i : Fin 4) (v : ℚ) : World :=
  { w with self := { w.self with ScalarOpacityUnitDistance := Function.update w.self.ScalarOpacityUnitDistance i v } }

/-- The assignment `this->ComponentWeight[i] = v`. -/
@[simps -fullyApplied]
def World.setComponentWeight (w : World) (i : Fin 4) (v : ℚ) : World :=
  { w with self := { w.self with ComponentWeight := Function.update w.self.ComponentWeight i v } }

/-- The assignment `this->Ambient[i] = v`. -/
@[simps -fullyApplied]
def World.setAmbient (w : World) (i : Fin 4) (v : ℚ) : World :=
  { w with self := { w.self with Ambient := Function.update w.self.Ambient i v } }

/-- The assignment `this->Diffuse[i] = v`. -/
@[simps -fullyApplied]
def World.setDiffuse (w : World) (i : Fin 4) (v : ℚ) : World :=
  { w with self := { w.self with Diffuse := Function.update w.self.Diffuse i v } }

/-- The assignment `this->Specular[i] = v`. -/
@[simps -fullyApplied]
def World.setSpecular (w : World) (i : Fin 4) (v : ℚ) : World :=
  { w with self := { w.self with Specular := Function.update w.self.Specular i v } }

/-- The assignment `this->SpecularPower[i] = v`. -/
@[simps -fullyApplied]
def World.setSpecularPower (w : World) (i : Fin 4) (v : ℚ) : World :=
  { w with self := { w.self with SpecularPower := Function.update w.self.SpecularPower i v } }

/-- The assignment `this->TransferFunctionMode = m`. -/
@[simps -fullyApplied]
def World.setTransferFunctionMode (w : World) (m : TransferMode) : World :=
  { w with self := { w.self with TransferFunctionMode := m } }

/-- The map `this->LabelColor` is replaced. -/
@[simps -fullyApplied]
def World.setLabelColor (w : World) (m : LabelMap) : World :=
  { w with self := { w.self with LabelColor := m } }

/-- The call `this->LabelColorMTime.Modified()`. -/
@[simps -fullyApplied]
def World.stampLabelColorMTime (w : World) : World :=
  { w with clock := w.clock + 1, self := { w.self with LabelColorMTime := w.clock + 1 } }

/-- The map `this->LabelScalarOpacity` is replaced. -/
@[simps -fullyApplied]
def World.setLabelScalarOpacity (w : World) (m : LabelMap) : World :=
  { w with self := { w.self with LabelScalarOpacity := m } }

/-- The call `this->LabelScalarOpacityMTime.Modified()`. -/
@[simps -fullyApplied]
def World.stampLabelScalarOpacityMTime (w : World) : World :=
  { w with clock := w.clock + 1, self := { w.self with LabelScalarOpacityMTime := w.clock + 1 } }

/-- The map `this->LabelGradientOpacity` is replaced. -/
@[simps -fullyApplied]
def World.setLabelGradientOpacity (w : World) (m : LabelMap) : World :=
  { w with self := { w.self with LabelGradientOpacity := m } }

/-- The call `this->LabelGradientOpacityMTime.Modified()`. -/
@[simps -fullyApplied]
def World.stampLabelGradientOpacityMTime (w : World) : World :=
  { w with clock := w.clock + 1, self := { w.self with LabelGradientOpacityMTime := w.clock + 1 } }

/-- The set `this->LabelMapLabels` is replaced. -/
@[simps -fullyApplied]
def World.setLabelMapLabels (w : World) (s : List Int) : World :=
  { w with self := { w.self with LabelMapLabels := s } }

/-! ## std::map and std::set -/

/-- The expression `m.count(k)`. -/
def LabelMap.count (m : LabelMap) (k : Int) : Nat :=
  match m.lookup k with
  | some _ => 1
  | none => 0

/-- The value `m[k]` of a key that is present (`nullptr` otherwise, as the
value-initialised element would be). -/
def LabelMap.get (m : LabelMap) (k : Int) : Option Ptr :=
  match m.lookup k with
  | some v => v
  | none => none

/-- The assignment `m[k] = v`. -/
def LabelMap.assign : LabelMap → Int → Option Ptr → LabelMap
  | [], k, v => [(k, v)]
  | (k', v') :: m, k, v =>
    if k' = k then (k, v) :: m else (k', v') :: LabelMap.assign m k v

/-- The call `s.insert(k)` on a std::set. -/
def setInsert (s : List Int) (k : Int) : List Int :=
  if k ∈ s then s else k :: s

/-- The loop of `GetLabelMapLabels`: labels failing the test are erased. -/
def setEraseIf (s : List Int) (dead : Int → Bool) : List Int :=
  s.filter (fun k => !dead k)

/-! ## Construction -/

/-- The constructor `vtkVolumeProperty::vtkVolumeProperty()`, run in an object
system `e`: the vtkObject base stamps the new object, the member
`IsoSurfaceValues` is allocated, the time stamps start at 0 and the maps and
the label set start empty. -/
def construct (e : Env) : World :=
  { clock := e.clock + 2
    next := e.next + 1
    objMTime := Function.update e.objMTime e.next (e.clock + 2)
    nodes := e.nodes
    image := e.image
    self :=
      { MTime := e.clock + 1
        IsoSurfaceValues := e.next
        IndependentComponents := 1
        InterpolationType := VTK_NEAREST_INTERPOLATION
        UseClippedVoxelIntensity := 0
        ClippedVoxelIntensity := VTK_FLOAT_MIN
        ColorChannels := fun _ => 1
        GrayTransferFunction := fun _ => none
        GrayTransferFunctionMTime := fun _ => 0
        RGBTransferFunction := fun _ => none
        RGBTransferFunctionMTime := fun _ => 0
        ScalarOpacity := fun _ => none
        ScalarOpacityMTime := fun _ => 0
        ScalarOpacityUnitDistance := fun _ => 1
        GradientOpacity := fun _ => none
        GradientOpacityMTime := fun _ => 0
        DefaultGradientOpacity := fun _ => none
        DisableGradientOpacity := fun _ => 0
        TransferFunction2D := fun _ => none
        TransferFunction2DMTime := fun _ => 0
        TransferFunctionMode := TransferMode.TF_1D
        ComponentWeight := fun _ => 1
        Shade := fun _ => 0
        Ambient := fun _ => 1 / 10
        Diffuse := fun _ => 7 / 10
        Specular := fun _ => 2 / 10
        SpecularPower := fun _ => 10
        LabelColor := []
        LabelColorMTime := 0
        LabelScalarOpacity := []
        LabelScalarOpacityMTime := 0
        LabelGradientOpacity := []
        LabelGradientOpacityMTime := 0
        LabelMapLabels := []
        held := fun _ => 0 } }

/-- An object system in which nothing has happened yet: no object exists and
every image description is that of an image without scalars. -/
def emptyEnv : Env :=
  { clock := 0
    next := 0
    objMTime := fun _ => 0
    nodes := fun _ => []
    image := fun _ => { hasScalars := false, numberOfComponents := 0, dataType := 0,
                        dim0 := 0, dim1 := 0 } }

/-! ## Member functions -/

/-- The member `vtkVolumeProperty::UpdateMTimes`. -/
def UpdateMTimes (w : World) : World :=
  let w := Modified w
  let w := (List.finRange 4).foldl (fun w i =>
    ((((w.stampGrayTransferFunctionMTime i).stampRGBTransferFunctionMTime i
      ).stampScalarOpacityMTime i).stampGradientOpacityMTime i
      ).stampTransferFunction2DMTime i) w
  ((w.stampLabelColorMTime).stampLabelScalarOpacityMTime).stampLabelGradientOpacityMTime

/-- One iteration of the loop of `GetMTime`, on the running maximum `mTime`. -/
def GetMTime.body (w : World) (mTime : Nat) (i : Fin 4) : Nat :=
  let mTime :=
    if w.self.ColorChannels i = 1 then
      match w.self.GrayTransferFunction i with
      | some f => max (max mTime (w.self.GrayTransferFunctionMTime i)) (w.objMTime f)
      | none => mTime
    else if w.self.ColorChannels i = 3 then
      match w.self.RGBTransferFunction i with
      | some f => max (max mTime (w.self.RGBTransferFunctionMTime i)) (w.objMTime f)
      | none => mTime
    else mTime
  let mTime :=
    match w.self.ScalarOpacity i with
    | some f => max (max mTime (w.self.ScalarOpacityMTime i)) (w.objMTime f)
    | none => mTime
  let mTime :=
    match w.self.TransferFunction2D i with
    | some f => max (max mTime (w.self.TransferFunction2DMTime i)) (w.objMTime f)
    | none => mTime
  match w.self.GradientOpacity i with
  | some f =>
    let mTime := max mTime (w.self.GradientOpacityMTime i)
    if w.self.DisableGradientOpacity i = 0 then max mTime (w.objMTime f) else mTime
  | none => mTime

/-- The member `vtkVolumeProperty::GetMTime`. -/
def GetMTime (w : World) : Nat :=
  let mTime := (List.finRange 4).foldl (GetMTime.body w) w.self.MTime
  let mTime := max mTime (w.objMTime w.self.IsoSurfaceValues)
  let mTime := max mTime w.self.LabelColorMTime
  let mTime := max mTime w.self.LabelScalarOpacityMTime
  max mTime w.self.LabelGradientOpacityMTime

/-- The member `vtkVolumeProperty::GetColorChannels`. -/
def GetColorChannels (w : World) (index : Int) : Int :=
  if h : index < 0 ∨ index > 3 then 0
  else w.self.ColorChannels ⟨index.toNat, by omega⟩

/-- The member `SetColor(int, vtkPiecewiseFunction*)`. -/
def SetColor_vtkPiecewiseFunction (w : World) (index : Int) (function : Option Ptr) : Option World :=
  match slot index with
  | none => none
  | some i =>
    let w :=
      if w.self.GrayTransferFunction i ≠ function then
        let w := UnRegisterIfSet w (w.self.GrayTransferFunction i)
        let w := w.setGrayTransferFunction i function
        let w := RegisterIfSet w (w.self.GrayTransferFunction i)
        let w := w.stampGrayTransferFunctionMTime i
        let w := Modified w
        w.setTransferFunctionMode TransferMode.TF_1D
      else w
    if w.self.ColorChannels i ≠ 1 then some (Modified (w.setColorChannels i 1))
    else some w

/-- The member `vtkVolumeProperty::GetGrayTransferFunction`: the pointer returned and the state
left behind. -/
def GetGrayTransferFunction (w : World) (index : Int) : Option (Option Ptr × World) :=
  match slot index with
  | none => none
  | some i =>
    let w :=
      if w.self.GrayTransferFunction i = none then
        let fw := New w
        let w := fw.2.setGrayTransferFunction i (some fw.1)
        let w := Register w fw.1
        let w := AddPoint w fw.1 0 [0]
        let w := AddPoint w fw.1 1024 [1]
        let w := if w.self.ColorChannels i ≠ 1 then w.setColorChannels i 1 else w
        Modified w
      else w
    some (w.self.GrayTransferFunction i, w)

/-- The member `SetColor(int, vtkColorTransferFunction*)`. -/
def SetColor_vtkColorTransferFunction (w : World) (index : Int) (function : Option Ptr) : Option World :=
  match slot index with
  | none => none
  | some i =>
    let w :=
      if w.self.RGBTransferFunction i ≠ function then
        let w := UnRegisterIfSet w (w.self.RGBTransferFunction i)
        let w := w.setRGBTransferFunction i function
        let w := RegisterIfSet w (w.self.RGBTransferFunction i)
        let w := w.stampRGBTransferFunctionMTime i
        let w := Modified w
        w.setTransferFunctionMode TransferMode.TF_1D
      else w
    if w.self.ColorChannels i ≠ 3 then some (Modified (w.setColorChannels i 3))
    else some w

/-- The member `vtkVolumeProperty::GetRGBTransferFunction`: the pointer returned and the state
left behind. -/
def GetRGBTransferFunction (w : World) (index : Int) : Option (Option Ptr × World) :=
  match slot index with
  | none => none
  | some i =>
    let w :=
      if w.self.RGBTransferFunction i = none then
        let fw := New w
        let w := fw.2.setRGBTransferFunction i (some fw.1)
        let w := Register w fw.1
        let w := AddPoint w fw.1 0 [0, 0, 0]
        let w := AddPoint w fw.1 1024 [1, 1, 1]
        let w := if w.self.ColorChannels i ≠ 3 then w.setColorChannels i 3 else w
        Modified w
      else w
    some (w.self.RGBTransferFunction i, w)

/-- The member `vtkVolumeProperty::SetScalarOpacity`. -/
def SetScalarOpacity (w : World) (index : Int) (function : Option Ptr) : Option World :=
  match slot index with
  | none => none
  | some i =>
    some (
      if w.self.ScalarOpacity i ≠ function then
        let w := UnRegisterIfSet w (w.self.ScalarOpacity i)
        let w := w.setScalarOpacity i function
        let w := RegisterIfSet w (w.self.ScalarOpacity i)
        let w := w.stampScalarOpacityMTime i
        let w := Modified w
        w.setTransferFunctionMode TransferMode.TF_1D
      else w)

/-- The member `vtkVolumeProperty::GetScalarOpacity`: the pointer returned and the state
left behind. -/
def GetScalarOpacity (w : World) (index : Int) : Option (Option Ptr × World) :=
  match slot index with
  | none => none
  | some i =>
    let w :=
      if w.self.ScalarOpacity i = none then
        let fw := New w
        let w := fw.2.setScalarOpacity i (some fw.1)
        let w := Register w fw.1
        let w := AddPoint w fw.1 0 [1]
        let w := AddPoint w fw.1 1024 [1]
        w
      else w
    some (w.self.ScalarOpacity i, w)

/-- The member `vtkVolumeProperty::SetScalarOpacityUnitDistance`. -/
def SetScalarOpacityUnitDistance (w : World) (index : Int) (distance : ℚ) : World :=
  if h : index < 0 ∨ index > 3 then w
  else
    let i : Fin 4 := ⟨index.toNat, by omega⟩
    if w.self.ScalarOpacityUnitDistance i ≠ distance then
      Modified (w.setScalarOpacityUnitDistance i distance)
    else w

/-- The member `vtkVolumeProperty::GetScalarOpacityUnitDistance`. -/
def GetScalarOpacityUnitDistance (w : World) (index : Int) : ℚ :=
  if h : index < 0 ∨ index > 3 then 0
  else w.self.ScalarOpacityUnitDistance ⟨index.toNat, by omega⟩

/-- The member `vtkVolumeProperty::SetGradientOpacity`. -/
def SetGradientOpacity (w : World) (index : Int) (function : Option Ptr) : Option World :=
  match slot index with
  | none => none
  | some i =>
    some (
      if w.self.GradientOpacity i ≠ function then
        let w := UnRegisterIfSet w (w.self.GradientOpacity i)
        let w := w.setGradientOpacity i function
        let w := RegisterIfSet w (w.self.GradientOpacity i)
        let w := w.stampGradientOpacityMTime i
        let w := Modified w
        w.setTransferFunctionMode TransferMode.TF_1D
      else w)

/-- The member `vtkVolumeProperty::CreateDefaultGradientOpacity`. -/
def CreateDefaultGradientOpacity (w : World) (index : Int) : Option World :=
  match slot index with
  | none => none
  | some i =>
    match w.self.DefaultGradientOpacity i with
    | none =>
      let fw := New w
      let w := fw.2.setDefaultGradientOpacity i (some fw.1)
      let w := Register w fw.1
      let w := RemoveAllPoints w fw.1
      let w := AddPoint w fw.1 0 [1]
      some (AddPoint w fw.1 255 [1])
    | some f =>
      let w := RemoveAllPoints w f
      let w := AddPoint w f 0 [1]
      some (AddPoint w f 255 [1])

/-- The member `vtkVolumeProperty::GetStoredGradientOpacity`: the pointer returned and the state
left behind. -/
def GetStoredGradientOpacity (w : World) (index : Int) : Option (Option Ptr × World) :=
  match slot index with
  | none => none
  | some i =>
    let w :=
      if w.self.GradientOpacity i = none then
        let fw := New w
        let w := fw.2.setGradientOpacity i (some fw.1)
        let w := Register w fw.1
        let w := AddPoint w fw.1 0 [1]
        let w := AddPoint w fw.1 255 [1]
        w
      else w
    some (w.self.GradientOpacity i, w)

/-- The member `vtkVolumeProperty::GetGradientOpacity`. -/
def GetGradientOpacity (w : World) (index : Int) : Option (Option Ptr × World) :=
  match slot index with
  | none => none
  | some i =>
    if w.self.DisableGradientOpacity i ≠ 0 then
      if w.self.DefaultGradientOpacity i = none then
        (CreateDefaultGradientOpacity w index).map
          (fun w => (w.self.DefaultGradientOpacity i, w))
      else some (w.self.DefaultGradientOpacity i, w)
    else GetStoredGradientOpacity w index

/-- The test of `SetTransferFunction2D` on the image it is given: scalars
present, four components, float type, first dimension non-zero. -/
def validImage (d : ImageInfo) : Bool :=
  !(d.hasScalars = false ∨ d.numberOfComponents ≠ 4 ∨ d.dataType ≠ VTK_FLOAT ∨ d.dim0 = 0)

/-- The member `vtkVolumeProperty::SetTransferFunction2D`. -/
def SetTransferFunction2D (w : World) (index : Int) (function : Option Ptr) : Option World :=
  match slot index with
  | none => none
  | some i =>
    if (w.self.TransferFunction2D i = none ∧ function = none) ∨
        w.self.TransferFunction2D i = function then some w
    else
      let w := UnRegisterIfSet w (w.self.TransferFunction2D i)
      match function with
      | none => some w
      | some f =>
        if validImage (w.image f) = false then some w
        else
          let w := w.setTransferFunction2D i (some f)
          let w := RegisterIfSet w (w.self.TransferFunction2D i)
          let w := w.stampTransferFunction2DMTime i
          some (Modified w)

/-- The member `vtkVolumeProperty::GetTransferFunction2D`. -/
def GetTransferFunction2D (w : World) (index : Int) : Option (Option Ptr) :=
  match slot index with
  | none => none
  | some i => some (w.self.TransferFunction2D i)

/-- The member `vtkVolumeProperty::SetDisableGradientOpacity`. -/
def SetDisableGradientOpacity (w : World) (index : Int) (value : Int) : Option World :=
  match slot index with
  | none => none
  | some i =>
    if w.self.DisableGradientOpacity i = value then some w
    else
      let w := w.setDisableGradientOpacity i value
      (if value ≠ 0 then CreateDefaultGradientOpacity w index else some w).map
        (fun w => Modified (w.stampGradientOpacityMTime i))

/-- The member `vtkVolumeProperty::GetDisableGradientOpacity`. -/
def GetDisableGradientOpacity (w : World) (index : Int) : Option Int :=
  match slot index with
  | none => none
  | some i => some (w.self.DisableGradientOpacity i)

/-- The member `vtkVolumeProperty::SetComponentWeight`. -/
def SetComponentWeight (w : World) (index : Int) (value : ℚ) : World :=
  if h : index < 0 ∨ index ≥ VTK_MAX_VRCOMP then w
  else
    let i : Fin 4 := ⟨index.toNat, by unfold VTK_MAX_VRCOMP at h; omega⟩
    let val : ℚ := if value < 0 then 0 else (if value > 1 then 1 else value)
    if w.self.ComponentWeight i ≠ val then Modified (w.setComponentWeight i val)
    else w

/-- The member `vtkVolumeProperty::GetComponentWeight`. -/
def GetComponentWeight (w : World) (index : Int) : ℚ :=
  if h : index < 0 ∨ index ≥ VTK_MAX_VRCOMP then 0
  else w.self.ComponentWeight ⟨index.toNat, by unfold VTK_MAX_VRCOMP at h; omega⟩

/-- The member `vtkVolumeProperty::SetShade`. -/
def SetShade (w : World) (index : Int) (value : Int) : Option World :=
  if value ≠ 0 ∧ value ≠ 1 then some w
  else
    match slot index with
    | none => none
    | some i =>
      if w.self.Shade i ≠ value then some (Modified (w.setShade i value))
      else some w

/-- The member `vtkVolumeProperty::ShadeOn`. -/
def ShadeOn (w : World) (index : Int) : Option World :=
  SetShade w index 1

/-- The member `vtkVolumeProperty::ShadeOff`. -/
def ShadeOff (w : World) (index : Int) : Option World :=
  SetShade w index 0

/-- The member `vtkVolumeProperty::GetShade`. -/
def GetShade (w : World) (index : Int) : Option Int :=
  match slot index with
  | none => none
  | some i => some (w.self.Shade i)

/-- The member `vtkVolumeProperty::SetAmbient`. -/
def SetAmbient (w : World) (index : Int) (value : ℚ) : Option World :=
  match slot index with
  | none => none
  | some i =>
    if w.self.Ambient i ≠ value then some (Modified (w.setAmbient i value))
    else some w

/-- The member `vtkVolumeProperty::GetAmbient`. -/
def GetAmbient (w : World) (index : Int) : Option ℚ :=
  match slot index with
  | none => none
  | some i => some (w.self.Ambient i)

/-- The member `vtkVolumeProperty::SetDiffuse`. -/
def SetDiffuse (w : World) (index : Int) (value : ℚ) : Option World :=
  match slot index with
  | none => none
  | some i =>
    if w.self.Diffuse i ≠ value then some (Modified (w.setDiffuse i value))
    else some w

/-- The member `vtkVolumeProperty::GetDiffuse`. -/
def GetDiffuse (w : World) (index : Int) : Option ℚ :=
  match slot index with
  | none => none
  | some i => some (w.self.Diffuse i)

/-- The member `vtkVolumeProperty::SetSpecular`. -/
def SetSpecular (w : World) (index : Int) (value : ℚ) : Option World :=
  match slot index with
  | none => none
  | some i =>
    if w.self.Specular i ≠ value then some (Modified (w.setSpecular i value))
    else some w

/-- The member `vtkVolumeProperty::GetSpecular`. -/
def GetSpecular (w : World) (index : Int) : Option ℚ :=
  match slot index with
  | none => none
  | some i => some (w.self.Specular i)

/-- The member `vtkVolumeProperty::SetSpecularPower`. -/
def SetSpecularPower (w : World) (index : Int) (value : ℚ) : Option World :=
  match slot index with
  | none => none
  | some i =>
    if w.self.SpecularPower i ≠ value then some (Modified (w.setSpecularPower i value))
    else some w

/-- The member `vtkVolumeProperty::GetSpecularPower`. -/
def GetSpecularPower (w : World) (index : Int) : Option ℚ :=
  match slot index with
  | none => none
  | some i => some (w.self.SpecularPower i)

/-- The member `vtkVolumeProperty::SetLabelColor`. -/
def SetLabelColor (w : World) (label : Int) (color : Option Ptr) : World :=
  if label = 0 then w
  else if w.self.LabelColor.count label ≠ 0 ∧ w.self.LabelColor.get label = color then w
  else
    let w :=
      if w.self.LabelColor.count label ≠ 0 then UnRegisterIfSet w (w.self.LabelColor.get label)
      else w
    let w := w.setLabelColor (w.self.LabelColor.assign label color)
    let w :=
      if w.self.LabelColor.get label ≠ none then
        (RegisterIfSet w (w.self.LabelColor.get label)).setLabelMapLabels
          (setInsert w.self.LabelMapLabels label)
      else w
    Modified w.stampLabelColorMTime

/-- The member `vtkVolumeProperty::GetLabelColor`. -/
def GetLabelColor (w : World) (label : Int) : Option Ptr :=
  if w.self.LabelColor.count label = 0 then none
  else w.self.LabelColor.get label

/-- The member `vtkVolumeProperty::SetLabelScalarOpacity`. -/
def SetLabelScalarOpacity (w : World) (label : Int) (function : Option Ptr) : World :=
  if label = 0 then w
  else if w.self.LabelScalarOpacity.count label ≠ 0 ∧ w.self.LabelScalarOpacity.get label = function then w
  else
    let w :=
      if w.self.LabelScalarOpacity.count label ≠ 0 then UnRegisterIfSet w (w.self.LabelScalarOpacity.get label)
      else w
    let w := w.setLabelScalarOpacity (w.self.LabelScalarOpacity.assign label function)
    let w :=
      if w.self.LabelScalarOpacity.get label ≠ none then
        (RegisterIfSet w (w.self.LabelScalarOpacity.get label)).setLabelMapLabels
          (setInsert w.self.LabelMapLabels label)
      else w
    Modified w.stampLabelScalarOpacityMTime

/-- The member `vtkVolumeProperty::GetLabelScalarOpacity`. -/
def GetLabelScalarOpacity (w : World) (label : Int) : Option Ptr :=
  if w.self.LabelScalarOpacity.count label = 0 then none
  else w.self.LabelScalarOpacity.get label

/-- The member `vtkVolumeProperty::SetLabelGradientOpacity`. -/
def SetLabelGradientOpacity (w : World) (label : Int) (function : Option Ptr) : World :=
  if label = 0 then w
  else if w.self.LabelGradientOpacity.count label ≠ 0 ∧ w.self.LabelGradientOpacity.get label = function then w
  else
    let w :=
      if w.self.LabelGradientOpacity.count label ≠ 0 then UnRegisterIfSet w (w.self.LabelGradientOpacity.get label)
      else w
    let w := w.setLabelGradientOpacity (w.self.LabelGradientOpacity.assign label function)
    let w :=
      if w.self.LabelGradientOpacity.get label ≠ none then
        (RegisterIfSet w (w.self.LabelGradientOpacity.get label)).setLabelMapLabels
          (setInsert w.self.LabelMapLabels label)
      else w
    Modified w.stampLabelGradientOpacityMTime

/-- The member `vtkVolumeProperty::GetLabelGradientOpacity`. -/
def GetLabelGradientOpacity (w : World) (label : Int) : Option Ptr :=
  if w.self.LabelGradientOpacity.count label = 0 then none
  else w.self.LabelGradientOpacity.get label

/-- The member `vtkVolumeProperty::GetLabelMapLabels`: the set returned and the
state left behind. -/
def GetLabelMapLabels (w : World) : List Int × World :=
  let labels := setEraseIf w.self.LabelMapLabels (fun l =>
    decide (GetLabelColor w l = none) && decide (GetLabelScalarOpacity w l = none) &&
      decide (GetLabelGradientOpacity w l = none))
  (labels, w.setLabelMapLabels labels)

/-- The member `vtkVolumeProperty::GetNumberOfLabels`. -/
def GetNumberOfLabels (w : World) : Nat × World :=
  ((GetLabelMapLabels w).1.length, (GetLabelMapLabels w).2)

/-! ## Calls as data -/

/-- A call of a state-changing member function, with its arguments. -/
inductive Op where
  | SetColorGray (index : Int) (function : Option Ptr)
  | GetGrayTransferFunction (index : Int)
  | SetColorRGB (index : Int) (function : Option Ptr)
  | GetRGBTransferFunction (index : Int)
  | SetScalarOpacity (index : Int) (function : Option Ptr)
  | GetScalarOpacity (index : Int)
  | SetScalarOpacityUnitDistance (index : Int) (distance : ℚ)
  | SetGradientOpacity (index : Int) (function : Option Ptr)
  | GetGradientOpacity (index : Int)
  | GetStoredGradientOpacity (index : Int)
  | SetTransferFunction2D (index : Int) (function : Option Ptr)
  | SetDisableGradientOpacity (index : Int) (value : Int)
  | SetComponentWeight (index : Int) (value : ℚ)
  | SetShade (index : Int) (value : Int)
  | SetAmbient (index : Int) (value : ℚ)
  | SetDiffuse (index : Int) (value : ℚ)
  | SetSpecular (index : Int) (value : ℚ)
  | SetSpecularPower (index : Int) (value : ℚ)
  | SetLabelColor (label : Int) (color : Option Ptr)
  | SetLabelScalarOpacity (label : Int) (function : Option Ptr)
  | SetLabelGradientOpacity (label : Int) (function : Option Ptr)
  | GetLabelMapLabels
  | UpdateMTimes

/-- The state a call leaves behind; `none` when the call indexes an array out
of bounds. -/
def step (w : World) : Op → Option World
  | .SetColorGray index function => SetColor_vtkPiecewiseFunction w index function
  | .GetGrayTransferFunction index => (GetGrayTransferFunction w index).map Prod.snd
  | .SetColorRGB index function => SetColor_vtkColorTransferFunction w index function
  | .GetRGBTransferFunction index => (GetRGBTransferFunction w index).map Prod.snd
  | .SetScalarOpacity index function => SetScalarOpacity w index function
  | .GetScalarOpacity index => (GetScalarOpacity w index).map Prod.snd
  | .SetScalarOpacityUnitDistance index distance =>
    some (SetScalarOpacityUnitDistance w index distance)
  | .SetGradientOpacity index function => SetGradientOpacity w index function
  | .GetGradientOpacity index => (GetGradientOpacity w index).map Prod.snd
  | .GetStoredGradientOpacity index => (GetStoredGradientOpacity w index).map Prod.snd
  | .SetTransferFunction2D index function => SetTransferFunction2D w index function
  | .SetDisableGradientOpacity index value => SetDisableGradientOpacity w index value
  | .SetComponentWeight index value => some (SetComponentWeight w index value)
  | .SetShade index value => SetShade w index value
  | .SetAmbient index value => SetAmbient w index value
  | .SetDiffuse index value => SetDiffuse w index value
  | .SetSpecular index value => SetSpecular w index value
  | .SetSpecularPower index value => SetSpecularPower w index value
  | .SetLabelColor label color => some (SetLabelColor w label color)
  | .SetLabelScalarOpacity label function => some (SetLabelScalarOpacity w label function)
  | .SetLabelGradientOpacity label function =>
    some (SetLabelGradientOpacity w label function)
  | .GetLabelMapLabels => some (GetLabelMapLabels w).2
  | .UpdateMTimes => some (UpdateMTimes w)

/-- The states a property constructed in the object system `e` can reach through
calls satisfying `allowed`. -/
inductive Reachable (allowed : Op → Prop) (e : Env) : World → Prop where
  | init : Reachable allowed e (construct e)
  | call {w w' : World} (op : Op) : Reachable allowed e w → allowed op →
      step w op = some w' → Reachable allowed e w'

/-! ## Vocabulary of the properties -/

/-- The label fields of the property. -/
def labelView (w : World) : LabelMap × LabelMap × LabelMap × List Int :=
  (w.self.LabelColor, w.self.LabelScalarOpacity, w.self.LabelGradientOpacity,
    w.self.LabelMapLabels)

/-- A label with at least one non-null per-label function. -/
def activeLabel (w : World) (l : Int) : Prop :=
  GetLabelColor w l ≠ none ∨ GetLabelScalarOpacity w l ≠ none ∨
    GetLabelGradientOpacity w l ≠ none

/-- The calls that set a per-label function of label `l`. -/
def Op.setsLabel (l : Int) : Op → Prop
  | .SetLabelColor l' _ => l' = l
  | .SetLabelScalarOpacity l' _ => l' = l
  | .SetLabelGradientOpacity l' _ => l' = l
  | _ => False

/-- The calls that write a label map or the label set. -/
def Op.onLabels : Op → Bool
  | .SetLabelColor _ _ => true
  | .SetLabelScalarOpacity _ _ => true
  | .SetLabelGradientOpacity _ _ => true
  | .GetLabelMapLabels => true
  | _ => false

/-- The label set has no repetition and holds every active label. -/
def LabelInv (w : World) : Prop :=
  w.self.LabelMapLabels.Nodup ∧ ∀ l, activeLabel w l → l ∈ w.self.LabelMapLabels

/-- The two time stamps a set slot contributes: the time the pointer was set and
the function's own modification time; an empty slot contributes none. -/
def slotSources (w : World) (o : Option Ptr) (stamp : Nat) : List Nat :=
  match o with
  | some f => [stamp, w.objMTime f]
  | none => []

/-- The time stamps component `i` contributes to the modification time: the slot
time stamp and the function's own time of the gray function when
`ColorChannels[i]` is 1 and it is set, of the RGB function when
`ColorChannels[i]` is 3 and it is set, of the scalar-opacity function when set,
of the 2D transfer function when set, the gradient-opacity slot time stamp when
a gradient function is set, and that function's own time when moreover
`DisableGradientOpacity[i]` is 0. -/
def componentSources (w : World) (i : Fin 4) : List Nat :=
  (if w.self.ColorChannels i = 1 then
    slotSources w (w.self.GrayTransferFunction i) (w.self.GrayTransferFunctionMTime i)
   else []) ++
  (if w.self.ColorChannels i = 3 then
    slotSources w (w.self.RGBTransferFunction i) (w.self.RGBTransferFunctionMTime i)
   else []) ++
  slotSources w (w.self.ScalarOpacity i) (w.self.ScalarOpacityMTime i) ++
  slotSources w (w.self.TransferFunction2D i) (w.self.TransferFunction2DMTime i) ++
  (match w.self.GradientOpacity i with
    | some f =>
      w.self.GradientOpacityMTime i ::
        (if w.self.DisableGradientOpacity i = 0 then [w.objMTime f] else [])
    | none => [])

/-- The time stamps that enter the modification time: the object's own, the
iso-surface values', the three label time stamps, and those of the four
components. -/
def mtimeSources (w : World) : List Nat :=
  [w.self.MTime, w.objMTime w.self.IsoSurfaceValues, w.self.LabelColorMTime,
    w.self.LabelScalarOpacityMTime, w.self.LabelGradientOpacityMTime] ++
  (componentSources w 0 ++ componentSources w 1 ++ componentSources w 2 ++
    componentSources w 3)

/-- The greatest element of a list of time stamps (0 for the empty list). -/
def listMax (l : List Nat) : Nat :=
  l.foldr max 0

/-- No time stamp of the state exceeds the global counter: every stamp was
issued by the counter.  Stated for each object `p` and each component `i`. -/
def TimesBounded (w : World) : Prop :=
  ∀ (p : Ptr) (i : Fin 4),
    w.self.MTime ≤ w.clock ∧
    w.objMTime p ≤ w.clock ∧
    w.self.GrayTransferFunctionMTime i ≤ w.clock ∧
    w.self.RGBTransferFunctionMTime i ≤ w.clock ∧
    w.self.ScalarOpacityMTime i ≤ w.clock ∧
    w.self.GradientOpacityMTime i ≤ w.clock ∧
    w.self.TransferFunction2DMTime i ≤ w.clock ∧
    w.self.LabelColorMTime ≤ w.clock ∧
    w.self.LabelScalarOpacityMTime ≤ w.clock ∧
    w.self.LabelGradientOpacityMTime ≤ w.clock

/-- The same requirement on an object system before construction. -/
def Env.TimesBounded (e : Env) : Prop :=
  ∀ p, e.objMTime p ≤ e.clock

/-- Every time stamp that enters `GetMTime` in `w` is matched or exceeded in
`w'`: the stamps grow, the flags that select the sources are the same, and a
slot either keeps its pointer or was empty.  Stated for each object `p` and
each component `i`. -/
def SourcesGrow (w w' : World) : Prop :=
  ∀ (p : Ptr) (i : Fin 4),
    w.self.MTime ≤ w'.self.MTime ∧
    w'.self.IsoSurfaceValues = w.self.IsoSurfaceValues ∧
    w.objMTime p ≤ w'.objMTime p ∧
    w.self.LabelColorMTime ≤ w'.self.LabelColorMTime ∧
    w.self.LabelScalarOpacityMTime ≤ w'.self.LabelScalarOpacityMTime ∧
    w.self.LabelGradientOpacityMTime ≤ w'.self.LabelGradientOpacityMTime ∧
    w'.self.ColorChannels i = w.self.ColorChannels i ∧
    w'.self.DisableGradientOpacity i = w.self.DisableGradientOpacity i ∧
    ((w.self.GrayTransferFunction i = none ∨
        w'.self.GrayTransferFunction i = w.self.GrayTransferFunction i) ∧
      w.self.GrayTransferFunctionMTime i ≤ w'.self.GrayTransferFunctionMTime i) ∧
    ((w.self.RGBTransferFunction i = none ∨
        w'.self.RGBTransferFunction i = w.self.RGBTransferFunction i) ∧
      w.self.RGBTransferFunctionMTime i ≤ w'.self.RGBTransferFunctionMTime i) ∧
    ((w.self.ScalarOpacity i = none ∨
        w'.self.ScalarOpacity i = w.self.ScalarOpacity i) ∧
      w.self.ScalarOpacityMTime i ≤ w'.self.ScalarOpacityMTime i) ∧
    ((w.self.TransferFunction2D i = none ∨
        w'.self.TransferFunction2D i = w.self.TransferFunction2D i) ∧
      w.self.TransferFunction2DMTime i ≤ w'.self.TransferFunction2DMTime i) ∧
    ((w.self.GradientOpacity i = none ∨
        w'.self.GradientOpacity i = w.self.GradientOpacity i) ∧
      w.self.GradientOpacityMTime i ≤ w'.self.GradientOpacityMTime i)

/-- The call stores, in a one-dimensional slot or a label map, a function
different from the one stored there before (null allowed on either side). -/
def Op.storesNew (w : World) : Op → Prop
  | .SetColorGray index function =>
    ∃ i, slot index = some i ∧ w.self.GrayTransferFunction i ≠ function
  | .SetColorRGB index function =>
    ∃ i, slot index = some i ∧ w.self.RGBTransferFunction i ≠ function
  | .SetScalarOpacity index function =>
    ∃ i, slot index = some i ∧ w.self.ScalarOpacity i ≠ function
  | .SetGradientOpacity index function =>
    ∃ i, slot index = some i ∧ w.self.GradientOpacity i ≠ function
  | .SetLabelColor label color => label ≠ 0 ∧ GetLabelColor w label ≠ color
  | .SetLabelScalarOpacity label function =>
    label ≠ 0 ∧ GetLabelScalarOpacity w label ≠ function
  | .SetLabelGradientOpacity label function =>
    label ≠ 0 ∧ GetLabelGradientOpacity w label ≠ function
  | _ => False

/-- The number of elements of a per-component pointer array that store `p`. -/
def arrayCount (a : Fin 4 → Option Ptr) (p : Ptr) : Int :=
  (if a 0 = some p then 1 else 0) + (if a 1 = some p then 1 else 0) +
    (if a 2 = some p then 1 else 0) + (if a 3 = some p then 1 else 0)

/-- The number of entries of a label map that store `p`. -/
def LabelMap.countOf : LabelMap → Ptr → Int
  | [], _ => 0
  | (_, v) :: m, p => (if v = some p then 1 else 0) + LabelMap.countOf m p

/-- The number of slots and label-map entries of the property that store `p`. -/
def slotCount (w : World) (p : Ptr) : Int :=
  arrayCount w.self.GrayTransferFunction p + arrayCount w.self.RGBTransferFunction p +
    arrayCount w.self.ScalarOpacity p + arrayCount w.self.GradientOpacity p +
    arrayCount w.self.DefaultGradientOpacity p + arrayCount w.self.TransferFunction2D p +
    w.self.LabelColor.countOf p + w.self.LabelScalarOpacity.countOf p +
    w.self.LabelGradientOpacity.countOf p

/-- The ownership invariant: the property holds as many references on each
object as it has slots and label-map entries storing it. -/
def Owns (w : World) : Prop :=
  ∀ p, w.self.held p = slotCount w p

/-- The net number of references an assignment of `new` to a slot holding `old`
takes on `p`: one for a new non-null `p`, minus one for an old non-null `p`. -/
def refDelta (old new : Option Ptr) (p : Ptr) : Int :=
  (if new = some p then 1 else 0) - (if old = some p then 1 else 0)

/-- The calls of `SetTransferFunction2D`. -/
def Op.isSetTransferFunction2D : Op → Bool
  | .SetTransferFunction2D _ _ => true
  | _ => false

/-- For a call that assigns to a one-dimensional slot or to a label map: the
pointer stored there before the call and the pointer passed. -/
def Op.assigned (w : World) : Op → Option (Option Ptr × Option Ptr)
  | .SetColorGray index function =>
    (slot index).map (fun i => (w.self.GrayTransferFunction i, function))
  | .SetColorRGB index function =>
    (slot index).map (fun i => (w.self.RGBTransferFunction i, function))
  | .SetScalarOpacity index function =>
    (slot index).map (fun i => (w.self.ScalarOpacity i, function))
  | .SetGradientOpacity index function =>
    (slot index).map (fun i => (w.self.GradientOpacity i, function))
  | .SetLabelColor label color =>
    if label = 0 then none else some (GetLabelColor w label, color)
  | .SetLabelScalarOpacity label function =>
    if label = 0 then none else some (GetLabelScalarOpacity w label, function)
  | .SetLabelGradientOpacity label function =>
    if label = 0 then none else some (GetLabelGradientOpacity w label, function)
  | _ => none


/-- A fresh property after `SetColor(0, 7)` with a gray function and
`SetScalarOpacity(1, 7)`: the function 7 is stored in two slots. -/
def twoSlots : World :=
  ((step ((step (construct emptyEnv) (Op.SetColorGray 0 (some 7))).getD
    (construct emptyEnv)) (Op.SetScalarOpacity 1 (some 7))).getD (construct emptyEnv))

/-- The state `twoSlots` after `SetColor(0, 9)` with a gray function. -/
def twoSlotsThen : World :=
  (step twoSlots (Op.SetColorGray 0 (some 9))).getD twoSlots

/-- An object system in which the image 7 passes the test of
`SetTransferFunction2D` (float scalars with four components, 256 by 256) and
every other image, the image 8 among them, has no scalars. -/
def imageEnv : Env :=
  { clock := 0
    next := 100
    objMTime := fun _ => 0
    nodes := fun _ => []
    image := fun p =>
      if p = 7 then { hasScalars := true, numberOfComponents := 4, dataType := VTK_FLOAT,
                      dim0 := 256, dim1 := 256 }
      else { hasScalars := false, numberOfComponents := 0, dataType := 0,
             dim0 := 0, dim1 := 0 } }

/-- A fresh property in `imageEnv` after `SetTransferFunction2D(0, 7)`. -/
def lookupSet : World :=
  (SetTransferFunction2D (construct imageEnv) 0 (some 7)).getD (construct imageEnv)

/-- What is said of a default-creating getter `get` of the slots `field` with
setter `set` and default nodes `dflt`, at the state `w` and the valid index
`index` (slot `i`): the call returns a non-null `p`, which the slot stores
afterwards; a second call returns the same `p` and changes nothing, so creates
nothing; a function the slot held is returned with the state unchanged; on an
empty slot `p` is a newly allocated object, the only one allocated, with exactly
the nodes `dflt`; and after `set(index, f)` with a non-null `f` the getter
returns `f`, again creating nothing. -/
def DefaultCreating (get : World → Int → Option (Option Ptr × World))
    (field : World → Fin 4 → Option Ptr) (set : World → Int → Option Ptr → Option World)
    (dflt : List Node) (w : World) (index : Int) (i : Fin 4) : Prop :=
  (∃ p w', get w index = some (some p, w') ∧ field w' i = some p ∧
    get w' index = some (some p, w') ∧
    (∀ f, field w i = some f → p = f ∧ w' = w) ∧
    (field w i = none → p = w.next ∧ w'.next = w.next + 1 ∧ w'.nodes p = dflt)) ∧
  (∀ f, ∃ w1, set w index (some f) = some w1 ∧ get w1 index = some (some f, w1))

/-! ## The border widget (`vtkBorderWidget.cxx`) -/

/-- The representation of a border widget as far as the widget reads and writes
it: the interaction state (the result of the last hit test), the `Moving` flag,
the two border modes, the value `GetShowBorder()` returns, and the overlay
switch of the border actor. -/
structure vtkBorderRepresentation where
  InteractionState : Int
  Moving : Int
  ShowVerticalBorder : Int
  ShowHorizontalBorder : Int
  ShowBorder : Int
  BWActorDisplayOverlay : Bool
deriving DecidableEq, Repr

/-- Modelled from the spec: the enumerators of the interaction state, declared
in `vtkBorderRepresentation.h`, numbered from 0 in the order `SetCursor` lists
them after `Outside` and `Inside`; the widget only compares them. -/
def vtkBorderRepresentation.Outside : Int := 0

/-- Modelled from the spec: enumerator of `vtkBorderRepresentation.h`. -/
def vtkBorderRepresentation.Inside : Int := 1

/-- Modelled from the spec: enumerator of `vtkBorderRepresentation.h`. -/
def vtkBorderRepresentation.AdjustingP0 : Int := 2

/-- Modelled from the spec: enumerator of `vtkBorderRepresentation.h`. -/
def vtkBorderRepresentation.AdjustingP1 : Int := 3

/-- Modelled from the spec: enumerator of `vtkBorderRepresentation.h`. -/
def vtkBorderRepresentation.AdjustingP2 : Int := 4

/-- Modelled from the spec: enumerator of `vtkBorderRepresentation.h`. -/
def vtkBorderRepresentation.AdjustingP3 : Int := 5

/-- Modelled from the spec: enumerator of `vtkBorderRepresentation.h`. -/
def vtkBorderRepresentation.AdjustingE0 : Int := 6

/-- Modelled from the spec: enumerator of `vtkBorderRepresentation.h`. -/
def vtkBorderRepresentation.AdjustingE1 : Int := 7

/-- Modelled from the spec: enumerator of `vtkBorderRepresentation.h`. -/
def vtkBorderRepresentation.AdjustingE2 : Int := 8

/-- Modelled from the spec: enumerator of `vtkBorderRepresentation.h`. -/
def vtkBorderRepresentation.AdjustingE3 : Int := 9

/-- Modelled from the spec: border mode of `vtkBorderRepresentation.h`. -/
def vtkBorderRepresentation.BORDER_OFF : Int := 0

/-- Modelled from the spec: border mode of `vtkBorderRepresentation.h`. -/
def vtkBorderRepresentation.BORDER_ON : Int := 1

/-- Modelled from the spec: border mode of `vtkBorderRepresentation.h`. -/
def vtkBorderRepresentation.BORDER_ACTIVE : Int := 2

/-- Modelled from the spec: cursor shape of `vtkRenderWindow.h`. -/
def VTK_CURSOR_DEFAULT : Int := 0

/-- Modelled from the spec: cursor shape of `vtkRenderWindow.h`. -/
def VTK_CURSOR_SIZENE : Int := 2

/-- Modelled from the spec: cursor shape of `vtkRenderWindow.h`. -/
def VTK_CURSOR_SIZENW : Int := 3

/-- Modelled from the spec: cursor shape of `vtkRenderWindow.h`. -/
def VTK_CURSOR_SIZESW : Int := 4

/-- Modelled from the spec: cursor shape of `vtkRenderWindow.h`. -/
def VTK_CURSOR_SIZESE : Int := 5

/-- Modelled from the spec: cursor shape of `vtkRenderWindow.h`. -/
def VTK_CURSOR_SIZENS : Int := 6

/-- Modelled from the spec: cursor shape of `vtkRenderWindow.h`. -/
def VTK_CURSOR_SIZEWE : Int := 7

/-- Modelled from the spec: cursor shape of `vtkRenderWindow.h`. -/
def VTK_CURSOR_SIZEALL : Int := 8

/-- Modelled from the spec: cursor shape of `vtkRenderWindow.h`. -/
def VTK_CURSOR_HAND : Int := 9

/-- The events of `vtkCommand` the widget observes or emits. -/
inductive vtkCommand
  | LeftButtonPressEvent
  | LeftButtonReleaseEvent
  | MiddleButtonPressEvent
  | MiddleButtonReleaseEvent
  | MouseMoveEvent
  | HoverEvent
  | StartInteractionEvent
  | InteractionEvent
  | EndInteractionEvent
  | WidgetActivateEvent
deriving DecidableEq, Repr

/-- The widget events the callback mapper translates to. -/
inductive vtkWidgetEvent
  | Select
  | EndSelect
  | Translate
  | Move
  | HoverLeave
deriving DecidableEq, Repr

/-- The five static callbacks of the widget. -/
inductive Callback
  | SelectAction
  | TranslateAction
  | MoveAction
  | EndSelectAction
  | HoverLeaveAction
deriving DecidableEq, Repr

/-- A call the widget makes on a collaborator: the interactor, the renderer, its
event command, its observers or its representation. -/
inductive Call
  | RequestCursorShape (shape : Int)
  | GrabFocus
  | ReleaseFocus
  | SetAbortFlag (flag : Int)
  | StartWidgetInteraction (x y : ℚ)
  | WidgetInteraction (x y : ℚ)
  | ComputeInteractionState (X Y : Int)
  | StartInteraction
  | EndInteraction
  | InvokeEvent (event : vtkCommand)
  | Render
deriving DecidableEq, Repr

/-- The widget: its three members, its representation (null until one is set),
whether it has grabbed the focus, the abort flag of its event command, and the
calls it has made on its collaborators, oldest first. -/
structure vtkBorderWidget where
  WidgetState : Int
  Selectable : Int
  Resizable : Int
  WidgetRep : Option vtkBorderRepresentation
  Focus : Bool
  AbortFlag : Int
  calls : List Call
deriving DecidableEq, Repr

/-- Modelled from the spec: the enumerators of the widget state, declared in
`vtkBorderWidget.h`, numbered in the order the specification lists them; the
widget only compares them. -/
def vtkBorderWidget.Start : Int := 0

/-- Modelled from the spec: enumerator of `vtkBorderWidget.h`. -/
def vtkBorderWidget.Selected : Int := 1

/-- What an action finds outside the widget when it runs: the result of the
subclass hook, the event position of the interactor, that position after the
three conversions of the renderer to normalized viewport coordinates, and the
interaction state the hit test `ComputeInteractionState(X, Y)` arrives at. -/
structure EventInfo where
  Subclass : Int
  X : Int
  Y : Int
  XF : ℚ
  YF : ℚ
  hit : Int
deriving DecidableEq, Repr

/-- The table the constructor registers with the callback mapper. -/
def CallbackMapper : List (vtkCommand × vtkWidgetEvent × Callback) :=
  [ (vtkCommand.LeftButtonPressEvent, vtkWidgetEvent.Select, Callback.SelectAction),
    (vtkCommand.LeftButtonReleaseEvent, vtkWidgetEvent.EndSelect, Callback.EndSelectAction),
    (vtkCommand.MiddleButtonPressEvent, vtkWidgetEvent.Translate, Callback.TranslateAction),
    (vtkCommand.MiddleButtonReleaseEvent, vtkWidgetEvent.EndSelect, Callback.EndSelectAction),
    (vtkCommand.MouseMoveEvent, vtkWidgetEvent.Move, Callback.MoveAction),
    (vtkCommand.HoverEvent, vtkWidgetEvent.HoverLeave, Callback.HoverLeaveAction) ]

/-- The constructor `vtkBorderWidget::vtkBorderWidget`. -/
def vtkBorderWidget.construct : vtkBorderWidget :=
  { WidgetState := vtkBorderWidget.Start
    Selectable := 1
    Resizable := 1
    WidgetRep := none
    Focus := false
    AbortFlag := 0
    calls := [] }

/-- Records a call on a collaborator. -/
@[simps -fullyApplied]
def vtkBorderWidget.call (self : vtkBorderWidget) (c : Call) : vtkBorderWidget :=
  { self with calls := self.calls ++ [c] }

/-- The call `this->RequestCursorShape(shape)`. -/
def RequestCursorShape (self : vtkBorderWidget) (shape : Int) : vtkBorderWidget :=
  self.call (Call.RequestCursorShape shape)

/-- The call `self->GrabFocus(self->EventCallbackCommand)`. -/
def GrabFocus (self : vtkBorderWidget) : vtkBorderWidget :=
  { self with Focus := true }.call Call.GrabFocus

/-- The call `self->ReleaseFocus()`. -/
def ReleaseFocus (self : vtkBorderWidget) : vtkBorderWidget :=
  { self with Focus := false }.call Call.ReleaseFocus

/-- The call `self->EventCallbackCommand->SetAbortFlag(flag)`. -/
def SetAbortFlag (self : vtkBorderWidget) (flag : Int) : vtkBorderWidget :=
  { self with AbortFlag := flag }.call (Call.SetAbortFlag flag)

/-- The call `self->InvokeEvent(event, nullptr)`. -/
def InvokeEvent (self : vtkBorderWidget) (event : vtkCommand) : vtkBorderWidget :=
  self.call (Call.InvokeEvent event)

/-- The call `self->Render()`. -/
def Render (self : vtkBorderWidget) : vtkBorderWidget :=
  self.call Call.Render

/-- An assignment to a member of the representation. -/
def vtkBorderWidget.setRep (self : vtkBorderWidget) (rep : vtkBorderRepresentation) :
    vtkBorderWidget :=
  { self with WidgetRep := some rep }

/-- The member `vtkBorderWidget::SelectRegion`. -/
def SelectRegion (self : vtkBorderWidget) : vtkBorderWidget :=
  InvokeEvent self vtkCommand.WidgetActivateEvent

open vtkBorderRepresentation in
/-- The member `vtkBorderWidget::SetCursor`; `none` is the call of `GetMoving`
through a null representation. -/
def SetCursor (self : vtkBorderWidget) (cState : Int) : Option vtkBorderWidget :=
  if self.Resizable = 0 ∧ cState ≠ Inside then
    some (RequestCursorShape self VTK_CURSOR_DEFAULT)
  else if cState = AdjustingP0 then some (RequestCursorShape self VTK_CURSOR_SIZESW)
  else if cState = AdjustingP1 then some (RequestCursorShape self VTK_CURSOR_SIZESE)
  else if cState = AdjustingP2 then some (RequestCursorShape self VTK_CURSOR_SIZENE)
  else if cState = AdjustingP3 then some (RequestCursorShape self VTK_CURSOR_SIZENW)
  else if cState = AdjustingE0 ∨ cState = AdjustingE2 then
    some (RequestCursorShape self VTK_CURSOR_SIZENS)
  else if cState = AdjustingE1 ∨ cState = AdjustingE3 then
    some (RequestCursorShape self VTK_CURSOR_SIZEWE)
  else if cState = Inside then
    match self.WidgetRep with
    | none => none
    | some rep =>
      if rep.Moving ≠ 0 then some (RequestCursorShape self VTK_CURSOR_SIZEALL)
      else some (RequestCursorShape self VTK_CURSOR_HAND)
  else some (RequestCursorShape self VTK_CURSOR_DEFAULT)

open vtkBorderRepresentation in
/-- The callback `vtkBorderWidget::SelectAction`; `none` is a call through a null
representation. -/
def SelectAction (self : vtkBorderWidget) (ev : EventInfo) : Option vtkBorderWidget :=
  if ev.Subclass ≠ 0 then some self
  else
    match self.WidgetRep with
    | none => none
    | some rep =>
      if rep.InteractionState = Outside then some self
      else
        let self := GrabFocus self
        let self := { self with WidgetState := vtkBorderWidget.Selected }
        (SetCursor self rep.InteractionState).map fun self =>
          let self := self.call (Call.StartWidgetInteraction ev.XF ev.YF)
          let self :=
            if self.Selectable ≠ 0 ∧ rep.InteractionState = Inside then SelectRegion self
            else self
          let self := SetAbortFlag self 1
          let self := self.call Call.StartInteraction
          InvokeEvent self vtkCommand.StartInteractionEvent

open vtkBorderRepresentation in
/-- The callback `vtkBorderWidget::TranslateAction`. -/
def TranslateAction (self : vtkBorderWidget) (ev : EventInfo) : Option vtkBorderWidget :=
  if ev.Subclass ≠ 0 then some self
  else
    match self.WidgetRep with
    | none => none
    | some rep =>
      if rep.InteractionState = Outside then some self
      else
        let self := GrabFocus self
        let self := { self with WidgetState := vtkBorderWidget.Selected }
        let rep := { rep with Moving := 1 }
        let self := self.setRep rep
        (SetCursor self rep.InteractionState).map fun self =>
          let self := self.call (Call.StartWidgetInteraction ev.XF ev.YF)
          let self := SetAbortFlag self 1
          let self := self.call Call.StartInteraction
          InvokeEvent self vtkCommand.StartInteractionEvent

open vtkBorderRepresentation in
/-- The callback `vtkBorderWidget::MoveAction`. -/
def MoveAction (self : vtkBorderWidget) (ev : EventInfo) : Option vtkBorderWidget :=
  if ev.Subclass ≠ 0 then some self
  else if self.WidgetState = vtkBorderWidget.Start then
    match self.WidgetRep with
    | none => none
    | some rep =>
      let stateBefore := rep.InteractionState
      let self := self.call (Call.ComputeInteractionState ev.X ev.Y)
      let rep := { rep with InteractionState := ev.hit }
      let self := self.setRep rep
      let stateAfter := rep.InteractionState
      (SetCursor self stateAfter).map fun self =>
        let rep :=
          if self.Selectable ≠ 0 ∨ stateAfter ≠ Inside then { rep with Moving := 0 }
          else { rep with Moving := 1 }
        let self := self.setRep rep
        if (rep.ShowVerticalBorder = BORDER_ACTIVE ∨ rep.ShowHorizontalBorder = BORDER_ACTIVE) ∧
            stateBefore ≠ stateAfter ∧ (stateBefore = Outside ∨ stateAfter = Outside) then
          Render self
        else self
  else
    match self.WidgetRep with
    | none => none
    | some rep =>
      if self.Resizable = 0 ∧ rep.InteractionState ≠ Inside then some self
      else
        let self := self.call (Call.WidgetInteraction ev.X ev.Y)
        let self := SetAbortFlag self 1
        let self := InvokeEvent self vtkCommand.InteractionEvent
        some (Render self)

open vtkBorderRepresentation in
/-- The callback `vtkBorderWidget::EndSelectAction`. -/
def EndSelectAction (self : vtkBorderWidget) (ev : EventInfo) : Option vtkBorderWidget :=
  if ev.Subclass ≠ 0 then some self
  else
    match self.WidgetRep with
    | none => none
    | some rep =>
      if rep.InteractionState = Outside ∨ self.WidgetState ≠ vtkBorderWidget.Selected then
        some self
      else
        let self := ReleaseFocus self
        let self := { self with WidgetState := vtkBorderWidget.Start }
        let self := self.setRep { rep with Moving := 0 }
        let self := SetAbortFlag self 1
        let self := self.call Call.EndInteraction
        some (InvokeEvent self vtkCommand.EndInteractionEvent)

open vtkBorderRepresentation in
/-- The callback `vtkBorderWidget::HoverLeaveAction`; `SetCursor(false)` is
`SetCursor(0)`. -/
def HoverLeaveAction (self : vtkBorderWidget) : Option vtkBorderWidget :=
  let self :=
    match self.WidgetRep with
    | none => self
    | some rep =>
      if rep.ShowBorder ≠ BORDER_ON then
        self.setRep { rep with BWActorDisplayOverlay := false, InteractionState := Outside }
      else self
  (SetCursor self 0).map Render

/-- The member `vtkBorderWidget::CreateDefaultRepresentation`; `fresh` is the
representation `vtkBorderRepresentation::New()` returns. -/
def CreateDefaultRepresentation (self : vtkBorderWidget) (fresh : vtkBorderRepresentation) :
    vtkBorderWidget :=
  if self.WidgetRep = none then self.setRep fresh else self

/-- What can happen to a widget: the interactor runs one of the five callbacks,
or the application sets the representation or one of the two flags. -/
inductive WidgetOp
  | SelectAction (ev : EventInfo)
  | TranslateAction (ev : EventInfo)
  | MoveAction (ev : EventInfo)
  | EndSelectAction (ev : EventInfo)
  | HoverLeaveAction
  | CreateDefaultRepresentation (fresh : vtkBorderRepresentation)
  | SetRepresentation (r : Option vtkBorderRepresentation)
  | SetSelectable (value : Int)
  | SetResizable (value : Int)

/-- One operation on the widget. -/
def widgetStep (self : vtkBorderWidget) : WidgetOp → Option vtkBorderWidget
  | .SelectAction ev => SelectAction self ev
  | .TranslateAction ev => TranslateAction self ev
  | .MoveAction ev => MoveAction self ev
  | .EndSelectAction ev => EndSelectAction self ev
  | .HoverLeaveAction => HoverLeaveAction self
  | .CreateDefaultRepresentation fresh => some (CreateDefaultRepresentation self fresh)
  | .SetRepresentation r => some { self with WidgetRep := r }
  | .SetSelectable value => some { self with Selectable := value }
  | .SetResizable value => some { self with Resizable := value }

/-- The states a widget reaches from its construction. -/
inductive WidgetReachable : vtkBorderWidget → Prop
  | init : WidgetReachable vtkBorderWidget.construct
  | call {self self' : vtkBorderWidget} (op : WidgetOp) :
      WidgetReachable self → widgetStep self op = some self' → WidgetReachable self'

/-- The calls a widget made on its collaborators between the states `self` and
`self'`. -/
def callsSince (self self' : vtkBorderWidget) : List Call :=
  self'.calls.drop self.calls.length

/-- A widget with a representation whose interaction state is `Inside`, as the
application hands it to the interactor. -/
def insideWidget : vtkBorderWidget :=
  { vtkBorderWidget.construct with
    WidgetRep := some { InteractionState := vtkBorderRepresentation.Inside, Moving := 0,
                        ShowVerticalBorder := vtkBorderRepresentation.BORDER_ON,
                        ShowHorizontalBorder := vtkBorderRepresentation.BORDER_ON,
                        ShowBorder := vtkBorderRepresentation.BORDER_ON,
                        BWActorDisplayOverlay := false } }

/-- An event at the display position (10, 20), not taken by any subclass hook,
whose hit test finds the corner `AdjustingP0`. -/
def cornerEvent : EventInfo :=
  { Subclass := 0, X := 10, Y := 20, XF := 1 / 10, YF := 1 / 5,
    hit := vtkBorderRepresentation.AdjustingP0 }

open vtkBorderRepresentation in
/-- The cursor shapes of the corner and edge states, as the table of the
specification lists them. -/
def cursorTable : List (Int × Int) :=
  [ (AdjustingP0, VTK_CURSOR_SIZESW), (AdjustingP1, VTK_CURSOR_SIZESE),
    (AdjustingP2, VTK_CURSOR_SIZENE), (AdjustingP3, VTK_CURSOR_SIZENW),
    (AdjustingE0, VTK_CURSOR_SIZENS), (AdjustingE2, VTK_CURSOR_SIZENS),
    (AdjustingE1, VTK_CURSOR_SIZEWE), (AdjustingE3, VTK_CURSOR_SIZEWE) ]

open vtkBorderRepresentation in
/-- The cursor shape the specification gives for the `Resizable` flag, the
`Moving` flag of the representation and an interaction state: the default
cursor when `Resizable` is off and the state is not `Inside`; else for `Inside`
the four-way arrow when moving and the hand when not; else the shape of
`cursorTable`, and the default cursor for a state the table does not have. -/
def cursorShape (Resizable Moving cState : Int) : Int :=
  if Resizable = 0 ∧ cState ≠ Inside then VTK_CURSOR_DEFAULT
  else if cState = Inside then
    if Moving ≠ 0 then VTK_CURSOR_SIZEALL else VTK_CURSOR_HAND
  else (cursorTable.lookup cState).getD VTK_CURSOR_DEFAULT

/-- The widget `insideWidget` after a left button press at `cornerEvent`. -/
def selectedWidget : vtkBorderWidget :=
  (SelectAction insideWidget cornerEvent).getD insideWidget

/-- No label map has the key 0 with a function: the value at 0 is null. -/
def ZeroFree (w : World) : Prop :=
  w.self.LabelColor.get 0 = none ∧ w.self.LabelScalarOpacity.get 0 = none ∧
    w.self.LabelGradientOpacity.get 0 = none

/-- A fresh property after `SetLabelColor(0, 7)` and `SetLabelColor(5, 7)`. -/
def labelledZero : World :=
  SetLabelColor (SetLabelColor (construct emptyEnv) 0 (some 7)) 5 (some 7)

/-! ## Two properties in one object system: `DeepCopy` -/

/-- The object system of `w` with the property `s` in the place of `self`. -/
@[simps -fullyApplied]
def World.withSelf (w : World) (s : vtkVolumeProperty) : World :=
  { w with self := s }

/-- A call `p->f(...)` of a member `f` on another property `p` of the object
system of `w`: what `f` returns, the object system afterwards with `w.self`
still in place, and `p` afterwards. -/
def onSource {α : Type} (f : World → Option (α × World)) (w : World)
    (p : vtkVolumeProperty) : Option (α × World × vtkVolumeProperty) :=
  (f (w.withSelf p)).map fun r => (r.1, r.2.withSelf w.self, r.2.self)

/-- Modelled from the spec: the call `dst->DeepCopy(src)` on two functions (or
two sets of contour values), whose classes are outside the two source files:
`dst` gets the nodes of `src` and is stamped; a null `src` is ignored; `none`
is the call through a null `dst`. -/
def copyFunction (w : World) (dst src : Option Ptr) : Option World :=
  match dst with
  | none => none
  | some d =>
    match src with
    | none => some w
    | some s => some (objModified (w.setNodes d (w.nodes s)) d)

/-- The assignment `this->IndependentComponents = v`. -/
@[simps -fullyApplied]
def World.setIndependentComponents (w : World) (v : Int) : World :=
  { w with self := { w.self with IndependentComponents := v } }

/-- The assignment `this->InterpolationType = v`. -/
@[simps -fullyApplied]
def World.setInterpolationType (w : World) (v : Int) : World :=
  { w with self := { w.self with InterpolationType := v } }

/-- The assignment `this->UseClippedVoxelIntensity = v`. -/
@[simps -fullyApplied]
def World.setUseClippedVoxelIntensity (w : World) (v : Int) : World :=
  { w with self := { w.self with UseClippedVoxelIntensity := v } }

/-- The assignment `this->ClippedVoxelIntensity = v`. -/
@[simps -fullyApplied]
def World.setClippedVoxelIntensity (w : World) (v : ℚ) : World :=
  { w with self := { w.self with ClippedVoxelIntensity := v } }

/-- Modelled from the spec: the setter `SetIndependentComponents` that
`vtkVolumeProperty.h` generates: the value is clamped to 0..1, stored when it
differs, and the property is stamped then. -/
def SetIndependentComponents (w : World) (v : Int) : World :=
  let c : Int := if v < 0 then 0 else if v > 1 then 1 else v
  if w.self.IndependentComponents ≠ c then Modified (w.setIndependentComponents c) else w

/-- Modelled from the spec: the setter `SetInterpolationType` that
`vtkVolumeProperty.h` generates, clamping to the two interpolation types 0 and
1. -/
def SetInterpolationType (w : World) (v : Int) : World :=
  let c : Int := if v < 0 then 0 else if v > 1 then 1 else v
  if w.self.InterpolationType ≠ c then Modified (w.setInterpolationType c) else w

/-- Modelled from the spec: the setter `SetUseClippedVoxelIntensity` that
`vtkVolumeProperty.h` generates. -/
def SetUseClippedVoxelIntensity (w : World) (v : Int) : World :=
  if w.self.UseClippedVoxelIntensity ≠ v then Modified (w.setUseClippedVoxelIntensity v)
  else w

/-- Modelled from the spec: the setter `SetClippedVoxelIntensity` that
`vtkVolumeProperty.h` generates. -/
def SetClippedVoxelIntensity (w : World) (v : ℚ) : World :=
  if w.self.ClippedVoxelIntensity ≠ v then Modified (w.setClippedVoxelIntensity v) else w

/-- The statements of the loop body of `DeepCopy` on the component weight and
the color function of component `index`.  In `a->DeepCopy(b)` the object
expression `a` is evaluated before the argument `b`. -/
def DeepCopy.color (w : World) (p : vtkVolumeProperty) (index : Int) :
    Option (World × vtkVolumeProperty) :=
  let w := SetComponentWeight w index (GetComponentWeight (w.withSelf p) index)
  if GetColorChannels (w.withSelf p) index > 1 then
    (GetRGBTransferFunction w index).bind fun own =>
    (SetColor_vtkColorTransferFunction own.2 index own.1).bind fun w =>
    (GetRGBTransferFunction w index).bind fun dst =>
    (onSource (fun v => GetRGBTransferFunction v index) dst.2 p).bind fun src =>
    (copyFunction src.2.1 dst.1 src.1).map fun w => (w, src.2.2)
  else
    (GetGrayTransferFunction w index).bind fun own =>
    (SetColor_vtkPiecewiseFunction own.2 index own.1).bind fun w =>
    (GetGrayTransferFunction w index).bind fun dst =>
    (onSource (fun v => GetGrayTransferFunction v index) dst.2 p).bind fun src =>
    (copyFunction src.2.1 dst.1 src.1).map fun w => (w, src.2.2)

/-- The statements of the loop body of `DeepCopy` on the scalar opacity and its
unit distance. -/
def DeepCopy.scalarOpacity (w : World) (p : vtkVolumeProperty) (index : Int) :
    Option (World × vtkVolumeProperty) :=
  (GetScalarOpacity w index).bind fun dst =>
  (onSource (fun v => GetScalarOpacity v index) dst.2 p).bind fun src =>
  (copyFunction src.2.1 dst.1 src.1).map fun w =>
    (SetScalarOpacityUnitDistance w index
      (GetScalarOpacityUnitDistance (w.withSelf src.2.2) index), src.2.2)

/-- The statements of the loop body of `DeepCopy` on the gradient opacity and
its switch. -/
def DeepCopy.gradientOpacity (w : World) (p : vtkVolumeProperty) (index : Int) :
    Option (World × vtkVolumeProperty) :=
  (GetGradientOpacity w index).bind fun dst =>
  (onSource (fun v => GetGradientOpacity v index) dst.2 p).bind fun src =>
  (copyFunction src.2.1 dst.1 src.1).bind fun w =>
  (GetDisableGradientOpacity (w.withSelf src.2.2) index).bind fun v =>
  (SetDisableGradientOpacity w index v).map fun w => (w, src.2.2)

/-- The statements of the loop body of `DeepCopy` on the shading members. -/
def DeepCopy.shading (w : World) (p : vtkVolumeProperty) (index : Int) : Option World :=
  (GetShade (w.withSelf p) index).bind fun v =>
  (SetShade w index v).bind fun w =>
  (GetAmbient (w.withSelf p) index).bind fun v =>
  (SetAmbient w index v).bind fun w =>
  (GetDiffuse (w.withSelf p) index).bind fun v =>
  (SetDiffuse w index v).bind fun w =>
  (GetSpecular (w.withSelf p) index).bind fun v =>
  (SetSpecular w index v).bind fun w =>
  (GetSpecularPower (w.withSelf p) index).bind fun v =>
  SetSpecularPower w index v

/-- One iteration of the loop of `DeepCopy`, for component `i`, on the object
system with the target (`w.self`) and on the source `p`. -/
def DeepCopy.body (w : World) (p : vtkVolumeProperty) (i : Fin 4) :
    Option (World × vtkVolumeProperty) :=
  (DeepCopy.color w p (i : Nat)).bind fun s =>
  (DeepCopy.scalarOpacity s.1 s.2 (i : Nat)).bind fun s =>
  (DeepCopy.gradientOpacity s.1 s.2 (i : Nat)).bind fun s =>
  (DeepCopy.shading s.1 s.2 (i : Nat)).map fun w => (w, s.2)

/-- The member `vtkVolumeProperty::DeepCopy`, called on the target `w.self` with
the source `p` (null or another property of the same object system): the object
system with the target afterwards, and the source afterwards, which the getters
called on it may have changed. -/
def DeepCopy (w : World) (p : Option vtkVolumeProperty) :
    Option (World × Option vtkVolumeProperty) :=
  match p with
  | none => some (w, none)
  | some p =>
    (copyFunction w (some w.self.IsoSurfaceValues) (some p.IsoSurfaceValues)).bind fun w =>
    let w := SetIndependentComponents w p.IndependentComponents
    let w := SetInterpolationType w p.InterpolationType
    let w := SetUseClippedVoxelIntensity w p.UseClippedVoxelIntensity
    let w := SetClippedVoxelIntensity w p.ClippedVoxelIntensity
    ((List.finRange 4).foldl
      (fun s i => s.bind fun s => DeepCopy.body s.1 s.2 i) (some (w, p))).map
      fun s => (Modified s.1, some s.2)

/-- The per-component scalar members of a property. -/
structure Scalars where
  ColorChannels : Fin 4 → Int
  ComponentWeight : Fin 4 → ℚ
  ScalarOpacityUnitDistance : Fin 4 → ℚ
  DisableGradientOpacity : Fin 4 → Int
  Shade : Fin 4 → Int
  Ambient : Fin 4 → ℚ
  Diffuse : Fin 4 → ℚ
  Specular : Fin 4 → ℚ
  SpecularPower : Fin 4 → ℚ

/-- The per-component scalar members of the property `s`. -/
def scalars (s : vtkVolumeProperty) : Scalars :=
  { ColorChannels := s.ColorChannels
    ComponentWeight := s.ComponentWeight
    ScalarOpacityUnitDistance := s.ScalarOpacityUnitDistance
    DisableGradientOpacity := s.DisableGradientOpacity
    Shade := s.Shade
    Ambient := s.Ambient
    Diffuse := s.Diffuse
    Specular := s.Specular
    SpecularPower := s.SpecularPower }

/-- The scalars `t` with those of component `i` replaced by the ones of `s`. -/
def Scalars.copyAt (t s : Scalars) (i : Fin 4) : Scalars :=
  { ColorChannels := Function.update t.ColorChannels i (s.ColorChannels i)
    ComponentWeight := Function.update t.ComponentWeight i (s.ComponentWeight i)
    ScalarOpacityUnitDistance :=
      Function.update t.ScalarOpacityUnitDistance i (s.ScalarOpacityUnitDistance i)
    DisableGradientOpacity :=
      Function.update t.DisableGradientOpacity i (s.DisableGradientOpacity i)
    Shade := Function.update t.Shade i (s.Shade i)
    Ambient := Function.update t.Ambient i (s.Ambient i)
    Diffuse := Function.update t.Diffuse i (s.Diffuse i)
    Specular := Function.update t.Specular i (s.Specular i)
    SpecularPower := Function.update t.SpecularPower i (s.SpecularPower i) }

/-- What the constructor and the setters keep true of the scalars of every
component: the color channels are 1 or 3, the component weight lies in [0, 1]
and the shading switch is 0 or 1. -/
def Scalars.Valid (s : Scalars) : Prop :=
  ∀ i, (s.ColorChannels i = 1 ∨ s.ColorChannels i = 3) ∧
    0 ≤ s.ComponentWeight i ∧ s.ComponentWeight i ≤ 1 ∧ (s.Shade i = 0 ∨ s.Shade i = 1)

/-- What the nine per-component getters return for `index`. -/
def perComponent (w : World) (index : Int) :
    Int × ℚ × ℚ × Option Int × Option Int × Option ℚ × Option ℚ × Option ℚ × Option ℚ :=
  (GetColorChannels w index, GetComponentWeight w index,
    GetScalarOpacityUnitDistance w index, GetDisableGradientOpacity w index,
    GetShade w index, GetAmbient w index, GetDiffuse w index, GetSpecular w index,
    GetSpecularPower w index)

/-- Two properties of one object system: the target `w.self` with the object
system around it, and the source `p`. -/
structure Scene where
  w : World
  p : vtkVolumeProperty

/-- The constructor run twice in the object system `e`: first for the target,
then for the source. -/
def twoProperties (e : Env) : Scene :=
  let t := construct e
  let v := construct { clock := t.clock, next := t.next, objMTime := t.objMTime,
                       nodes := t.nodes, image := t.image }
  { w := v.withSelf t.self, p := v.self }

/-- What can happen to two properties: a call on the target, a call on the
source, and a `DeepCopy` of either from the other. -/
inductive SceneOp where
  | onTarget (op : Op)
  | onSource (op : Op)
  | copyToTarget
  | copyToSource

/-- One operation on two properties. -/
def sceneStep (s : Scene) : SceneOp → Option Scene
  | .onTarget op => (step s.w op).map fun w => { w := w, p := s.p }
  | .onSource op =>
    (step (s.w.withSelf s.p) op).map fun v => { w := v.withSelf s.w.self, p := v.self }
  | .copyToTarget =>
    (DeepCopy s.w (some s.p)).bind fun r => r.2.map fun p => { w := r.1, p := p }
  | .copyToSource =>
    (DeepCopy (s.w.withSelf s.p) (some s.w.self)).bind fun r =>
      r.2.map fun t => { w := r.1.withSelf t, p := r.1.self }

/-- The states two properties constructed in the object system `e` can reach. -/
inductive SceneReachable (e : Env) : Scene → Prop where
  | init : SceneReachable e (twoProperties e)
  | call {s s' : Scene} (op : SceneOp) : SceneReachable e s → sceneStep s op = some s' →
      SceneReachable e s'

/-- Two fresh properties after `SetColor(1, nullptr)` with an RGB function on the
source. -/
def copyScene : Scene :=
  (sceneStep (twoProperties emptyEnv) (SceneOp.onSource (Op.SetColorRGB 1 none))).getD
    (twoProperties emptyEnv)

/-- A fresh property after `SetComponentWeight(2, 5)` and `SetShade(3, 1)`. -/
def weighted : World :=
  ((step ((step (construct emptyEnv) (Op.SetComponentWeight 2 5)).getD (construct emptyEnv))
    (Op.SetShade 3 1)).getD (construct emptyEnv))

/-- A fresh property after `SetDisableGradientOpacity(0, 1)`, which creates the
default gradient-opacity function of component 0 as the object 1, and
`SetGradientOpacity(0, f)` with `f` that object, as `GetGradientOpacity(0)`
hands it out. -/
def aliasedGradient : World :=
  ((step ((step (construct emptyEnv) (Op.SetDisableGradientOpacity 0 1)).getD
    (construct emptyEnv)) (Op.SetGradientOpacity 0 (some 1))).getD (construct emptyEnv))

/-! ## Index validation -/

theorem slot_eq_none {index : Int} (h : index < 0 ∨ index > 3) : slot index = none := by
  unfold slot
  rw [dif_neg]
  omega

theorem slot_eq_some {index : Int} (h0 : 0 ≤ index) (h3 : index ≤ 3) :
    ∃ i : Fin 4, slot index = some i ∧ (i : Int) = index := by
  unfold slot
  rw [dif_pos ⟨h0, by omega⟩]
  exact ⟨_, rfl, by simp [Int.toNat_of_nonneg h0]⟩

/-- C1: for an index outside 0..3 the validated operations take the default
path: `GetColorChannels`, `GetScalarOpacityUnitDistance` and
`GetComponentWeight` return 0, and `SetScalarOpacityUnitDistance` and
`SetComponentWeight` return the state they were given, modification time and
object system included. -/
theorem invalid_index_default_path (w : World) (index : Int) (d v : ℚ)
    (h : index < 0 ∨ index > 3) :
    GetColorChannels w index = 0 ∧
    GetScalarOpacityUnitDistance w index = 0 ∧
    GetComponentWeight w index = 0 ∧
    SetScalarOpacityUnitDistance w index d = w ∧
    SetComponentWeight w index v = w := by
  have h4 : index < 0 ∨ index ≥ VTK_MAX_VRCOMP := by
    unfold VTK_MAX_VRCOMP
    omega
  refine ⟨?_, ?_, ?_, ?_, ?_⟩
  · unfold GetColorChannels
    rw [dif_pos h]
  · unfold GetScalarOpacityUnitDistance
    rw [dif_pos h]
  · unfold GetComponentWeight
    rw [dif_pos h4]
  · unfold SetScalarOpacityUnitDistance
    rw [dif_pos h]
  · unfold SetComponentWeight
    rw [dif_pos h4]

/-- C1 at index 4 and at index -1 of a freshly constructed property. -/
theorem invalid_index_default_path_witness :
    ((4 : Int) < 0 ∨ (4 : Int) > 3) ∧
    GetColorChannels (construct emptyEnv) 4 = 0 ∧
    GetScalarOpacityUnitDistance (construct emptyEnv) 4 = 0 ∧
    GetComponentWeight (construct emptyEnv) 4 = 0 ∧
    SetScalarOpacityUnitDistance (construct emptyEnv) 4 (1 / 2) = construct emptyEnv ∧
    SetComponentWeight (construct emptyEnv) 4 (1 / 2) = construct emptyEnv :=
  ⟨by decide, invalid_index_default_path (construct emptyEnv) 4 (1 / 2) (1 / 2) (by decide)⟩

/-- C2: the shading operations index their arrays with the unvalidated
argument.  On a freshly constructed property, at index 4, `SetShade` (with an
accepted value), `SetAmbient`, `SetDiffuse`, `SetSpecular`, `SetSpecularPower`
and the five getters all run into the out-of-bounds access instead of
returning a default or leaving the state alone; the validated sibling
`SetComponentWeight` returns the state unchanged there. -/
theorem shading_index_not_validated :
    SetShade (construct emptyEnv) 4 1 = none ∧
    SetAmbient (construct emptyEnv) 4 (1 / 2) = none ∧
    SetDiffuse (construct emptyEnv) 4 (1 / 2) = none ∧
    SetSpecular (construct emptyEnv) 4 (1 / 2) = none ∧
    SetSpecularPower (construct emptyEnv) 4 (1 / 2) = none ∧
    GetShade (construct emptyEnv) 4 = none ∧
    GetAmbient (construct emptyEnv) 4 = none ∧
    GetDiffuse (construct emptyEnv) 4 = none ∧
    GetSpecular (construct emptyEnv) 4 = none ∧
    GetSpecularPower (construct emptyEnv) 4 = none ∧
    SetComponentWeight (construct emptyEnv) 4 (1 / 2) = construct emptyEnv := by
  have h : slot 4 = none := slot_eq_none (by decide)
  refine ⟨?_, ?_, ?_, ?_, ?_, ?_, ?_, ?_, ?_, ?_, ?_⟩
  · simp [SetShade, h]
  · simp [SetAmbient, h]
  · simp [SetDiffuse, h]
  · simp [SetSpecular, h]
  · simp [SetSpecularPower, h]
  · simp [GetShade, h]
  · simp [GetAmbient, h]
  · simp [GetDiffuse, h]
  · simp [GetSpecular, h]
  · simp [GetSpecularPower, h]
  · simp [SetComponentWeight, VTK_MAX_VRCOMP]


/-! ## Label maps and the label set -/

theorem LabelMap.lookup_assign_self (m : LabelMap) (k : Int) (v : Option Ptr) :
    List.lookup k (m.assign k v) = some v := by
  induction m with
  | nil => simp [LabelMap.assign, List.lookup]
  | cons e m ih =>
    obtain ⟨k', v'⟩ := e
    unfold LabelMap.assign
    split_ifs with hk
    · simp [List.lookup]
    · have : (k == k') = false := by simpa using fun h => hk h.symm
      simp [List.lookup, this, ih]

theorem LabelMap.lookup_assign_ne (m : LabelMap) (k k' : Int) (v : Option Ptr) (h : k' ≠ k) :
    List.lookup k' (m.assign k v) = List.lookup k' m := by
  induction m with
  | nil =>
    have : (k' == k) = false := by simpa using h
    simp [LabelMap.assign, List.lookup, this]
  | cons e m ih =>
    obtain ⟨k1, v1⟩ := e
    unfold LabelMap.assign
    split_ifs with hk
    · subst hk
      have : (k' == k1) = false := by simpa using h
      simp [List.lookup, this]
    · by_cases h1 : k' = k1
      · subst h1
        simp [List.lookup]
      · have : (k' == k1) = false := by simpa using h1
        simp [List.lookup, this, ih]

theorem LabelMap.get_assign (m : LabelMap) (k k' : Int) (v : Option Ptr) :
    (m.assign k v).get k' = if k' = k then v else m.get k' := by
  unfold LabelMap.get
  split_ifs with h
  · subst h
    rw [LabelMap.lookup_assign_self]
  · rw [LabelMap.lookup_assign_ne m k k' v h]

theorem LabelMap.get_of_count_eq_zero (m : LabelMap) (k : Int) (h : m.count k = 0) :
    m.get k = none := by
  unfold LabelMap.count at h
  unfold LabelMap.get
  cases hl : List.lookup k m with
  | none => rfl
  | some v => simp [hl] at h

theorem GetLabelColor_eq (w : World) (l : Int) :
    GetLabelColor w l = w.self.LabelColor.get l := by
  unfold GetLabelColor
  split_ifs with h
  · exact (LabelMap.get_of_count_eq_zero _ _ h).symm
  · rfl

theorem GetLabelScalarOpacity_eq (w : World) (l : Int) :
    GetLabelScalarOpacity w l = w.self.LabelScalarOpacity.get l := by
  unfold GetLabelScalarOpacity
  split_ifs with h
  · exact (LabelMap.get_of_count_eq_zero _ _ h).symm
  · rfl

theorem GetLabelGradientOpacity_eq (w : World) (l : Int) :
    GetLabelGradientOpacity w l = w.self.LabelGradientOpacity.get l := by
  unfold GetLabelGradientOpacity
  split_ifs with h
  · exact (LabelMap.get_of_count_eq_zero _ _ h).symm
  · rfl

theorem SetLabelColor_labels (w : World) (l : Int) (f : Option Ptr) (hl : l ≠ 0) :
    (∀ l', (SetLabelColor w l f).self.LabelColor.get l' =
      if l' = l then f else w.self.LabelColor.get l') ∧
    (SetLabelColor w l f).self.LabelScalarOpacity = w.self.LabelScalarOpacity ∧
    (SetLabelColor w l f).self.LabelGradientOpacity = w.self.LabelGradientOpacity ∧
    (SetLabelColor w l f).self.LabelMapLabels =
      if (w.self.LabelColor.count l ≠ 0 ∧ w.self.LabelColor.get l = f) ∨ f = none
      then w.self.LabelMapLabels else setInsert w.self.LabelMapLabels l := by
  unfold SetLabelColor
  rw [if_neg hl]
  by_cases h : w.self.LabelColor.count l ≠ 0 ∧ w.self.LabelColor.get l = f
  · rw [if_pos h, if_pos (Or.inl h)]
    refine ⟨fun l' => ?_, rfl, rfl, rfl⟩
    split_ifs with e
    · rw [e]; exact h.2
    · rfl
  · rw [if_neg h]
    by_cases hf : f = none
    · subst hf
      have hc : (w.self.LabelColor.count l ≠ 0 ∧ w.self.LabelColor.get l = none) ∨
          (none : Option Ptr) = none := Or.inr rfl
      rw [if_pos hc]
      simp only []
      split_ifs <;> simp_all [LabelMap.get_assign]
    · have hc : ¬((w.self.LabelColor.count l ≠ 0 ∧ w.self.LabelColor.get l = f) ∨ f = none) :=
        fun hh => hh.elim h hf
      rw [if_neg hc]
      simp only []
      split_ifs <;> simp_all [LabelMap.get_assign]

theorem SetLabelScalarOpacity_labels (w : World) (l : Int) (f : Option Ptr) (hl : l ≠ 0) :
    (∀ l', (SetLabelScalarOpacity w l f).self.LabelScalarOpacity.get l' =
      if l' = l then f else w.self.LabelScalarOpacity.get l') ∧
    (SetLabelScalarOpacity w l f).self.LabelColor = w.self.LabelColor ∧
    (SetLabelScalarOpacity w l f).self.LabelGradientOpacity = w.self.LabelGradientOpacity ∧
    (SetLabelScalarOpacity w l f).self.LabelMapLabels =
      if (w.self.LabelScalarOpacity.count l ≠ 0 ∧ w.self.LabelScalarOpacity.get l = f) ∨ f = none
      then w.self.LabelMapLabels else setInsert w.self.LabelMapLabels l := by
  unfold SetLabelScalarOpacity
  rw [if_neg hl]
  by_cases h : w.self.LabelScalarOpacity.count l ≠ 0 ∧ w.self.LabelScalarOpacity.get l = f
  · rw [if_pos h, if_pos (Or.inl h)]
    refine ⟨fun l' => ?_, rfl, rfl, rfl⟩
    split_ifs with e
    · rw [e]; exact h.2
    · rfl
  · rw [if_neg h]
    by_cases hf : f = none
    · subst hf
      have hc : (w.self.LabelScalarOpacity.count l ≠ 0 ∧ w.self.LabelScalarOpacity.get l = none) ∨
          (none : Option Ptr) = none := Or.inr rfl
      rw [if_pos hc]
      simp only []
      split_ifs <;> simp_all [LabelMap.get_assign]
    · have hc : ¬((w.self.LabelScalarOpacity.count l ≠ 0 ∧ w.self.LabelScalarOpacity.get l = f) ∨ f = none) :=
        fun hh => hh.elim h hf
      rw [if_neg hc]
      simp only []
      split_ifs <;> simp_all [LabelMap.get_assign]

theorem SetLabelGradientOpacity_labels (w : World) (l : Int) (f : Option Ptr) (hl : l ≠ 0) :
    (∀ l', (SetLabelGradientOpacity w l f).self.LabelGradientOpacity.get l' =
      if l' = l then f else w.self.LabelGradientOpacity.get l') ∧
    (SetLabelGradientOpacity w l f).self.LabelColor = w.self.LabelColor ∧
    (SetLabelGradientOpacity w l f).self.LabelScalarOpacity = w.self.LabelScalarOpacity ∧
    (SetLabelGradientOpacity w l f).self.LabelMapLabels =
      if (w.self.LabelGradientOpacity.count l ≠ 0 ∧ w.self.LabelGradientOpacity.get l = f) ∨ f = none
      then w.self.LabelMapLabels else setInsert w.self.LabelMapLabels l := by
  unfold SetLabelGradientOpacity
  rw [if_neg hl]
  by_cases h : w.self.LabelGradientOpacity.count l ≠ 0 ∧ w.self.LabelGradientOpacity.get l = f
  · rw [if_pos h, if_pos (Or.inl h)]
    refine ⟨fun l' => ?_, rfl, rfl, rfl⟩
    split_ifs with e
    · rw [e]; exact h.2
    · rfl
  · rw [if_neg h]
    by_cases hf : f = none
    · subst hf
      have hc : (w.self.LabelGradientOpacity.count l ≠ 0 ∧ w.self.LabelGradientOpacity.get l = none) ∨
          (none : Option Ptr) = none := Or.inr rfl
      rw [if_pos hc]
      simp only []
      split_ifs <;> simp_all [LabelMap.get_assign]
    · have hc : ¬((w.self.LabelGradientOpacity.count l ≠ 0 ∧ w.self.LabelGradientOpacity.get l = f) ∨ f = none) :=
        fun hh => hh.elim h hf
      rw [if_neg hc]
      simp only []
      split_ifs <;> simp_all [LabelMap.get_assign]

theorem finRange_four : List.finRange 4 = [0, 1, 2, 3] := by decide

theorem step_labelView (w w' : World) (op : Op) (hop : op.onLabels = false)
    (h : step w op = some w') : labelView w' = labelView w := by
  revert h
  cases op <;> first
    | (simp [Op.onLabels] at hop; done)
    | (simp only [step, SetColor_vtkPiecewiseFunction, GetGrayTransferFunction,
        SetColor_vtkColorTransferFunction, GetRGBTransferFunction, SetScalarOpacity,
        GetScalarOpacity, SetScalarOpacityUnitDistance, SetGradientOpacity, GetGradientOpacity,
        GetStoredGradientOpacity, SetTransferFunction2D, SetDisableGradientOpacity,
        SetComponentWeight, SetShade, SetAmbient, SetDiffuse, SetSpecular, SetSpecularPower,
        CreateDefaultGradientOpacity, UpdateMTimes, finRange_four, List.foldl]
       repeat' split
       all_goals
         intro h
         first
           | (simp at h; done)
           | (simp at h; cases h; simp [labelView, New, AddPoint, RemoveAllPoints]))

theorem activeLabel_iff (w : World) (l : Int) :
    activeLabel w l ↔ w.self.LabelColor.get l ≠ none ∨ w.self.LabelScalarOpacity.get l ≠ none ∨
      w.self.LabelGradientOpacity.get l ≠ none := by
  unfold activeLabel
  rw [GetLabelColor_eq, GetLabelScalarOpacity_eq, GetLabelGradientOpacity_eq]

theorem setInsert_nodup (s : List Int) (k : Int) (h : s.Nodup) : (setInsert s k).Nodup := by
  unfold setInsert
  split_ifs with hk
  · exact h
  · exact List.nodup_cons.mpr ⟨hk, h⟩

theorem mem_setInsert (s : List Int) (k x : Int) : x ∈ setInsert s k ↔ x = k ∨ x ∈ s := by
  unfold setInsert
  split_ifs with hk
  · constructor
    · exact Or.inr
    · rintro (rfl | h)
      · exact hk
      · exact h
  · simp

theorem LabelInv_of_labelView (w w' : World) (h : labelView w' = labelView w)
    (hi : LabelInv w) : LabelInv w' := by
  simp only [labelView, Prod.mk.injEq] at h
  obtain ⟨h1, h2, h3, h4⟩ := h
  unfold LabelInv at hi ⊢
  simp only [activeLabel_iff] at hi ⊢
  rw [h1, h2, h3, h4]
  exact hi

theorem LabelInv_SetLabelColor (w : World) (l : Int) (f : Option Ptr) (hi : LabelInv w) :
    LabelInv (SetLabelColor w l f) := by
  by_cases hl : l = 0
  · unfold SetLabelColor
    rw [if_pos hl]
    exact hi
  · obtain ⟨e1, e2, e3, e4⟩ := SetLabelColor_labels w l f hl
    unfold LabelInv at hi ⊢
    simp only [activeLabel_iff] at hi ⊢
    obtain ⟨hn, hm⟩ := hi
    rw [e2, e3, e4]
    constructor
    · split_ifs
      · exact hn
      · exact setInsert_nodup _ _ hn
    · intro l' ha
      rw [e1 l'] at ha
      by_cases hll : l' = l
      · subst hll
        rw [if_pos rfl] at ha
        split_ifs with hc
        · rcases hc with hc | hc
          · apply hm
            rw [hc.2]
            exact ha
          · subst hc
            apply hm
            simp only [ne_eq, not_true_eq_false, false_or, or_false] at ha
            tauto
        · exact (mem_setInsert _ _ _).mpr (Or.inl rfl)
      · rw [if_neg hll] at ha
        have := hm l' ha
        split_ifs
        · exact this
        · exact (mem_setInsert _ _ _).mpr (Or.inr this)

theorem LabelInv_SetLabelScalarOpacity (w : World) (l : Int) (f : Option Ptr) (hi : LabelInv w) :
    LabelInv (SetLabelScalarOpacity w l f) := by
  by_cases hl : l = 0
  · unfold SetLabelScalarOpacity
    rw [if_pos hl]
    exact hi
  · obtain ⟨e1, e2, e3, e4⟩ := SetLabelScalarOpacity_labels w l f hl
    unfold LabelInv at hi ⊢
    simp only [activeLabel_iff] at hi ⊢
    obtain ⟨hn, hm⟩ := hi
    rw [e2, e3, e4]
    constructor
    · split_ifs
      · exact hn
      · exact setInsert_nodup _ _ hn
    · intro l' ha
      rw [e1 l'] at ha
      by_cases hll : l' = l
      · subst hll
        rw [if_pos rfl] at ha
        split_ifs with hc
        · rcases hc with hc | hc
          · apply hm
            rw [hc.2]
            exact ha
          · subst hc
            apply hm
            simp only [ne_eq, not_true_eq_false, false_or, or_false] at ha
            tauto
        · exact (mem_setInsert _ _ _).mpr (Or.inl rfl)
      · rw [if_neg hll] at ha
        have := hm l' ha
        split_ifs
        · exact this
        · exact (mem_setInsert _ _ _).mpr (Or.inr this)

theorem LabelInv_SetLabelGradientOpacity (w : World) (l : Int) (f : Option Ptr) (hi : LabelInv w) :
    LabelInv (SetLabelGradientOpacity w l f) := by
  by_cases hl : l = 0
  · unfold SetLabelGradientOpacity
    rw [if_pos hl]
    exact hi
  · obtain ⟨e1, e2, e3, e4⟩ := SetLabelGradientOpacity_labels w l f hl
    unfold LabelInv at hi ⊢
    simp only [activeLabel_iff] at hi ⊢
    obtain ⟨hn, hm⟩ := hi
    rw [e2, e3, e4]
    constructor
    · split_ifs
      · exact hn
      · exact setInsert_nodup _ _ hn
    · intro l' ha
      rw [e1 l'] at ha
      by_cases hll : l' = l
      · subst hll
        rw [if_pos rfl] at ha
        split_ifs with hc
        · rcases hc with hc | hc
          · apply hm
            rw [hc.2]
            exact ha
          · subst hc
            apply hm
            simp only [ne_eq, not_true_eq_false, false_or, or_false] at ha
            tauto
        · exact (mem_setInsert _ _ _).mpr (Or.inl rfl)
      · rw [if_neg hll] at ha
        have := hm l' ha
        split_ifs
        · exact this
        · exact (mem_setInsert _ _ _).mpr (Or.inr this)

theorem GetLabelMapLabels_fst_mem (w : World) (l : Int) :
    l ∈ (GetLabelMapLabels w).1 ↔ l ∈ w.self.LabelMapLabels ∧ activeLabel w l := by
  unfold GetLabelMapLabels setEraseIf activeLabel
  simp only [List.mem_filter]
  constructor
  · rintro ⟨h1, h2⟩
    refine ⟨h1, ?_⟩
    by_contra hc
    push_neg at hc
    simp [hc.1, hc.2.1, hc.2.2] at h2
  · rintro ⟨h1, h2⟩
    refine ⟨h1, ?_⟩
    rcases h2 with h2 | h2 | h2 <;> simp [h2]

theorem GetLabelMapLabels_snd (w : World) :
    (GetLabelMapLabels w).2.self.LabelColor = w.self.LabelColor ∧
    (GetLabelMapLabels w).2.self.LabelScalarOpacity = w.self.LabelScalarOpacity ∧
    (GetLabelMapLabels w).2.self.LabelGradientOpacity = w.self.LabelGradientOpacity ∧
    (GetLabelMapLabels w).2.self.LabelMapLabels = (GetLabelMapLabels w).1 := by
  unfold GetLabelMapLabels
  simp

theorem LabelInv_GetLabelMapLabels (w : World) (hi : LabelInv w) :
    LabelInv (GetLabelMapLabels w).2 := by
  obtain ⟨e1, e2, e3, e4⟩ := GetLabelMapLabels_snd w
  obtain ⟨hn, hm⟩ := hi
  unfold LabelInv
  rw [e4]
  constructor
  · unfold GetLabelMapLabels setEraseIf
    exact hn.filter _
  · intro l ha
    have ha' : activeLabel w l := by
      rw [activeLabel_iff] at ha ⊢
      rw [e1, e2, e3] at ha
      exact ha
    exact (GetLabelMapLabels_fst_mem w l).mpr ⟨hm l ha', ha'⟩

theorem LabelInv_construct (e : Env) : LabelInv (construct e) := by
  unfold LabelInv
  constructor
  · simp [construct]
  · intro l ha
    rw [activeLabel_iff] at ha
    simp [construct, LabelMap.get, List.lookup] at ha

theorem LabelInv_step (w w' : World) (op : Op) (h : step w op = some w') (hi : LabelInv w) :
    LabelInv w' := by
  by_cases hop : op.onLabels = false
  · exact LabelInv_of_labelView w w' (step_labelView w w' op hop h) hi
  · cases op <;> simp [Op.onLabels] at hop <;> simp only [step, Option.some.injEq] at h <;>
      subst h
    · exact LabelInv_SetLabelColor _ _ _ hi
    · exact LabelInv_SetLabelScalarOpacity _ _ _ hi
    · exact LabelInv_SetLabelGradientOpacity _ _ _ hi
    · exact LabelInv_GetLabelMapLabels _ hi

theorem LabelInv_of_reachable (allowed : Op → Prop) (e : Env) (w : World)
    (hr : Reachable allowed e w) : LabelInv w := by
  induction hr with
  | init => exact LabelInv_construct e
  | call op _ _ hs ih => exact LabelInv_step _ _ op hs ih


/-! ## Claims on the label maps -/

theorem labelMaps_step_of_not_setsLabel (w w' : World) (op : Op) (l : Int)
    (hop : ¬ op.setsLabel l) (h : step w op = some w') :
    w'.self.LabelColor.get l = w.self.LabelColor.get l ∧
    w'.self.LabelScalarOpacity.get l = w.self.LabelScalarOpacity.get l ∧
    w'.self.LabelGradientOpacity.get l = w.self.LabelGradientOpacity.get l := by
  by_cases hl : op.onLabels = false
  · have hv := step_labelView w w' op hl h
    simp only [labelView, Prod.mk.injEq] at hv
    rw [hv.1, hv.2.1, hv.2.2.1]
    exact ⟨rfl, rfl, rfl⟩
  · cases op <;> simp [Op.onLabels] at hl <;> simp only [step, Option.some.injEq] at h <;>
      subst h <;> simp only [Op.setsLabel] at hop
    · rename_i l' f
      by_cases h0 : l' = 0
      · unfold SetLabelColor
        rw [if_pos h0]
        exact ⟨rfl, rfl, rfl⟩
      · obtain ⟨e1, e2, e3, -⟩ := SetLabelColor_labels w l' f h0
        rw [e1 l, e2, e3, if_neg (fun hh => hop hh.symm)]
        exact ⟨rfl, rfl, rfl⟩
    · rename_i l' f
      by_cases h0 : l' = 0
      · unfold SetLabelScalarOpacity
        rw [if_pos h0]
        exact ⟨rfl, rfl, rfl⟩
      · obtain ⟨e1, e2, e3, -⟩ := SetLabelScalarOpacity_labels w l' f h0
        rw [e1 l, e2, e3, if_neg (fun hh => hop hh.symm)]
        exact ⟨rfl, rfl, rfl⟩
    · rename_i l' f
      by_cases h0 : l' = 0
      · unfold SetLabelGradientOpacity
        rw [if_pos h0]
        exact ⟨rfl, rfl, rfl⟩
      · obtain ⟨e1, e2, e3, -⟩ := SetLabelGradientOpacity_labels w l' f h0
        rw [e1 l, e2, e3, if_neg (fun hh => hop hh.symm)]
        exact ⟨rfl, rfl, rfl⟩
    · obtain ⟨e1, e2, e3, -⟩ := GetLabelMapLabels_snd w
      rw [e1, e2, e3]
      exact ⟨rfl, rfl, rfl⟩

/-- C3: in every state a freshly constructed property reaches (through any
calls, the label setters and `GetLabelMapLabels` among them),
`GetLabelMapLabels` returns exactly the labels with at least one non-null
per-label function, and `GetNumberOfLabels` returns the number of such
labels. -/
theorem label_set_is_active_labels (e : Env) (w : World)
    (hr : Reachable (fun _ => True) e w) :
    (∀ l, l ∈ (GetLabelMapLabels w).1 ↔
      (GetLabelColor w l ≠ none ∨ GetLabelScalarOpacity w l ≠ none ∨
        GetLabelGradientOpacity w l ≠ none)) ∧
    (GetNumberOfLabels w).1 =
      Set.ncard {l | GetLabelColor w l ≠ none ∨ GetLabelScalarOpacity w l ≠ none ∨
        GetLabelGradientOpacity w l ≠ none} := by
  have hi := LabelInv_of_reachable _ e w hr
  have hmem : ∀ l, l ∈ (GetLabelMapLabels w).1 ↔ activeLabel w l := fun l =>
    ⟨fun h => ((GetLabelMapLabels_fst_mem w l).mp h).2,
     fun h => (GetLabelMapLabels_fst_mem w l).mpr ⟨hi.2 l h, h⟩⟩
  refine ⟨hmem, ?_⟩
  have hnd : (GetLabelMapLabels w).1.Nodup := by
    unfold GetLabelMapLabels setEraseIf
    exact hi.1.filter _
  have hset : {l | activeLabel w l} = ((GetLabelMapLabels w).1.toFinset : Set Int) := by
    ext l
    simp only [Set.mem_setOf_eq, Finset.mem_coe, List.mem_toFinset]
    exact (hmem l).symm
  show (GetLabelMapLabels w).1.length = Set.ncard {l | activeLabel w l}
  rw [hset, Set.ncard_coe_Finset, List.toFinset_card_of_nodup hnd]

/-- C3 after `SetLabelColor(5, f)` followed by `SetLabelColor(5, nullptr)`: the
label 5 is still in the stored set, and is not returned. -/
theorem label_set_is_active_labels_witness :
    Reachable (fun _ => True) emptyEnv
      (SetLabelColor (SetLabelColor (construct emptyEnv) 5 (some 7)) 5 none) ∧
    ((∀ l, l ∈ (GetLabelMapLabels
        (SetLabelColor (SetLabelColor (construct emptyEnv) 5 (some 7)) 5 none)).1 ↔
      (GetLabelColor (SetLabelColor (SetLabelColor (construct emptyEnv) 5 (some 7)) 5 none) l
          ≠ none ∨
        GetLabelScalarOpacity
          (SetLabelColor (SetLabelColor (construct emptyEnv) 5 (some 7)) 5 none) l ≠ none ∨
        GetLabelGradientOpacity
          (SetLabelColor (SetLabelColor (construct emptyEnv) 5 (some 7)) 5 none) l ≠ none)) ∧
    (GetNumberOfLabels
        (SetLabelColor (SetLabelColor (construct emptyEnv) 5 (some 7)) 5 none)).1 =
      Set.ncard {l |
        GetLabelColor (SetLabelColor (SetLabelColor (construct emptyEnv) 5 (some 7)) 5 none) l
          ≠ none ∨
        GetLabelScalarOpacity
          (SetLabelColor (SetLabelColor (construct emptyEnv) 5 (some 7)) 5 none) l ≠ none ∨
        GetLabelGradientOpacity
          (SetLabelColor (SetLabelColor (construct emptyEnv) 5 (some 7)) 5 none) l ≠ none}) :=
  have hr : Reachable (fun _ => True) emptyEnv
      (SetLabelColor (SetLabelColor (construct emptyEnv) 5 (some 7)) 5 none) :=
    Reachable.call (Op.SetLabelColor 5 none)
      (Reachable.call (Op.SetLabelColor 5 (some 7)) Reachable.init trivial rfl) trivial rfl
  ⟨hr, label_set_is_active_labels emptyEnv _ hr⟩

/-- C4: for a label `l` other than 0 and any function `f` (null allowed), each of
the three per-label setters makes its own getter return `f` at `l`, leaves that
getter unchanged at every other label and leaves the other two getters
unchanged at every label; and a label `l0` that no call ever set returns null
from all three getters. -/
theorem label_setters_pointwise (e : Env) (w w0 : World) (l l0 : Int) (f : Option Ptr)
    (hl : l ≠ 0) (h0 : Reachable (fun op => ¬ op.setsLabel l0) e w0) :
    (GetLabelColor (SetLabelColor w l f) l = f ∧
      (∀ l', l' ≠ l → GetLabelColor (SetLabelColor w l f) l' = GetLabelColor w l') ∧
      (∀ l', GetLabelScalarOpacity (SetLabelColor w l f) l' = GetLabelScalarOpacity w l') ∧
      (∀ l', GetLabelGradientOpacity (SetLabelColor w l f) l' =
        GetLabelGradientOpacity w l')) ∧
    (GetLabelScalarOpacity (SetLabelScalarOpacity w l f) l = f ∧
      (∀ l', l' ≠ l → GetLabelScalarOpacity (SetLabelScalarOpacity w l f) l' =
        GetLabelScalarOpacity w l') ∧
      (∀ l', GetLabelColor (SetLabelScalarOpacity w l f) l' = GetLabelColor w l') ∧
      (∀ l', GetLabelGradientOpacity (SetLabelScalarOpacity w l f) l' =
        GetLabelGradientOpacity w l')) ∧
    (GetLabelGradientOpacity (SetLabelGradientOpacity w l f) l = f ∧
      (∀ l', l' ≠ l → GetLabelGradientOpacity (SetLabelGradientOpacity w l f) l' =
        GetLabelGradientOpacity w l') ∧
      (∀ l', GetLabelColor (SetLabelGradientOpacity w l f) l' = GetLabelColor w l') ∧
      (∀ l', GetLabelScalarOpacity (SetLabelGradientOpacity w l f) l' =
        GetLabelScalarOpacity w l')) ∧
    (GetLabelColor w0 l0 = none ∧ GetLabelScalarOpacity w0 l0 = none ∧
      GetLabelGradientOpacity w0 l0 = none) := by
  simp only [GetLabelColor_eq, GetLabelScalarOpacity_eq, GetLabelGradientOpacity_eq]
  refine ⟨?_, ?_, ?_, ?_⟩
  · obtain ⟨e1, e2, e3, -⟩ := SetLabelColor_labels w l f hl
    refine ⟨by rw [e1, if_pos rfl], fun l' h => by rw [e1, if_neg h], fun l' => by rw [e2],
      fun l' => by rw [e3]⟩
  · obtain ⟨e1, e2, e3, -⟩ := SetLabelScalarOpacity_labels w l f hl
    refine ⟨by rw [e1, if_pos rfl], fun l' h => by rw [e1, if_neg h], fun l' => by rw [e2],
      fun l' => by rw [e3]⟩
  · obtain ⟨e1, e2, e3, -⟩ := SetLabelGradientOpacity_labels w l f hl
    refine ⟨by rw [e1, if_pos rfl], fun l' h => by rw [e1, if_neg h], fun l' => by rw [e2],
      fun l' => by rw [e3]⟩
  · induction h0 with
    | init => simp [construct, LabelMap.get, List.lookup]
    | call op _ hop hs ih =>
      obtain ⟨e1, e2, e3⟩ := labelMaps_step_of_not_setsLabel _ _ op l0 hop hs
      rw [e1, e2, e3]
      exact ih

/-- C4 at label 5 with function 7 on a fresh property; label 9 is never set
along `SetLabelColor(5, 7)`. -/
theorem label_setters_pointwise_witness :
    (5 : Int) ≠ 0 ∧
    Reachable (fun op => ¬ op.setsLabel 9) emptyEnv
      (SetLabelColor (construct emptyEnv) 5 (some 7)) ∧
    GetLabelColor (SetLabelColor (construct emptyEnv) 5 (some 7)) 5 = some 7 ∧
    GetLabelColor (SetLabelColor (construct emptyEnv) 5 (some 7)) 9 = none :=
  have hr : Reachable (fun op => ¬ op.setsLabel 9) emptyEnv
      (SetLabelColor (construct emptyEnv) 5 (some 7)) :=
    Reachable.call (Op.SetLabelColor 5 (some 7)) Reachable.init (by simp [Op.setsLabel]) rfl
  have h := label_setters_pointwise emptyEnv (construct emptyEnv)
    (SetLabelColor (construct emptyEnv) 5 (some 7)) 5 9 (some 7) (by decide) hr
  ⟨by decide, hr, h.1.1, h.2.2.2.1⟩


/-! ## The modification time -/

theorem listMax_nil : listMax [] = 0 := rfl

theorem listMax_cons (a : Nat) (l : List Nat) : listMax (a :: l) = max a (listMax l) := rfl

theorem listMax_append (a b : List Nat) : listMax (a ++ b) = max (listMax a) (listMax b) := by
  induction a with
  | nil => simp [listMax_nil]
  | cons x a ih => simp only [List.cons_append, listMax_cons, ih, max_assoc]

theorem le_listMax (l : List Nat) (t : Nat) (h : t ∈ l) : t ≤ listMax l := by
  induction l with
  | nil => simp at h
  | cons x l ih =>
    rw [listMax_cons]
    rcases List.mem_cons.mp h with rfl | h
    · exact le_max_left _ _
    · exact le_trans (ih h) (le_max_right _ _)

theorem listMax_mem (l : List Nat) (h : l ≠ []) : listMax l ∈ l := by
  induction l with
  | nil => exact absurd rfl h
  | cons x l ih =>
    rw [listMax_cons]
    by_cases hl : l = []
    · subst hl
      simp [listMax_nil]
    · rcases max_cases x (listMax l) with ⟨e, -⟩ | ⟨e, -⟩
      · rw [e]; exact List.mem_cons_self _ _
      · rw [e]; exact List.mem_cons_of_mem _ (ih hl)

theorem GetMTime_body_eq (w : World) (m : Nat) (i : Fin 4) :
    GetMTime.body w m i = max m (listMax (componentSources w i)) := by
  unfold GetMTime.body componentSources slotSources
  rcases h1 : w.self.GrayTransferFunction i with _ | f1 <;>
  rcases h2 : w.self.RGBTransferFunction i with _ | f2 <;>
  rcases h3 : w.self.ScalarOpacity i with _ | f3 <;>
  rcases h4 : w.self.TransferFunction2D i with _ | f4 <;>
  rcases h5 : w.self.GradientOpacity i with _ | f5 <;>
  simp only [listMax_append] <;>
  split_ifs <;>
  simp only [listMax_cons, listMax_nil, listMax_append, max_assoc, Nat.max_zero, Nat.zero_max,
    max_self] <;>
  first | rfl | omega

theorem GetMTime_eq_listMax (w : World) : GetMTime w = listMax (mtimeSources w) := by
  unfold GetMTime mtimeSources
  simp only [finRange_four, List.foldl, GetMTime_body_eq, listMax_append, listMax_cons,
    listMax_nil, Nat.max_zero, Fin.isValue, Fin.reduceFinMk]
  ac_rfl

theorem componentSources_setGray (w : World) (i j : Fin 4) (g : Option Ptr)
    (h : w.self.ColorChannels i ≠ 1) :
    componentSources ((w.setGrayTransferFunction i g).stampGrayTransferFunctionMTime i) j =
      componentSources w j := by
  unfold componentSources slotSources
  by_cases hj : j = i
  · subst hj
    simp [h]
  · simp [Function.update_noteq hj]

theorem componentSources_setRGB (w : World) (i j : Fin 4) (g : Option Ptr)
    (h : w.self.ColorChannels i ≠ 3) :
    componentSources ((w.setRGBTransferFunction i g).stampRGBTransferFunctionMTime i) j =
      componentSources w j := by
  unfold componentSources slotSources
  by_cases hj : j = i
  · subst hj
    simp [h]
  · simp [Function.update_noteq hj]

/-- C5: `GetMTime` is the maximum of the listed time stamps: it is one of them
and none of them exceeds it.  In particular it is at least the object's own
modification time, and the gray slot of a component whose `ColorChannels` is 3
(the RGB slot of one whose `ColorChannels` is 1) contributes nothing: whatever
pointer and slot time stamp it holds, the result is the same. -/
theorem GetMTime_is_max_of_sources (w : World) :
    (GetMTime w ∈ mtimeSources w ∧ ∀ t ∈ mtimeSources w, t ≤ GetMTime w) ∧
    w.self.MTime ≤ GetMTime w ∧
    (∀ (i : Fin 4) (g : Option Ptr), w.self.ColorChannels i = 3 →
      GetMTime ((w.setGrayTransferFunction i g).stampGrayTransferFunctionMTime i) =
        GetMTime w) ∧
    (∀ (i : Fin 4) (g : Option Ptr), w.self.ColorChannels i = 1 →
      GetMTime ((w.setRGBTransferFunction i g).stampRGBTransferFunctionMTime i) =
        GetMTime w) := by
  have hne : mtimeSources w ≠ [] := by simp [mtimeSources]
  refine ⟨⟨?_, ?_⟩, ?_, ?_, ?_⟩
  · rw [GetMTime_eq_listMax]
    exact listMax_mem _ hne
  · intro t ht
    rw [GetMTime_eq_listMax]
    exact le_listMax _ _ ht
  · rw [GetMTime_eq_listMax]
    exact le_listMax _ _ (by simp [mtimeSources])
  · intro i g h
    have h1 : w.self.ColorChannels i ≠ 1 := by omega
    rw [GetMTime_eq_listMax, GetMTime_eq_listMax]
    unfold mtimeSources
    simp only [componentSources_setGray w i _ g h1]
    simp
  · intro i g h
    have h3 : w.self.ColorChannels i ≠ 3 := by omega
    rw [GetMTime_eq_listMax, GetMTime_eq_listMax]
    unfold mtimeSources
    simp only [componentSources_setRGB w i _ g h3]
    simp

/-- C5 on a property whose component 0 holds the gray function 7 and then the
RGB function 8: the modification time is that of the last `Modified()`. -/
theorem GetMTime_is_max_of_sources_witness :
    (step (construct emptyEnv) (Op.SetColorGray 0 (some 7))).bind
        (fun w => (step w (Op.SetColorRGB 0 (some 8))).map
          (fun w => (w.self.ColorChannels 0, w.self.GrayTransferFunction 0, GetMTime w))) =
      some (3, some 7, 7) ∧
    (GetMTime (construct emptyEnv) ∈ mtimeSources (construct emptyEnv) ∧
      ∀ t ∈ mtimeSources (construct emptyEnv), t ≤ GetMTime (construct emptyEnv)) :=
  ⟨by decide, (GetMTime_is_max_of_sources (construct emptyEnv)).1⟩

/-! ## Growth of the modification time -/

theorem listMax_le (l : List Nat) (c : Nat) (h : ∀ t ∈ l, t ≤ c) : listMax l ≤ c := by
  induction l with
  | nil => simp [listMax_nil]
  | cons x l ih =>
    rw [listMax_cons]
    exact max_le (h x (List.mem_cons_self _ _)) (ih fun t ht => h t (List.mem_cons_of_mem _ ht))

theorem GetMTime_le_clock (w : World) (h : TimesBounded w) : GetMTime w ≤ w.clock := by
  have h1 := (h 0 0).1
  have h2 := fun p => (h p 0).2.1
  have h3 := fun i => (h 0 i).2.2.1
  have h4 := fun i => (h 0 i).2.2.2.1
  have h5 := fun i => (h 0 i).2.2.2.2.1
  have h6 := fun i => (h 0 i).2.2.2.2.2.1
  have h7 := fun i => (h 0 i).2.2.2.2.2.2.1
  have h8 := (h 0 0).2.2.2.2.2.2.2.1
  have h9 := (h 0 0).2.2.2.2.2.2.2.2.1
  have h10 := (h 0 0).2.2.2.2.2.2.2.2.2
  have hs : ∀ o s, s ≤ w.clock → ∀ t ∈ slotSources w o s, t ≤ w.clock := by
    intro o s hs t ht
    cases o with
    | none => simp [slotSources] at ht
    | some f =>
      simp only [slotSources, List.mem_cons, List.mem_singleton, List.not_mem_nil, or_false]
        at ht
      rcases ht with rfl | rfl
      · exact hs
      · exact h2 f
  have hc : ∀ i, ∀ t ∈ componentSources w i, t ≤ w.clock := by
    intro i t ht
    unfold componentSources at ht
    simp only [List.mem_append] at ht
    rcases ht with (((ht | ht) | ht) | ht) | ht
    · split_ifs at ht
      · exact hs _ _ (h3 i) t ht
      · simp at ht
    · split_ifs at ht
      · exact hs _ _ (h4 i) t ht
      · simp at ht
    · exact hs _ _ (h5 i) t ht
    · exact hs _ _ (h7 i) t ht
    · cases hg : w.self.GradientOpacity i with
      | none => simp [hg] at ht
      | some f =>
        simp only [hg, List.mem_cons] at ht
        rcases ht with rfl | ht
        · exact h6 i
        · split_ifs at ht
          · simp only [List.mem_singleton] at ht
            subst ht
            exact h2 f
          · simp at ht
  rw [GetMTime_eq_listMax]
  apply listMax_le
  intro t ht
  unfold mtimeSources at ht
  simp only [List.mem_append, List.mem_cons, List.mem_singleton, List.not_mem_nil, or_false]
    at ht
  rcases ht with (rfl | rfl | rfl | rfl | rfl) | ((ht | ht) | ht) | ht
  · exact h1
  · exact h2 _
  · exact h8
  · exact h9
  · exact h10
  · exact hc _ t ht
  · exact hc _ t ht
  · exact hc _ t ht
  · exact hc _ t ht

theorem MTime_le_GetMTime (w : World) : w.self.MTime ≤ GetMTime w := by
  rw [GetMTime_eq_listMax]
  exact le_listMax _ _ (by simp [mtimeSources])

theorem GetMTime_lt_of_stamped (w w' : World) (h : TimesBounded w)
    (hm : w.clock < w'.self.MTime) : GetMTime w < GetMTime w' :=
  lt_of_le_of_lt (GetMTime_le_clock w h) (lt_of_lt_of_le hm (MTime_le_GetMTime w'))

theorem slotSources_grow (w w' : World) (o o' : Option Ptr) (s s' : Nat)
    (ho : o = none ∨ o' = o) (hs : s ≤ s') (hobj : ∀ p, w.objMTime p ≤ w'.objMTime p) :
    listMax (slotSources w o s) ≤ listMax (slotSources w' o' s') := by
  cases o with
  | none => simp [slotSources, listMax_nil]
  | some f =>
    have : o' = some f := by simpa using ho
    subst this
    simp only [slotSources, listMax_cons, listMax_nil]
    exact max_le_max hs (max_le_max (hobj f) le_rfl)

theorem componentSources_grow (w w' : World) (h : SourcesGrow w w') (i : Fin 4) :
    listMax (componentSources w i) ≤ listMax (componentSources w' i) := by
  have hobj := fun p => (h p 0).2.2.1
  have hcc := fun i => (h 0 i).2.2.2.2.2.2.1
  have hd := fun i => (h 0 i).2.2.2.2.2.2.2.1
  have hg := fun i => (h 0 i).2.2.2.2.2.2.2.2.1
  have hr := fun i => (h 0 i).2.2.2.2.2.2.2.2.2.1
  have hso := fun i => (h 0 i).2.2.2.2.2.2.2.2.2.2.1
  have htf := fun i => (h 0 i).2.2.2.2.2.2.2.2.2.2.2.1
  have hgo := fun i => (h 0 i).2.2.2.2.2.2.2.2.2.2.2.2
  unfold componentSources
  simp only [listMax_append, hcc i, hd i]
  refine max_le_max (max_le_max (max_le_max (max_le_max ?_ ?_) ?_) ?_) ?_
  · split_ifs
    · exact slotSources_grow w w' _ _ _ _ (hg i).1 (hg i).2 hobj
    · exact le_rfl
  · split_ifs
    · exact slotSources_grow w w' _ _ _ _ (hr i).1 (hr i).2 hobj
    · exact le_rfl
  · exact slotSources_grow w w' _ _ _ _ (hso i).1 (hso i).2 hobj
  · exact slotSources_grow w w' _ _ _ _ (htf i).1 (htf i).2 hobj
  · cases hx : w.self.GradientOpacity i with
    | none => simp [listMax_nil]
    | some f =>
      have h2 : w'.self.GradientOpacity i = some f := by
        have := (hgo i).1
        rw [hx] at this
        simpa using this
      rw [h2]
      simp only [listMax_cons]
      refine max_le_max (hgo i).2 ?_
      split_ifs
      · simp only [listMax_cons, listMax_nil]
        exact max_le_max (hobj f) le_rfl
      · exact le_rfl

theorem GetMTime_le_of_sourcesGrow (w w' : World) (h : SourcesGrow w w') :
    GetMTime w ≤ GetMTime w' := by
  have hc := componentSources_grow w w' h
  have hobj := fun p => (h p 0).2.2.1
  obtain ⟨h1, h2, -, h4, h5, h6, -⟩ := h 0 0
  rw [GetMTime_eq_listMax, GetMTime_eq_listMax]
  unfold mtimeSources
  simp only [listMax_append, listMax_cons, listMax_nil, h2]
  exact max_le_max
    (max_le_max h1 (max_le_max (hobj _) (max_le_max h4 (max_le_max h5 (max_le_max h6 le_rfl)))))
    (max_le_max (max_le_max (max_le_max (hc 0) (hc 1)) (hc 2)) (hc 3))

set_option maxHeartbeats 8000000 in
theorem step_times (w w' : World) (op : Op) (hb : TimesBounded w)
    (h : step w op = some w') : TimesBounded w' ∧ GetMTime w ≤ GetMTime w' := by
  revert h
  cases op <;>
    simp only [step, SetColor_vtkPiecewiseFunction, GetGrayTransferFunction,
        SetColor_vtkColorTransferFunction, GetRGBTransferFunction, SetScalarOpacity,
        GetScalarOpacity, SetScalarOpacityUnitDistance, SetGradientOpacity, GetGradientOpacity,
        GetStoredGradientOpacity, SetTransferFunction2D, SetDisableGradientOpacity,
        SetComponentWeight, SetShade, SetAmbient, SetDiffuse, SetSpecular, SetSpecularPower,
        SetLabelColor, SetLabelScalarOpacity, SetLabelGradientOpacity, GetLabelMapLabels,
        CreateDefaultGradientOpacity, UpdateMTimes, finRange_four, List.foldl] <;>
    repeat' split
  all_goals
    intro h
    first
      | (simp only [Option.map_some', Option.map_none', Option.some.injEq, reduceCtorEq] at h
         done)
      | (simp only [Option.map_some', Option.map_none', Option.some.injEq, reduceCtorEq] at h
         subst h
         refine ⟨?_, ?_⟩
         · intro p i
           have := hb p i
           first
             | (with_reducible exact this)
             | (simp [New, AddPoint, RemoveAllPoints, Function.update_apply]
                first
                  | (split_ifs <;> omega)
                  | omega)
         · first
            | (with_reducible exact le_rfl)
            | (refine le_of_lt (GetMTime_lt_of_stamped _ _ hb ?_)
               simp [New, AddPoint, RemoveAllPoints]
               done)
            | (refine le_of_lt (GetMTime_lt_of_stamped _ _ hb ?_)
               simp [New, AddPoint, RemoveAllPoints]
               omega)
            | (refine GetMTime_le_of_sourcesGrow _ _ ?_
               intro p i
               have := hb p i
               simp [New, AddPoint, RemoveAllPoints, Function.update_apply]
               all_goals
                 (try split_ifs) <;> (try simp_all) <;>
                 first
                   | omega
                   | (refine or_iff_not_imp_right.mpr (fun hne => ?_)
                      have hij := not_not.mp hne
                      subst hij
                      assumption)
                   | (refine ⟨by omega, or_iff_not_imp_right.mpr (fun hne => ?_)⟩
                      have hij := not_not.mp hne
                      subst hij
                      assumption)))

theorem TimesBounded_construct (e : Env) (he : e.TimesBounded) : TimesBounded (construct e) := by
  intro p i
  have := he p
  simp only [construct, Function.update_apply]
  refine ⟨by omega, ?_, by omega, by omega, by omega, by omega, by omega, by omega, by omega,
    by omega⟩
  split_ifs <;> omega

theorem TimesBounded_of_reachable (allowed : Op → Prop) (e : Env) (he : e.TimesBounded)
    (w : World) (hr : Reachable allowed e w) : TimesBounded w := by
  induction hr with
  | init => exact TimesBounded_construct e he
  | call op _ _ hs ih => exact (step_times _ _ op ih hs).1

theorem SetColor_vtkPiecewiseFunction_strict (w w' : World) (index : Int) (f : Option Ptr) (i : Fin 4)
    (hb : TimesBounded w) (hs : slot index = some i) (hne : w.self.GrayTransferFunction i ≠ f)
    (h : SetColor_vtkPiecewiseFunction w index f = some w') : GetMTime w < GetMTime w' := by
  revert h
  simp only [SetColor_vtkPiecewiseFunction, hs, if_pos hne]
  split_ifs <;> intro h <;> simp only [Option.some.injEq] at h <;> subst h <;>
    refine GetMTime_lt_of_stamped _ _ hb ?_ <;> simp <;> omega

theorem SetColor_vtkColorTransferFunction_strict (w w' : World) (index : Int) (f : Option Ptr) (i : Fin 4)
    (hb : TimesBounded w) (hs : slot index = some i) (hne : w.self.RGBTransferFunction i ≠ f)
    (h : SetColor_vtkColorTransferFunction w index f = some w') : GetMTime w < GetMTime w' := by
  revert h
  simp only [SetColor_vtkColorTransferFunction, hs, if_pos hne]
  split_ifs <;> intro h <;> simp only [Option.some.injEq] at h <;> subst h <;>
    refine GetMTime_lt_of_stamped _ _ hb ?_ <;> simp <;> omega

theorem SetScalarOpacity_strict (w w' : World) (index : Int) (f : Option Ptr) (i : Fin 4)
    (hb : TimesBounded w) (hs : slot index = some i) (hne : w.self.ScalarOpacity i ≠ f)
    (h : SetScalarOpacity w index f = some w') : GetMTime w < GetMTime w' := by
  revert h
  simp only [SetScalarOpacity, hs, if_pos hne]
  intro h
  simp only [Option.some.injEq] at h
  subst h
  refine GetMTime_lt_of_stamped _ _ hb ?_
  simp
  try omega

theorem SetGradientOpacity_strict (w w' : World) (index : Int) (f : Option Ptr) (i : Fin 4)
    (hb : TimesBounded w) (hs : slot index = some i) (hne : w.self.GradientOpacity i ≠ f)
    (h : SetGradientOpacity w index f = some w') : GetMTime w < GetMTime w' := by
  revert h
  simp only [SetGradientOpacity, hs, if_pos hne]
  intro h
  simp only [Option.some.injEq] at h
  subst h
  refine GetMTime_lt_of_stamped _ _ hb ?_
  simp
  try omega

theorem SetLabelColor_strict (w : World) (l : Int) (f : Option Ptr) (hb : TimesBounded w)
    (hl : l ≠ 0) (hne : GetLabelColor w l ≠ f) : GetMTime w < GetMTime (SetLabelColor w l f) := by
  rw [GetLabelColor_eq] at hne
  have hc : ¬(w.self.LabelColor.count l ≠ 0 ∧ w.self.LabelColor.get l = f) := fun hh => hne hh.2
  simp only [SetLabelColor, if_neg hl, if_neg hc]
  refine GetMTime_lt_of_stamped _ _ hb ?_
  split_ifs <;> simp <;> omega

theorem SetLabelScalarOpacity_strict (w : World) (l : Int) (f : Option Ptr) (hb : TimesBounded w)
    (hl : l ≠ 0) (hne : GetLabelScalarOpacity w l ≠ f) : GetMTime w < GetMTime (SetLabelScalarOpacity w l f) := by
  rw [GetLabelScalarOpacity_eq] at hne
  have hc : ¬(w.self.LabelScalarOpacity.count l ≠ 0 ∧ w.self.LabelScalarOpacity.get l = f) := fun hh => hne hh.2
  simp only [SetLabelScalarOpacity, if_neg hl, if_neg hc]
  refine GetMTime_lt_of_stamped _ _ hb ?_
  split_ifs <;> simp <;> omega

theorem SetLabelGradientOpacity_strict (w : World) (l : Int) (f : Option Ptr) (hb : TimesBounded w)
    (hl : l ≠ 0) (hne : GetLabelGradientOpacity w l ≠ f) : GetMTime w < GetMTime (SetLabelGradientOpacity w l f) := by
  rw [GetLabelGradientOpacity_eq] at hne
  have hc : ¬(w.self.LabelGradientOpacity.count l ≠ 0 ∧ w.self.LabelGradientOpacity.get l = f) := fun hh => hne hh.2
  simp only [SetLabelGradientOpacity, if_neg hl, if_neg hc]
  refine GetMTime_lt_of_stamped _ _ hb ?_
  split_ifs <;> simp <;> omega

/-- C6: in a state whose time stamps were all issued by the global counter (as
in every state a constructed property reaches), any call that returns leaves
such a state and does not decrease `GetMTime`; and a call of `SetColor`,
`SetScalarOpacity`, `SetGradientOpacity`, `SetLabelColor`,
`SetLabelScalarOpacity` or `SetLabelGradientOpacity` that stores a function
different from the one stored before, null included, makes `GetMTime` strictly
greater. -/
theorem GetMTime_never_decreases (w w' : World) (op : Op) (hb : TimesBounded w)
    (h : step w op = some w') :
    TimesBounded w' ∧ GetMTime w ≤ GetMTime w' ∧ (op.storesNew w → GetMTime w < GetMTime w') := by
  obtain ⟨h1, h2⟩ := step_times w w' op hb h
  refine ⟨h1, h2, ?_⟩
  intro hn
  cases op <;> simp only [Op.storesNew] at hn <;> simp only [step, Option.some.injEq] at h
  · obtain ⟨i, hs, hne⟩ := hn
    exact SetColor_vtkPiecewiseFunction_strict w w' _ _ i hb hs hne h
  · obtain ⟨i, hs, hne⟩ := hn
    exact SetColor_vtkColorTransferFunction_strict w w' _ _ i hb hs hne h
  · obtain ⟨i, hs, hne⟩ := hn
    exact SetScalarOpacity_strict w w' _ _ i hb hs hne h
  · obtain ⟨i, hs, hne⟩ := hn
    exact SetGradientOpacity_strict w w' _ _ i hb hs hne h
  · subst h
    exact SetLabelColor_strict w _ _ hb hn.1 hn.2
  · subst h
    exact SetLabelScalarOpacity_strict w _ _ hb hn.1 hn.2
  · subst h
    exact SetLabelGradientOpacity_strict w _ _ hb hn.1 hn.2

/-- C6 on a fresh property: storing the scalar-opacity function 7 in component 0
and then replacing it by null each raise the modification time. -/
theorem GetMTime_never_decreases_witness :
    TimesBounded (construct emptyEnv) ∧
    step (construct emptyEnv) (Op.SetScalarOpacity 0 (some 7)) =
      some ((step (construct emptyEnv) (Op.SetScalarOpacity 0 (some 7))).getD
        (construct emptyEnv)) ∧
    GetMTime (construct emptyEnv) <
      GetMTime ((step (construct emptyEnv) (Op.SetScalarOpacity 0 (some 7))).getD
        (construct emptyEnv)) :=
  have hb : TimesBounded (construct emptyEnv) :=
    TimesBounded_construct emptyEnv (fun _ => Nat.le_refl 0)
  have hs : step (construct emptyEnv) (Op.SetScalarOpacity 0 (some 7)) =
      some ((step (construct emptyEnv) (Op.SetScalarOpacity 0 (some 7))).getD
        (construct emptyEnv)) := rfl
  ⟨hb, hs, (GetMTime_never_decreases _ _ _ hb hs).2.2 ⟨0, rfl, by decide⟩⟩


/-! ## Reference counts -/

theorem arrayCount_update (a : Fin 4 → Option Ptr) (i : Fin 4) (v : Option Ptr) (p : Ptr) :
    arrayCount (Function.update a i v) p =
      arrayCount a p - (if a i = some p then 1 else 0) + (if v = some p then 1 else 0) := by
  unfold arrayCount
  fin_cases i <;> simp [Function.update] <;> omega

theorem LabelMap.countOf_assign (m : LabelMap) (k : Int) (v : Option Ptr) (p : Ptr) :
    (m.assign k v).countOf p =
      m.countOf p - (if m.count k ≠ 0 ∧ m.get k = some p then 1 else 0) +
        (if v = some p then 1 else 0) := by
  induction m with
  | nil => simp [LabelMap.assign, LabelMap.countOf, LabelMap.count, List.lookup]
  | cons e m ih =>
    obtain ⟨k', v'⟩ := e
    unfold LabelMap.assign
    by_cases hk : k' = k
    · subst hk
      simp [LabelMap.countOf, LabelMap.count, LabelMap.get, List.lookup]
      omega
    · have hb : (k == k') = false := by simpa using fun h => hk h.symm
      rw [if_neg hk]
      simp only [LabelMap.countOf, ih, LabelMap.count, LabelMap.get, List.lookup, hb]
      omega

theorem SetLabelColor_held (w : World) (l : Int) (f : Option Ptr) (p : Ptr) :
    (SetLabelColor w l f).self.held p - slotCount (SetLabelColor w l f) p =
      w.self.held p - slotCount w p := by
  unfold SetLabelColor
  by_cases hl : l = 0
  · rw [if_pos hl]
  rw [if_neg hl]
  by_cases hc : w.self.LabelColor.count l ≠ 0 ∧ w.self.LabelColor.get l = f
  · rw [if_pos hc]
  rw [if_neg hc]
  by_cases h0 : w.self.LabelColor.count l ≠ 0
  · have hg : ¬ w.self.LabelColor.get l = f := fun hh => hc ⟨h0, hh⟩
    simp only [if_pos h0]
    by_cases hf : f = none
    · subst hf
      simp [slotCount, LabelMap.countOf_assign, LabelMap.get_assign, h0]
      split_ifs <;> omega
    · simp [slotCount, LabelMap.countOf_assign, LabelMap.get_assign, h0, hf]
      split_ifs <;> omega
  · simp only [if_neg h0]
    by_cases hf : f = none
    · subst hf
      simp [slotCount, LabelMap.countOf_assign, LabelMap.get_assign, h0]
    · simp [slotCount, LabelMap.countOf_assign, LabelMap.get_assign, h0, hf]
      split_ifs <;> omega

theorem SetLabelColor_delta (w : World) (l : Int) (f : Option Ptr) (p : Ptr) (hl : l ≠ 0) :
    (SetLabelColor w l f).self.held p = w.self.held p + refDelta (GetLabelColor w l) f p := by
  rw [GetLabelColor_eq]
  unfold SetLabelColor refDelta
  rw [if_neg hl]
  by_cases hc : w.self.LabelColor.count l ≠ 0 ∧ w.self.LabelColor.get l = f
  · rw [if_pos hc, hc.2]
    omega
  rw [if_neg hc]
  by_cases h0 : w.self.LabelColor.count l ≠ 0
  · simp only [if_pos h0]
    by_cases hf : f = none
    · subst hf
      simp [LabelMap.get_assign]
      split_ifs <;> omega
    · simp [LabelMap.get_assign, hf]
      split_ifs <;> omega
  · have hg : w.self.LabelColor.get l = none :=
      LabelMap.get_of_count_eq_zero _ _ (by simpa using h0)
    simp only [if_neg h0, hg]
    by_cases hf : f = none
    · subst hf
      simp [LabelMap.get_assign]
    · simp [LabelMap.get_assign, hf]
      split_ifs <;> omega

theorem SetLabelScalarOpacity_held (w : World) (l : Int) (f : Option Ptr) (p : Ptr) :
    (SetLabelScalarOpacity w l f).self.held p - slotCount (SetLabelScalarOpacity w l f) p =
      w.self.held p - slotCount w p := by
  unfold SetLabelScalarOpacity
  by_cases hl : l = 0
  · rw [if_pos hl]
  rw [if_neg hl]
  by_cases hc : w.self.LabelScalarOpacity.count l ≠ 0 ∧ w.self.LabelScalarOpacity.get l = f
  · rw [if_pos hc]
  rw [if_neg hc]
  by_cases h0 : w.self.LabelScalarOpacity.count l ≠ 0
  · have hg : ¬ w.self.LabelScalarOpacity.get l = f := fun hh => hc ⟨h0, hh⟩
    simp only [if_pos h0]
    by_cases hf : f = none
    · subst hf
      simp [slotCount, LabelMap.countOf_assign, LabelMap.get_assign, h0]
      split_ifs <;> omega
    · simp [slotCount, LabelMap.countOf_assign, LabelMap.get_assign, h0, hf]
      split_ifs <;> omega
  · simp only [if_neg h0]
    by_cases hf : f = none
    · subst hf
      simp [slotCount, LabelMap.countOf_assign, LabelMap.get_assign, h0]
    · simp [slotCount, LabelMap.countOf_assign, LabelMap.get_assign, h0, hf]
      split_ifs <;> omega

theorem SetLabelScalarOpacity_delta (w : World) (l : Int) (f : Option Ptr) (p : Ptr) (hl : l ≠ 0) :
    (SetLabelScalarOpacity w l f).self.held p = w.self.held p + refDelta (GetLabelScalarOpacity w l) f p := by
  rw [GetLabelScalarOpacity_eq]
  unfold SetLabelScalarOpacity refDelta
  rw [if_neg hl]
  by_cases hc : w.self.LabelScalarOpacity.count l ≠ 0 ∧ w.self.LabelScalarOpacity.get l = f
  · rw [if_pos hc, hc.2]
    omega
  rw [if_neg hc]
  by_cases h0 : w.self.LabelScalarOpacity.count l ≠ 0
  · simp only [if_pos h0]
    by_cases hf : f = none
    · subst hf
      simp [LabelMap.get_assign]
      split_ifs <;> omega
    · simp [LabelMap.get_assign, hf]
      split_ifs <;> omega
  · have hg : w.self.LabelScalarOpacity.get l = none :=
      LabelMap.get_of_count_eq_zero _ _ (by simpa using h0)
    simp only [if_neg h0, hg]
    by_cases hf : f = none
    · subst hf
      simp [LabelMap.get_assign]
    · simp [LabelMap.get_assign, hf]
      split_ifs <;> omega

theorem SetLabelGradientOpacity_held (w : World) (l : Int) (f : Option Ptr) (p : Ptr) :
    (SetLabelGradientOpacity w l f).self.held p - slotCount (SetLabelGradientOpacity w l f) p =
      w.self.held p - slotCount w p := by
  unfold SetLabelGradientOpacity
  by_cases hl : l = 0
  · rw [if_pos hl]
  rw [if_neg hl]
  by_cases hc : w.self.LabelGradientOpacity.count l ≠ 0 ∧ w.self.LabelGradientOpacity.get l = f
  · rw [if_pos hc]
  rw [if_neg hc]
  by_cases h0 : w.self.LabelGradientOpacity.count l ≠ 0
  · have hg : ¬ w.self.LabelGradientOpacity.get l = f := fun hh => hc ⟨h0, hh⟩
    simp only [if_pos h0]
    by_cases hf : f = none
    · subst hf
      simp [slotCount, LabelMap.countOf_assign, LabelMap.get_assign, h0]
      split_ifs <;> omega
    · simp [slotCount, LabelMap.countOf_assign, LabelMap.get_assign, h0, hf]
      split_ifs <;> omega
  · simp only [if_neg h0]
    by_cases hf : f = none
    · subst hf
      simp [slotCount, LabelMap.countOf_assign, LabelMap.get_assign, h0]
    · simp [slotCount, LabelMap.countOf_assign, LabelMap.get_assign, h0, hf]
      split_ifs <;> omega

theorem SetLabelGradientOpacity_delta (w : World) (l : Int) (f : Option Ptr) (p : Ptr) (hl : l ≠ 0) :
    (SetLabelGradientOpacity w l f).self.held p = w.self.held p + refDelta (GetLabelGradientOpacity w l) f p := by
  rw [GetLabelGradientOpacity_eq]
  unfold SetLabelGradientOpacity refDelta
  rw [if_neg hl]
  by_cases hc : w.self.LabelGradientOpacity.count l ≠ 0 ∧ w.self.LabelGradientOpacity.get l = f
  · rw [if_pos hc, hc.2]
    omega
  rw [if_neg hc]
  by_cases h0 : w.self.LabelGradientOpacity.count l ≠ 0
  · simp only [if_pos h0]
    by_cases hf : f = none
    · subst hf
      simp [LabelMap.get_assign]
      split_ifs <;> omega
    · simp [LabelMap.get_assign, hf]
      split_ifs <;> omega
  · have hg : w.self.LabelGradientOpacity.get l = none :=
      LabelMap.get_of_count_eq_zero _ _ (by simpa using h0)
    simp only [if_neg h0, hg]
    by_cases hf : f = none
    · subst hf
      simp [LabelMap.get_assign]
    · simp [LabelMap.get_assign, hf]
      split_ifs <;> omega

theorem SetColor_vtkPiecewiseFunction_delta (w w' : World) (index : Int) (f : Option Ptr) (i : Fin 4)
    (p : Ptr) (hs : slot index = some i) (h : SetColor_vtkPiecewiseFunction w index f = some w') :
    w'.self.held p = w.self.held p + refDelta (w.self.GrayTransferFunction i) f p := by
  revert h
  simp only [SetColor_vtkPiecewiseFunction, hs]
  split_ifs <;> intro h <;> simp only [Option.some.injEq] at h <;> subst h <;>
    simp [refDelta] <;> (try split_ifs) <;> (try subst_vars) <;> (try simp_all) <;> omega

theorem SetColor_vtkColorTransferFunction_delta (w w' : World) (index : Int) (f : Option Ptr) (i : Fin 4)
    (p : Ptr) (hs : slot index = some i) (h : SetColor_vtkColorTransferFunction w index f = some w') :
    w'.self.held p = w.self.held p + refDelta (w.self.RGBTransferFunction i) f p := by
  revert h
  simp only [SetColor_vtkColorTransferFunction, hs]
  split_ifs <;> intro h <;> simp only [Option.some.injEq] at h <;> subst h <;>
    simp [refDelta] <;> (try split_ifs) <;> (try subst_vars) <;> (try simp_all) <;> omega

set_option linter.unnecessarySeqFocus false in
theorem SetScalarOpacity_delta (w w' : World) (index : Int) (f : Option Ptr) (i : Fin 4)
    (p : Ptr) (hs : slot index = some i) (h : SetScalarOpacity w index f = some w') :
    w'.self.held p = w.self.held p + refDelta (w.self.ScalarOpacity i) f p := by
  revert h
  simp only [SetScalarOpacity, hs]
  intro h
  simp only [Option.some.injEq] at h
  subst h
  split_ifs <;> simp [refDelta] <;> (try split_ifs) <;> (try subst_vars) <;>
    (try simp_all) <;> omega

set_option linter.unnecessarySeqFocus false in
theorem SetGradientOpacity_delta (w w' : World) (index : Int) (f : Option Ptr) (i : Fin 4)
    (p : Ptr) (hs : slot index = some i) (h : SetGradientOpacity w index f = some w') :
    w'.self.held p = w.self.held p + refDelta (w.self.GradientOpacity i) f p := by
  revert h
  simp only [SetGradientOpacity, hs]
  intro h
  simp only [Option.some.injEq] at h
  subst h
  split_ifs <;> simp [refDelta] <;> (try split_ifs) <;> (try subst_vars) <;>
    (try simp_all) <;> omega


theorem Owns_construct (e : Env) : Owns (construct e) := by
  intro p
  simp [construct, slotCount, arrayCount, LabelMap.countOf]

set_option maxHeartbeats 8000000 in
theorem step_owns (w w' : World) (op : Op) (hop : op.isSetTransferFunction2D = false)
    (hi : Owns w) (h : step w op = some w') : Owns w' := by
  revert h
  cases op
  case SetTransferFunction2D => simp [Op.isSetTransferFunction2D] at hop
  case SetLabelColor l f =>
    simp only [step, Option.some.injEq]
    intro h
    subst h
    intro p
    have := hi p
    have hd := SetLabelColor_held w l f p
    omega
  case SetLabelScalarOpacity l f =>
    simp only [step, Option.some.injEq]
    intro h
    subst h
    intro p
    have := hi p
    have hd := SetLabelScalarOpacity_held w l f p
    omega
  case SetLabelGradientOpacity l f =>
    simp only [step, Option.some.injEq]
    intro h
    subst h
    intro p
    have := hi p
    have hd := SetLabelGradientOpacity_held w l f p
    omega
  all_goals
    simp only [step, SetColor_vtkPiecewiseFunction, GetGrayTransferFunction,
      SetColor_vtkColorTransferFunction, GetRGBTransferFunction, SetScalarOpacity,
      GetScalarOpacity, SetScalarOpacityUnitDistance, SetGradientOpacity, GetGradientOpacity,
      GetStoredGradientOpacity, SetDisableGradientOpacity,
      SetComponentWeight, SetShade, SetAmbient, SetDiffuse, SetSpecular, SetSpecularPower,
      GetLabelMapLabels, CreateDefaultGradientOpacity, UpdateMTimes, finRange_four,
      List.foldl]
    repeat' split
    all_goals
      intro h
      first
        | (simp only [Option.map_some', Option.map_none', Option.some.injEq, reduceCtorEq] at h
           done)
        | (simp only [Option.map_some', Option.map_none', Option.some.injEq, reduceCtorEq] at h
           subst h
           first
             | (with_reducible exact hi)
             | (intro p
                have := hi p
                simp only [slotCount] at this
                simp [slotCount, arrayCount_update, New, AddPoint, RemoveAllPoints,
                  Function.update_apply]
                all_goals
                  (try split_ifs) <;> (try subst_vars) <;> (try simp_all) <;> omega))

theorem Owns_of_reachable (e : Env) (w : World)
    (hr : Reachable (fun op => op.isSetTransferFunction2D = false) e w) : Owns w := by
  induction hr with
  | init => exact Owns_construct e
  | call op _ hop hs ih => exact step_owns _ _ op hop ih hs

/-- C7: in every state a constructed property reaches through calls other than
`SetTransferFunction2D` (the setters of the one-dimensional slots and of the
label maps and the default-creating getters are among them), the number of
references the property holds on any object equals the number of slots and
label-map entries storing it.  A call from such a state that assigns `new` to a
one-dimensional slot or label-map entry storing `old` changes the number of
references held on each `p` by `refDelta old new p`: with `old ≠ new` it is one
less for the old non-null function and one more for the new non-null function,
and with `old = new` no count changes. -/
theorem ownership_matches_slots (e : Env) (w w' : World) (op : Op)
    (hr : Reachable (fun op => op.isSetTransferFunction2D = false) e w)
    (h : step w op = some w') :
    (∀ p, w.self.held p = slotCount w p) ∧
    (∀ old new, op.assigned w = some (old, new) →
      (∀ p, w'.self.held p = w.self.held p + refDelta old new p) ∧
      (old ≠ new → (∀ p, old = some p → w'.self.held p = w.self.held p - 1) ∧
        (∀ p, new = some p → w'.self.held p = w.self.held p + 1) ∧
        (∀ p, old ≠ some p → new ≠ some p → w'.self.held p = w.self.held p)) ∧
      (old = new → ∀ p, w'.self.held p = w.self.held p)) := by
  have hd : ∀ old new, op.assigned w = some (old, new) →
      ∀ p, w'.self.held p = w.self.held p + refDelta old new p := by
    intro old new ha p
    cases op
    case SetColorGray index function =>
      simp only [Op.assigned] at ha
      simp only [step] at h
      cases hs : slot index with
      | none => simp [hs] at ha
      | some i =>
        simp only [hs, Option.map_some', Option.some.injEq, Prod.mk.injEq] at ha
        rw [← ha.1, ← ha.2]
        exact SetColor_vtkPiecewiseFunction_delta w w' index function i p hs h
    case SetColorRGB index function =>
      simp only [Op.assigned] at ha
      simp only [step] at h
      cases hs : slot index with
      | none => simp [hs] at ha
      | some i =>
        simp only [hs, Option.map_some', Option.some.injEq, Prod.mk.injEq] at ha
        rw [← ha.1, ← ha.2]
        exact SetColor_vtkColorTransferFunction_delta w w' index function i p hs h
    case SetScalarOpacity index function =>
      simp only [Op.assigned] at ha
      simp only [step] at h
      cases hs : slot index with
      | none => simp [hs] at ha
      | some i =>
        simp only [hs, Option.map_some', Option.some.injEq, Prod.mk.injEq] at ha
        rw [← ha.1, ← ha.2]
        exact SetScalarOpacity_delta w w' index function i p hs h
    case SetGradientOpacity index function =>
      simp only [Op.assigned] at ha
      simp only [step] at h
      cases hs : slot index with
      | none => simp [hs] at ha
      | some i =>
        simp only [hs, Option.map_some', Option.some.injEq, Prod.mk.injEq] at ha
        rw [← ha.1, ← ha.2]
        exact SetGradientOpacity_delta w w' index function i p hs h
    case SetLabelColor label color =>
      simp only [Op.assigned] at ha
      simp only [step, Option.some.injEq] at h
      by_cases hl : label = 0
      · simp [hl] at ha
      · simp only [if_neg hl, Option.some.injEq, Prod.mk.injEq] at ha
        rw [← ha.1, ← ha.2, ← h]
        exact SetLabelColor_delta w label color p hl
    case SetLabelScalarOpacity label function =>
      simp only [Op.assigned] at ha
      simp only [step, Option.some.injEq] at h
      by_cases hl : label = 0
      · simp [hl] at ha
      · simp only [if_neg hl, Option.some.injEq, Prod.mk.injEq] at ha
        rw [← ha.1, ← ha.2, ← h]
        exact SetLabelScalarOpacity_delta w label function p hl
    case SetLabelGradientOpacity label function =>
      simp only [Op.assigned] at ha
      simp only [step, Option.some.injEq] at h
      by_cases hl : label = 0
      · simp [hl] at ha
      · simp only [if_neg hl, Option.some.injEq, Prod.mk.injEq] at ha
        rw [← ha.1, ← ha.2, ← h]
        exact SetLabelGradientOpacity_delta w label function p hl
    all_goals simp [Op.assigned] at ha
  refine ⟨Owns_of_reachable e w hr, fun old new ha => ⟨hd old new ha, ?_, ?_⟩⟩
  · intro hne
    refine ⟨?_, ?_, ?_⟩
    · intro p hp
      have := hd old new ha p
      have hn : new ≠ some p := fun hh => hne (hp.trans hh.symm)
      simp only [refDelta, if_pos hp, if_neg hn] at this
      omega
    · intro p hp
      have := hd old new ha p
      have hn : old ≠ some p := fun hh => hne (hh.trans hp.symm)
      simp only [refDelta, if_pos hp, if_neg hn] at this
      omega
    · intro p ho hn
      have := hd old new ha p
      simp only [refDelta, if_neg ho, if_neg hn] at this
      omega
  · intro heq p
    have := hd old new ha p
    subst heq
    simp only [refDelta] at this
    omega

/-- C7 on a fresh property that stored the function 7 as gray function of
component 0 and as scalar opacity of component 1 and then replaces the gray
function of component 0 by the function 9: two references on 7 before, one
after, and one on 9. -/
theorem ownership_matches_slots_witness :
    Reachable (fun op => op.isSetTransferFunction2D = false) emptyEnv twoSlots ∧
    step twoSlots (Op.SetColorGray 0 (some 9)) = some twoSlotsThen ∧
    twoSlots.self.held 7 = 2 ∧ slotCount twoSlots 7 = 2 ∧
    twoSlotsThen.self.held 7 = 1 ∧ twoSlotsThen.self.held 9 = 1 :=
  have hr : Reachable (fun op => op.isSetTransferFunction2D = false) emptyEnv twoSlots :=
    Reachable.call (Op.SetScalarOpacity 1 (some 7))
      (Reachable.call (Op.SetColorGray 0 (some 7)) Reachable.init rfl rfl) rfl rfl
  have hs : step twoSlots (Op.SetColorGray 0 (some 9)) = some twoSlotsThen := rfl
  have hc := ownership_matches_slots emptyEnv twoSlots twoSlotsThen _ hr hs
  have h7 : twoSlots.self.held 7 = 2 := by decide
  have ha : (Op.SetColorGray 0 (some 9)).assigned twoSlots = some (some 7, some 9) := by
    decide
  ⟨hr, hs, h7, (hc.1 7).symm.trans h7,
    ((hc.2 _ _ ha).2.1 (by decide)).1 7 rfl |>.trans (by rw [h7]; rfl),
    ((hc.2 _ _ ha).2.1 (by decide)).2.1 9 rfl |>.trans (by decide)⟩

/-! ## The two-dimensional transfer function -/

theorem SetTransferFunction2D_valid (w : World) (index : Int) (i : Fin 4) (f : Ptr)
    (hs : slot index = some i) (hv : validImage (w.image f) = true) :
    ∃ w', SetTransferFunction2D w index (some f) = some w' ∧
      GetTransferFunction2D w' index = some (some f) := by
  simp only [SetTransferFunction2D, GetTransferFunction2D, hs]
  by_cases h1 : (w.self.TransferFunction2D i = none ∧ some f = none) ∨
      w.self.TransferFunction2D i = some f
  · rw [if_pos h1]
    refine ⟨_, rfl, ?_⟩
    rcases h1 with h1 | h1
    · simp at h1
    · rw [h1]
  · rw [if_neg h1]
    have hv' : ¬ validImage ((UnRegisterIfSet w (w.self.TransferFunction2D i)).image f) = false := by
      simp [hv]
    simp only [if_neg hv']
    refine ⟨_, rfl, ?_⟩
    simp

/-- C8 fails in the code: `SetTransferFunction2D` releases the reference on the
stored function before it looks at its argument, and leaves the slot as it was
when the argument is an image it rejects or null.  In `imageEnv`, after
`SetTransferFunction2D(0, 7)` the slot 0 stores the image 7 with one reference
held; `SetTransferFunction2D(0, 8)` with the rejected image 8, and likewise
`SetTransferFunction2D(0, nullptr)`, leave the image 7 in the slot with no
reference held on it. -/
theorem SetTransferFunction2D_rejected_drops_reference :
    validImage (imageEnv.image 7) = true ∧ validImage (imageEnv.image 8) = false ∧
    lookupSet.self.TransferFunction2D 0 = some 7 ∧ lookupSet.self.held 7 = 1 ∧
    (SetTransferFunction2D lookupSet 0 (some 8)).map
      (fun w => (w.self.TransferFunction2D 0, w.self.held 7)) = some (some 7, 0) ∧
    (SetTransferFunction2D lookupSet 0 none).map
      (fun w => (w.self.TransferFunction2D 0, w.self.held 7)) = some (some 7, 0) := by
  refine ⟨by decide, by decide, by decide, by decide, by decide, by decide⟩

/-- C9 fails in the code for the null argument: in `imageEnv`, after
`SetTransferFunction2D(0, 7)` the call `GetTransferFunction2D(0)` returns the
image 7 (the round trip of a valid image), and after a following
`SetTransferFunction2D(0, nullptr)` it still returns the image 7, not null. -/
theorem SetTransferFunction2D_null_keeps_function :
    GetTransferFunction2D lookupSet 0 = some (some 7) ∧
    (SetTransferFunction2D lookupSet 0 none).bind
      (fun w => GetTransferFunction2D w 0) = some (some 7) := by
  refine ⟨by decide, by decide⟩

/-! ## The default-creating getters -/

theorem insertNode_two (x y : ℚ) (a b : List ℚ) (h : x < y) :
    insertNode (insertNode [] (x, a)) (y, b) = [(x, a), (y, b)] := by
  simp [insertNode, not_lt.mpr h.le, h.ne']

theorem DefaultCreating_of (get : World → Int → Option (Option Ptr × World))
    (field : World → Fin 4 → Option Ptr) (set : World → Int → Option Ptr → Option World)
    (dflt : List Node) (w : World) (index : Int) (i : Fin 4)
    (hstored : ∀ w f, field w i = some f → get w index = some (some f, w))
    (hempty : field w i = none → ∃ q w', get w index = some (q, w') ∧ q = some w.next ∧
      field w' i = some w.next ∧ w'.next = w.next + 1 ∧ w'.nodes w.next = dflt)
    (hset : ∀ f, ∃ w1, set w index (some f) = some w1 ∧ field w1 i = some f) :
    DefaultCreating get field set dflt w index i := by
  constructor
  · by_cases h : field w i = none
    · obtain ⟨q, w', h1, hq, h2, h3, h4⟩ := hempty h
      subst hq
      refine ⟨w.next, w', h1, h2, hstored w' _ h2, ?_, fun _ => ⟨rfl, h3, h4⟩⟩
      intro f hf
      rw [h] at hf
      exact absurd hf (by simp)
    · obtain ⟨f, hf⟩ := Option.ne_none_iff_exists'.mp h
      refine ⟨f, w, hstored w f hf, hf, hstored w f hf, ?_, fun hn => absurd hn h⟩
      intro g hg
      rw [hf] at hg
      exact ⟨Option.some.inj hg, rfl⟩
  · intro f
    obtain ⟨w1, h1, h2⟩ := hset f
    exact ⟨w1, h1, hstored w1 f h2⟩

theorem GetGrayTransferFunction_default (w : World) (index : Int) (i : Fin 4)
    (hs : slot index = some i) :
    DefaultCreating GetGrayTransferFunction (fun w => w.self.GrayTransferFunction)
      SetColor_vtkPiecewiseFunction [(0, [0]), (1024, [1])] w index i := by
  apply DefaultCreating_of
  · intro w f hf
    simp [GetGrayTransferFunction, hs, hf]
  · intro h
    simp only [GetGrayTransferFunction, hs, if_pos h]
    refine ⟨_, _, rfl, ?_, ?_, ?_, ?_⟩
    · split_ifs <;> simp [New, AddPoint]
    · split_ifs <;> simp [New, AddPoint]
    · split_ifs <;> simp [New, AddPoint]
    · split_ifs <;> simp [New, AddPoint, insertNode_two]
  · intro f
    simp only [SetColor_vtkPiecewiseFunction, hs]
    split_ifs <;> refine ⟨_, rfl, ?_⟩ <;> simp_all

theorem GetRGBTransferFunction_default (w : World) (index : Int) (i : Fin 4)
    (hs : slot index = some i) :
    DefaultCreating GetRGBTransferFunction (fun w => w.self.RGBTransferFunction)
      SetColor_vtkColorTransferFunction [(0, [0, 0, 0]), (1024, [1, 1, 1])] w index i := by
  apply DefaultCreating_of
  · intro w f hf
    simp [GetRGBTransferFunction, hs, hf]
  · intro h
    simp only [GetRGBTransferFunction, hs, if_pos h]
    refine ⟨_, _, rfl, ?_, ?_, ?_, ?_⟩
    · split_ifs <;> simp [New, AddPoint]
    · split_ifs <;> simp [New, AddPoint]
    · split_ifs <;> simp [New, AddPoint]
    · split_ifs <;> simp [New, AddPoint, insertNode_two]
  · intro f
    simp only [SetColor_vtkColorTransferFunction, hs]
    split_ifs <;> refine ⟨_, rfl, ?_⟩ <;> simp_all

theorem GetScalarOpacity_default (w : World) (index : Int) (i : Fin 4)
    (hs : slot index = some i) :
    DefaultCreating GetScalarOpacity (fun w => w.self.ScalarOpacity)
      SetScalarOpacity [(0, [1]), (1024, [1])] w index i := by
  apply DefaultCreating_of
  · intro w f hf
    simp [GetScalarOpacity, hs, hf]
  · intro h
    simp only [GetScalarOpacity, hs, if_pos h]
    refine ⟨_, _, rfl, ?_, ?_, ?_, ?_⟩
    · simp [New, AddPoint]
    · simp [New, AddPoint]
    · simp [New, AddPoint]
    · simp [New, AddPoint, insertNode_two]
  · intro f
    simp only [SetScalarOpacity, hs]
    refine ⟨_, rfl, ?_⟩
    split_ifs <;> simp_all

theorem GetStoredGradientOpacity_default (w : World) (index : Int) (i : Fin 4)
    (hs : slot index = some i) :
    DefaultCreating GetStoredGradientOpacity (fun w => w.self.GradientOpacity)
      SetGradientOpacity [(0, [1]), (255, [1])] w index i := by
  apply DefaultCreating_of
  · intro w f hf
    simp [GetStoredGradientOpacity, hs, hf]
  · intro h
    simp only [GetStoredGradientOpacity, hs, if_pos h]
    refine ⟨_, _, rfl, ?_, ?_, ?_, ?_⟩
    · simp [New, AddPoint]
    · simp [New, AddPoint]
    · simp [New, AddPoint]
    · simp [New, AddPoint, insertNode_two]
  · intro f
    simp only [SetGradientOpacity, hs]
    refine ⟨_, rfl, ?_⟩
    split_ifs <;> simp_all

/-- C10: for every valid index (slot `i`) and every state, each of
`GetGrayTransferFunction`, `GetRGBTransferFunction`, `GetScalarOpacity` and
`GetStoredGradientOpacity` returns a non-null function and leaves it stored in
its slot; a function the slot already held, in particular the non-null function
the matching setter has just stored, is returned with nothing created; on an
empty slot the function returned is a newly created one with the two default
nodes (gray (0,0),(1024,1); RGB (0,black),(1024,white); scalar opacity
(0,1),(1024,1); gradient opacity (0,1),(255,1)); and a second call returns the
same object and changes nothing. -/
theorem default_creating_getters (w : World) (index : Int) (i : Fin 4)
    (hs : slot index = some i) :
    DefaultCreating GetGrayTransferFunction (fun w => w.self.GrayTransferFunction)
      SetColor_vtkPiecewiseFunction [(0, [0]), (1024, [1])] w index i ∧
    DefaultCreating GetRGBTransferFunction (fun w => w.self.RGBTransferFunction)
      SetColor_vtkColorTransferFunction [(0, [0, 0, 0]), (1024, [1, 1, 1])] w index i ∧
    DefaultCreating GetScalarOpacity (fun w => w.self.ScalarOpacity)
      SetScalarOpacity [(0, [1]), (1024, [1])] w index i ∧
    DefaultCreating GetStoredGradientOpacity (fun w => w.self.GradientOpacity)
      SetGradientOpacity [(0, [1]), (255, [1])] w index i :=
  ⟨GetGrayTransferFunction_default w index i hs, GetRGBTransferFunction_default w index i hs,
    GetScalarOpacity_default w index i hs, GetStoredGradientOpacity_default w index i hs⟩

/-- C10 on a fresh property at index 2: the gray getter creates the object 1
there (the object 0 is the contour-values object of the constructor). -/
theorem default_creating_getters_witness :
    slot 2 = some 2 ∧
    (GetGrayTransferFunction (construct emptyEnv) 2).map Prod.fst = some (some 1) ∧
    (DefaultCreating GetGrayTransferFunction (fun w => w.self.GrayTransferFunction)
      SetColor_vtkPiecewiseFunction [(0, [0]), (1024, [1])] (construct emptyEnv) 2 2 ∧
    DefaultCreating GetRGBTransferFunction (fun w => w.self.RGBTransferFunction)
      SetColor_vtkColorTransferFunction [(0, [0, 0, 0]), (1024, [1, 1, 1])]
        (construct emptyEnv) 2 2 ∧
    DefaultCreating GetScalarOpacity (fun w => w.self.ScalarOpacity)
      SetScalarOpacity [(0, [1]), (1024, [1])] (construct emptyEnv) 2 2 ∧
    DefaultCreating GetStoredGradientOpacity (fun w => w.self.GradientOpacity)
      SetGradientOpacity [(0, [1]), (255, [1])] (construct emptyEnv) 2 2) :=
  ⟨by decide, by decide, default_creating_getters (construct emptyEnv) 2 2 (by decide)⟩

/-! ## The border widget -/

open vtkBorderRepresentation in
theorem SetCursor_eq (self : vtkBorderWidget) (rep : vtkBorderRepresentation)
    (cState : Int) (hr : self.WidgetRep = some rep) :
    SetCursor self cState =
      some (RequestCursorShape self (cursorShape self.Resizable rep.Moving cState)) := by
  simp only [SetCursor, cursorShape, cursorTable, hr]
  by_cases h0 : self.Resizable = 0 ∧ cState ≠ Inside
  · simp only [if_pos h0]
  simp only [if_neg h0]
  by_cases h1 : cState = AdjustingP0
  · subst h1; simp [List.lookup, AdjustingP0, Inside]
  by_cases h2 : cState = AdjustingP1
  · subst h2; simp [List.lookup, AdjustingP0, AdjustingP1, Inside]
  by_cases h3 : cState = AdjustingP2
  · subst h3; simp [List.lookup, AdjustingP0, AdjustingP1, AdjustingP2, Inside]
  by_cases h4 : cState = AdjustingP3
  · subst h4; simp [List.lookup, AdjustingP0, AdjustingP1, AdjustingP2, AdjustingP3, Inside]
  by_cases h5 : cState = AdjustingE0
  · subst h5
    simp [List.lookup, AdjustingP0, AdjustingP1, AdjustingP2, AdjustingP3, AdjustingE0, Inside]
  by_cases h6 : cState = AdjustingE2
  · subst h6
    simp [List.lookup, AdjustingP0, AdjustingP1, AdjustingP2, AdjustingP3, AdjustingE0,
      AdjustingE2, Inside]
  by_cases h7 : cState = AdjustingE1
  · subst h7
    simp [List.lookup, AdjustingP0, AdjustingP1, AdjustingP2, AdjustingP3, AdjustingE0,
      AdjustingE1, AdjustingE2, Inside]
  by_cases h8 : cState = AdjustingE3
  · subst h8
    simp [List.lookup, AdjustingP0, AdjustingP1, AdjustingP2, AdjustingP3, AdjustingE0,
      AdjustingE1, AdjustingE2, AdjustingE3, Inside]
  have hl : List.lookup cState
      [(AdjustingP0, VTK_CURSOR_SIZESW), (AdjustingP1, VTK_CURSOR_SIZESE),
        (AdjustingP2, VTK_CURSOR_SIZENE), (AdjustingP3, VTK_CURSOR_SIZENW),
        (AdjustingE0, VTK_CURSOR_SIZENS), (AdjustingE2, VTK_CURSOR_SIZENS),
        (AdjustingE1, VTK_CURSOR_SIZEWE), (AdjustingE3, VTK_CURSOR_SIZEWE)] = none := by
    simp only [List.lookup, beq_eq_false_iff_ne.mpr h1, beq_eq_false_iff_ne.mpr h2,
      beq_eq_false_iff_ne.mpr h3, beq_eq_false_iff_ne.mpr h4, beq_eq_false_iff_ne.mpr h5,
      beq_eq_false_iff_ne.mpr h6, beq_eq_false_iff_ne.mpr h7, beq_eq_false_iff_ne.mpr h8]
  rw [hl]
  simp only [h1, h2, h3, h4, h5, h6, h7, h8, if_false, or_self, Option.getD_none]
  by_cases h9 : cState = Inside
  · simp only [if_pos h9]
    split_ifs <;> rfl
  · simp only [if_neg h9]

theorem SetCursor_frame (self self' : vtkBorderWidget) (cState : Int)
    (h : SetCursor self cState = some self') :
    ∃ shape, self' = RequestCursorShape self shape := by
  rcases hr : self.WidgetRep with _ | rep
  · simp only [SetCursor, hr] at h
    split_ifs at h <;> exact ⟨_, (Option.some.inj h).symm⟩
  · rw [SetCursor_eq _ rep _ hr] at h
    exact ⟨_, (Option.some.inj h).symm⟩

open vtkBorderRepresentation in
theorem SelectAction_eq (self : vtkBorderWidget) (rep : vtkBorderRepresentation)
    (ev : EventInfo) (hr : self.WidgetRep = some rep) :
    SelectAction self ev =
      if ev.Subclass ≠ 0 ∨ rep.InteractionState = Outside then some self
      else some { self with
        WidgetState := vtkBorderWidget.Selected
        Focus := true
        AbortFlag := 1
        calls := self.calls ++
          ([Call.GrabFocus,
            Call.RequestCursorShape
              (cursorShape self.Resizable rep.Moving rep.InteractionState),
            Call.StartWidgetInteraction ev.XF ev.YF] ++
          (if self.Selectable ≠ 0 ∧ rep.InteractionState = Inside then
            [Call.InvokeEvent vtkCommand.WidgetActivateEvent] else []) ++
          [Call.SetAbortFlag 1, Call.StartInteraction,
            Call.InvokeEvent vtkCommand.StartInteractionEvent]) } := by
  simp only [SelectAction, hr]
  by_cases h1 : ev.Subclass ≠ 0
  · simp only [if_pos h1, if_pos (Or.inl h1)]
  simp only [if_neg h1]
  by_cases h2 : rep.InteractionState = Outside
  · simp only [if_pos h2, if_pos (Or.inr h2)]
  have h3 : ¬(ev.Subclass ≠ 0 ∨ rep.InteractionState = Outside) := fun h => h.elim h1 h2
  simp only [if_neg h2, if_neg h3]
  rw [SetCursor_eq _ rep _ (by simp [GrabFocus, hr])]
  simp only [Option.map_some', Option.some.injEq, GrabFocus, RequestCursorShape, SelectRegion,
    SetAbortFlag, InvokeEvent, vtkBorderWidget.call, hr]
  split_ifs <;> simp

open vtkBorderRepresentation in
theorem TranslateAction_eq (self : vtkBorderWidget) (rep : vtkBorderRepresentation)
    (ev : EventInfo) (hr : self.WidgetRep = some rep) :
    TranslateAction self ev =
      if ev.Subclass ≠ 0 ∨ rep.InteractionState = Outside then some self
      else some { self with
        WidgetState := vtkBorderWidget.Selected
        WidgetRep := some { rep with Moving := 1 }
        Focus := true
        AbortFlag := 1
        calls := self.calls ++
          [Call.GrabFocus,
            Call.RequestCursorShape (cursorShape self.Resizable 1 rep.InteractionState),
            Call.StartWidgetInteraction ev.XF ev.YF,
            Call.SetAbortFlag 1, Call.StartInteraction,
            Call.InvokeEvent vtkCommand.StartInteractionEvent] } := by
  simp only [TranslateAction, hr]
  by_cases h1 : ev.Subclass ≠ 0
  · simp only [if_pos h1, if_pos (Or.inl h1)]
  simp only [if_neg h1]
  by_cases h2 : rep.InteractionState = Outside
  · simp only [if_pos h2, if_pos (Or.inr h2)]
  have h3 : ¬(ev.Subclass ≠ 0 ∨ rep.InteractionState = Outside) := fun h => h.elim h1 h2
  simp only [if_neg h2, if_neg h3]
  rw [SetCursor_eq _ { rep with Moving := 1 } _ (by simp [vtkBorderWidget.setRep])]
  simp [GrabFocus, RequestCursorShape, SetAbortFlag, InvokeEvent, vtkBorderWidget.call,
    vtkBorderWidget.setRep]

open vtkBorderRepresentation in
theorem MoveAction_Start_eq (self : vtkBorderWidget) (rep : vtkBorderRepresentation)
    (ev : EventInfo) (hr : self.WidgetRep = some rep) (hs : ev.Subclass = 0)
    (hw : self.WidgetState = vtkBorderWidget.Start) :
    MoveAction self ev =
      some { self with
        WidgetRep := some { rep with
          InteractionState := ev.hit
          Moving := if self.Selectable = 0 ∧ ev.hit = Inside then 1 else 0 }
        calls := self.calls ++
          ([Call.ComputeInteractionState ev.X ev.Y,
            Call.RequestCursorShape (cursorShape self.Resizable rep.Moving ev.hit)] ++
          (if (rep.ShowVerticalBorder = BORDER_ACTIVE ∨
                rep.ShowHorizontalBorder = BORDER_ACTIVE) ∧
              rep.InteractionState ≠ ev.hit ∧
              (rep.InteractionState = Outside ∨ ev.hit = Outside) then [Call.Render]
            else [])) } := by
  simp only [MoveAction, hr, hs, hw, ne_eq, not_true_eq_false, if_false, if_true]
  rw [SetCursor_eq _ { rep with InteractionState := ev.hit } _
    (by simp [vtkBorderWidget.setRep])]
  simp only [Option.map_some', Option.some.injEq, RequestCursorShape, Render,
    vtkBorderWidget.call, vtkBorderWidget.setRep]
  split_ifs <;> simp_all

open vtkBorderRepresentation in
theorem MoveAction_Selected_eq (self : vtkBorderWidget) (rep : vtkBorderRepresentation)
    (ev : EventInfo) (hr : self.WidgetRep = some rep) (hs : ev.Subclass = 0)
    (hw : self.WidgetState ≠ vtkBorderWidget.Start) :
    MoveAction self ev =
      if self.Resizable = 0 ∧ rep.InteractionState ≠ Inside then some self
      else some { self with
        AbortFlag := 1
        calls := self.calls ++
          [Call.WidgetInteraction ev.X ev.Y, Call.SetAbortFlag 1,
            Call.InvokeEvent vtkCommand.InteractionEvent, Call.Render] } := by
  simp only [MoveAction, hr, hs, hw, ne_eq, not_true_eq_false, if_false]
  split_ifs <;> simp [SetAbortFlag, InvokeEvent, Render, vtkBorderWidget.call, hr]

open vtkBorderRepresentation in
theorem EndSelectAction_eq (self : vtkBorderWidget) (rep : vtkBorderRepresentation)
    (ev : EventInfo) (hr : self.WidgetRep = some rep) :
    EndSelectAction self ev =
      if ev.Subclass ≠ 0 ∨ rep.InteractionState = Outside ∨
          self.WidgetState ≠ vtkBorderWidget.Selected then some self
      else some { self with
        WidgetState := vtkBorderWidget.Start
        WidgetRep := some { rep with Moving := 0 }
        Focus := false
        AbortFlag := 1
        calls := self.calls ++
          [Call.ReleaseFocus, Call.SetAbortFlag 1, Call.EndInteraction,
            Call.InvokeEvent vtkCommand.EndInteractionEvent] } := by
  simp only [EndSelectAction, hr]
  by_cases h1 : ev.Subclass ≠ 0
  · simp only [if_pos h1, if_pos (Or.inl h1)]
  simp only [if_neg h1]
  by_cases h2 : rep.InteractionState = Outside ∨ self.WidgetState ≠ vtkBorderWidget.Selected
  · simp only [if_pos h2, if_pos (Or.inr h2)]
  have h3 : ¬(ev.Subclass ≠ 0 ∨ rep.InteractionState = Outside ∨
      self.WidgetState ≠ vtkBorderWidget.Selected) := fun h => h.elim h1 h2
  simp only [if_neg h2, if_neg h3]
  simp [ReleaseFocus, SetAbortFlag, InvokeEvent, vtkBorderWidget.call, vtkBorderWidget.setRep]

theorem HoverLeaveAction_WidgetState (self self' : vtkBorderWidget)
    (h : HoverLeaveAction self = some self') : self'.WidgetState = self.WidgetState := by
  simp only [HoverLeaveAction, Option.map_eq_some'] at h
  obtain ⟨s, hs, rfl⟩ := h
  obtain ⟨shape, rfl⟩ := SetCursor_frame _ _ _ hs
  simp only [Render, RequestCursorShape, vtkBorderWidget.call, vtkBorderWidget.setRep]
  split <;> (try split) <;> rfl

theorem widgetStep_WidgetState (self self' : vtkBorderWidget) (op : WidgetOp)
    (hi : self.WidgetState = vtkBorderWidget.Start ∨
      self.WidgetState = vtkBorderWidget.Selected)
    (h : widgetStep self op = some self') :
    self'.WidgetState = vtkBorderWidget.Start ∨
      self'.WidgetState = vtkBorderWidget.Selected := by
  cases op
  case HoverLeaveAction =>
    rw [HoverLeaveAction_WidgetState self self' h]
    exact hi
  case CreateDefaultRepresentation fresh =>
    simp only [widgetStep, CreateDefaultRepresentation, Option.some.injEq] at h
    subst h
    split_ifs <;> exact hi
  case SetRepresentation r =>
    simp only [widgetStep, Option.some.injEq] at h
    subst h
    exact hi
  case SetSelectable v =>
    simp only [widgetStep, Option.some.injEq] at h
    subst h
    exact hi
  case SetResizable v =>
    simp only [widgetStep, Option.some.injEq] at h
    subst h
    exact hi
  case SelectAction ev =>
    simp only [widgetStep] at h
    rcases hr : self.WidgetRep with _ | rep
    · simp only [SelectAction, hr] at h
      split_ifs at h
      · cases h
        exact hi
    · rw [SelectAction_eq self rep ev hr] at h
      split_ifs at h <;> cases h <;> first | exact hi | exact Or.inr rfl
  case TranslateAction ev =>
    simp only [widgetStep] at h
    rcases hr : self.WidgetRep with _ | rep
    · simp only [TranslateAction, hr] at h
      split_ifs at h
      · cases h
        exact hi
    · rw [TranslateAction_eq self rep ev hr] at h
      split_ifs at h <;> cases h
      · exact hi
      · exact Or.inr rfl
  case EndSelectAction ev =>
    simp only [widgetStep] at h
    rcases hr : self.WidgetRep with _ | rep
    · simp only [EndSelectAction, hr] at h
      split_ifs at h
      · cases h
        exact hi
    · rw [EndSelectAction_eq self rep ev hr] at h
      split_ifs at h <;> cases h
      · exact hi
      · exact Or.inl rfl
  case MoveAction ev =>
    simp only [widgetStep] at h
    by_cases hs : ev.Subclass = 0
    · rcases hr : self.WidgetRep with _ | rep
      · simp only [MoveAction, hr, hs, ne_eq, not_true_eq_false, if_false] at h
        split_ifs at h
      · by_cases hw : self.WidgetState = vtkBorderWidget.Start
        · rw [MoveAction_Start_eq self rep ev hr hs hw] at h
          cases h
          exact hi
        · rw [MoveAction_Selected_eq self rep ev hr hs hw] at h
          split_ifs at h <;> cases h <;> exact hi
    · simp only [MoveAction, if_pos hs] at h
      cases h
      exact hi

theorem WidgetState_of_reachable (self : vtkBorderWidget) (h : WidgetReachable self) :
    self.WidgetState = vtkBorderWidget.Start ∨
      self.WidgetState = vtkBorderWidget.Selected := by
  induction h with
  | init => exact Or.inl rfl
  | call op _ hs ih => exact widgetStep_WidgetState _ _ op ih hs

theorem callsSince_append (self self' : vtkBorderWidget) (l : List Call)
    (h : self'.calls = self.calls ++ l) : callsSince self self' = l := by
  simp [callsSince, h]

theorem callsSince_self (self : vtkBorderWidget) : callsSince self self = [] := by
  simp [callsSince]

/-- C11: the constructor leaves the widget in state `Start`, and in every state
reached from construction by the five callbacks (with any hook result, event
position and hit-test result) and by the application setting the representation
or the flags, `WidgetState` is `Start` or `Selected`. -/
theorem WidgetState_Start_or_Selected (self : vtkBorderWidget) (h : WidgetReachable self) :
    vtkBorderWidget.construct.WidgetState = vtkBorderWidget.Start ∧
    (self.WidgetState = vtkBorderWidget.Start ∨
      self.WidgetState = vtkBorderWidget.Selected) :=
  ⟨rfl, WidgetState_of_reachable self h⟩

/-- C11 at the widget `selectedWidget`, reached by setting a representation and
pressing the left button inside it: its state is `Selected`. -/
theorem WidgetState_Start_or_Selected_witness :
    WidgetReachable selectedWidget ∧
    selectedWidget.WidgetState = vtkBorderWidget.Selected ∧
    (selectedWidget.WidgetState = vtkBorderWidget.Start ∨
      selectedWidget.WidgetState = vtkBorderWidget.Selected) :=
  have hr : WidgetReachable selectedWidget :=
    WidgetReachable.call (WidgetOp.SelectAction cornerEvent)
      (WidgetReachable.call (WidgetOp.SetRepresentation insideWidget.WidgetRep)
        WidgetReachable.init
        (show widgetStep vtkBorderWidget.construct
          (WidgetOp.SetRepresentation insideWidget.WidgetRep) = some insideWidget from rfl))
      rfl
  ⟨hr, by decide, (WidgetState_Start_or_Selected selectedWidget hr).2⟩

open vtkBorderRepresentation in
/-- C12: for a widget with a representation, `SelectAction` (registered for the
left button press) and `TranslateAction` (middle button press) act exactly when
the subclass hook returns 0 and the interaction state of the representation is
not `Outside`: then the widget is `Selected`, has grabbed the focus, has set the
abort flag and has emitted `StartInteractionEvent`; `TranslateAction` has turned
the `Moving` flag on and `SelectAction` has left the representation as it was.
In every other case both return with the widget unchanged, so no flag is
touched and no event is emitted. -/
theorem press_decided_by_hit_test (self : vtkBorderWidget) (rep : vtkBorderRepresentation)
    (ev : EventInfo) (hr : self.WidgetRep = some rep) :
    (CallbackMapper.lookup vtkCommand.LeftButtonPressEvent).map Prod.snd =
      some Callback.SelectAction ∧
    (CallbackMapper.lookup vtkCommand.MiddleButtonPressEvent).map Prod.snd =
      some Callback.TranslateAction ∧
    (ev.Subclass = 0 ∧ rep.InteractionState ≠ Outside →
      ∃ s t, SelectAction self ev = some s ∧ TranslateAction self ev = some t ∧
        s.WidgetState = vtkBorderWidget.Selected ∧ s.Focus = true ∧ s.AbortFlag = 1 ∧
        Call.GrabFocus ∈ callsSince self s ∧ Call.SetAbortFlag 1 ∈ callsSince self s ∧
        Call.InvokeEvent vtkCommand.StartInteractionEvent ∈ callsSince self s ∧
        s.WidgetRep = some rep ∧
        t.WidgetState = vtkBorderWidget.Selected ∧ t.Focus = true ∧ t.AbortFlag = 1 ∧
        Call.GrabFocus ∈ callsSince self t ∧ Call.SetAbortFlag 1 ∈ callsSince self t ∧
        Call.InvokeEvent vtkCommand.StartInteractionEvent ∈ callsSince self t ∧
        t.WidgetRep = some { rep with Moving := 1 }) ∧
    (¬(ev.Subclass = 0 ∧ rep.InteractionState ≠ Outside) →
      SelectAction self ev = some self ∧ TranslateAction self ev = some self) := by
  refine ⟨rfl, rfl, ?_, ?_⟩
  · rintro ⟨h1, h2⟩
    have hc : ¬(ev.Subclass ≠ 0 ∨ rep.InteractionState = Outside) :=
      fun h => h.elim (fun h => h h1) h2
    rw [SelectAction_eq self rep ev hr, TranslateAction_eq self rep ev hr, if_neg hc, if_neg hc]
    refine ⟨_, _, rfl, rfl, rfl, rfl, rfl, ?_, ?_, ?_, hr, rfl, rfl, rfl, ?_, ?_, ?_, rfl⟩
    · rw [callsSince_append _ _ _ rfl]; simp
    · rw [callsSince_append _ _ _ rfl]; simp
    · rw [callsSince_append _ _ _ rfl]; simp
    · rw [callsSince_append _ _ _ rfl]; simp
    · rw [callsSince_append _ _ _ rfl]; simp
    · rw [callsSince_append _ _ _ rfl]; simp
  · intro hn
    have hc : ev.Subclass ≠ 0 ∨ rep.InteractionState = Outside := by
      by_cases h1 : ev.Subclass = 0
      · exact Or.inr (not_not.mp fun h2 => hn ⟨h1, h2⟩)
      · exact Or.inl h1
    rw [SelectAction_eq self rep ev hr, TranslateAction_eq self rep ev hr, if_pos hc, if_pos hc]
    exact ⟨rfl, rfl⟩

/-- C12 at the widget `insideWidget` and the event `cornerEvent`: the left press
selects the widget and leaves `Moving` off, the middle press turns it on. -/
theorem press_decided_by_hit_test_witness :
    ∃ s t, SelectAction insideWidget cornerEvent = some s ∧
      TranslateAction insideWidget cornerEvent = some t ∧
      s.WidgetState = vtkBorderWidget.Selected ∧ s.WidgetRep = insideWidget.WidgetRep ∧
      t.WidgetRep.map (fun r => r.Moving) = some 1 :=
  match (press_decided_by_hit_test insideWidget _ cornerEvent rfl).2.2.1 (by decide) with
  | ⟨s, t, h1, h2, h3, _, _, _, _, _, h4, _, _, _, _, _, _, h5⟩ =>
    ⟨s, t, h1, h2, h3, h4, by rw [h5]; rfl⟩

open vtkBorderRepresentation in
/-- C13: for a widget with a representation, `EndSelectAction` (registered for
the release of the left and of the middle button) acts exactly when the
subclass hook returns 0, the interaction state is not `Outside` and the widget is
`Selected`: then the widget is back in `Start`, has released the focus, has
turned `Moving` off, has set the abort flag and has emitted
`EndInteractionEvent`.  In every other case it returns with the widget
unchanged; so a release while the widget is `Selected` and the interaction
state is `Outside` leaves it `Selected` with the focus it had. -/
theorem release_returns_to_Start (self : vtkBorderWidget) (rep : vtkBorderRepresentation)
    (ev : EventInfo) (hr : self.WidgetRep = some rep) :
    (CallbackMapper.lookup vtkCommand.LeftButtonReleaseEvent).map Prod.snd =
      some Callback.EndSelectAction ∧
    (CallbackMapper.lookup vtkCommand.MiddleButtonReleaseEvent).map Prod.snd =
      some Callback.EndSelectAction ∧
    (ev.Subclass = 0 ∧ rep.InteractionState ≠ Outside ∧
        self.WidgetState = vtkBorderWidget.Selected →
      ∃ s, EndSelectAction self ev = some s ∧
        s.WidgetState = vtkBorderWidget.Start ∧ s.Focus = false ∧ s.AbortFlag = 1 ∧
        s.WidgetRep = some { rep with Moving := 0 } ∧
        Call.ReleaseFocus ∈ callsSince self s ∧ Call.SetAbortFlag 1 ∈ callsSince self s ∧
        Call.InvokeEvent vtkCommand.EndInteractionEvent ∈ callsSince self s) ∧
    (¬(ev.Subclass = 0 ∧ rep.InteractionState ≠ Outside ∧
        self.WidgetState = vtkBorderWidget.Selected) →
      EndSelectAction self ev = some self) ∧
    (self.WidgetState = vtkBorderWidget.Selected → rep.InteractionState = Outside →
      ∃ s, EndSelectAction self ev = some s ∧
        s.WidgetState = vtkBorderWidget.Selected ∧ s.Focus = self.Focus) := by
  have hneg : ¬(ev.Subclass = 0 ∧ rep.InteractionState ≠ Outside ∧
      self.WidgetState = vtkBorderWidget.Selected) → EndSelectAction self ev = some self := by
    intro hn
    have hc : ev.Subclass ≠ 0 ∨ rep.InteractionState = Outside ∨
        self.WidgetState ≠ vtkBorderWidget.Selected := by
      by_cases h1 : ev.Subclass = 0
      · by_cases h2 : rep.InteractionState = Outside
        · exact Or.inr (Or.inl h2)
        · exact Or.inr (Or.inr fun h3 => hn ⟨h1, h2, h3⟩)
      · exact Or.inl h1
    rw [EndSelectAction_eq self rep ev hr, if_pos hc]
  refine ⟨rfl, rfl, ?_, hneg, ?_⟩
  · rintro ⟨h1, h2, h3⟩
    have hc : ¬(ev.Subclass ≠ 0 ∨ rep.InteractionState = Outside ∨
        self.WidgetState ≠ vtkBorderWidget.Selected) :=
      fun h => h.elim (fun h => h h1) (fun h => h.elim h2 (fun h => h h3))
    rw [EndSelectAction_eq self rep ev hr, if_neg hc]
    refine ⟨_, rfl, rfl, rfl, rfl, rfl, ?_, ?_, ?_⟩
    · rw [callsSince_append _ _ _ rfl]; simp
    · rw [callsSince_append _ _ _ rfl]; simp
    · rw [callsSince_append _ _ _ rfl]; simp
  · intro hw ho
    exact ⟨self, hneg fun h => h.2.1 ho, hw, rfl⟩

/-- C13 at the widget `selectedWidget`: a release inside returns it to `Start`
without the focus. -/
theorem release_returns_to_Start_witness :
    selectedWidget.WidgetState = vtkBorderWidget.Selected ∧
    ∃ s, EndSelectAction selectedWidget cornerEvent = some s ∧
      s.WidgetState = vtkBorderWidget.Start ∧ s.Focus = false :=
  ⟨by decide,
    match (release_returns_to_Start selectedWidget _ cornerEvent rfl).2.2.1 (by decide) with
    | ⟨s, h1, h2, h3, _⟩ => ⟨s, h1, h2, h3⟩⟩

/-- C14: for a widget with a representation `SetCursor` always returns, having
requested exactly one cursor shape, the shape `cursorShape` gives for the
`Resizable` flag, the `Moving` flag of the representation and the state passed;
of the widget it changes nothing but the record of that request, in particular
not `WidgetState`. -/
theorem SetCursor_requests_one_shape (self : vtkBorderWidget)
    (rep : vtkBorderRepresentation) (cState : Int) (hr : self.WidgetRep = some rep) :
    ∃ s, SetCursor self cState = some s ∧
      callsSince self s =
        [Call.RequestCursorShape (cursorShape self.Resizable rep.Moving cState)] ∧
      s.WidgetState = self.WidgetState ∧
      s = { self with calls := self.calls ++
        [Call.RequestCursorShape (cursorShape self.Resizable rep.Moving cState)] } := by
  rw [SetCursor_eq self rep cState hr]
  exact ⟨_, rfl, callsSince_append _ _ _ rfl, rfl, rfl⟩

/-- C14 at the widget `insideWidget`: the hand inside, the south-west arrow at
the corner `AdjustingP0`, the default cursor outside. -/
theorem SetCursor_requests_one_shape_witness :
    (∃ s, SetCursor insideWidget vtkBorderRepresentation.Inside = some s ∧
      callsSince insideWidget s = [Call.RequestCursorShape VTK_CURSOR_HAND]) ∧
    (SetCursor insideWidget vtkBorderRepresentation.AdjustingP0).map
      (fun s => callsSince insideWidget s) = some [Call.RequestCursorShape VTK_CURSOR_SIZESW] ∧
    (SetCursor insideWidget vtkBorderRepresentation.Outside).map
      (fun s => callsSince insideWidget s) = some [Call.RequestCursorShape VTK_CURSOR_DEFAULT] :=
  ⟨match SetCursor_requests_one_shape insideWidget _ vtkBorderRepresentation.Inside rfl with
    | ⟨s, h1, h2, _⟩ => ⟨s, h1, h2.trans (by decide)⟩,
   by decide, by decide⟩

open vtkBorderRepresentation in
/-- C15: `MoveAction` on a `Selected` widget with a representation, the subclass
hook returning 0.  When `Resizable` is off and the interaction state is not
`Inside` it returns with the widget unchanged: no call at all.  Otherwise it
calls `WidgetInteraction` with the event position, sets the abort flag, emits
`InteractionEvent` and renders, in this order and nothing else.  The widget
stays `Selected` in both cases. -/
theorem MoveAction_while_Selected (self : vtkBorderWidget) (rep : vtkBorderRepresentation)
    (ev : EventInfo) (hr : self.WidgetRep = some rep) (hs : ev.Subclass = 0)
    (hw : self.WidgetState = vtkBorderWidget.Selected) :
    (self.Resizable = 0 ∧ rep.InteractionState ≠ Inside → MoveAction self ev = some self) ∧
    (¬(self.Resizable = 0 ∧ rep.InteractionState ≠ Inside) →
      ∃ s, MoveAction self ev = some s ∧
        callsSince self s =
          [Call.WidgetInteraction ev.X ev.Y, Call.SetAbortFlag 1,
            Call.InvokeEvent vtkCommand.InteractionEvent, Call.Render] ∧
        s.AbortFlag = 1 ∧ s.WidgetRep = self.WidgetRep ∧ s.Focus = self.Focus) ∧
    (∀ s, MoveAction self ev = some s → s.WidgetState = vtkBorderWidget.Selected) := by
  have hne : self.WidgetState ≠ vtkBorderWidget.Start := by
    rw [hw]
    decide
  rw [MoveAction_Selected_eq self rep ev hr hs hne]
  refine ⟨fun h => if_pos h, fun h => ?_, fun s h => ?_⟩
  · rw [if_neg h]
    exact ⟨_, rfl, callsSince_append _ _ _ rfl, rfl, rfl, rfl⟩
  · split_ifs at h <;> cases h <;> exact hw

/-- C15 at the widget `selectedWidget`: resizable, it is dragged; with
`Resizable` off and the interaction state at a corner it is left alone. -/
theorem MoveAction_while_Selected_witness :
    (∃ s, MoveAction selectedWidget cornerEvent = some s ∧
      callsSince selectedWidget s =
        [Call.WidgetInteraction 10 20, Call.SetAbortFlag 1,
          Call.InvokeEvent vtkCommand.InteractionEvent, Call.Render]) ∧
    (MoveAction selectedWidget cornerEvent).map (fun s => s.WidgetState) =
      some vtkBorderWidget.Selected :=
  ⟨match (MoveAction_while_Selected selectedWidget _ cornerEvent rfl rfl rfl).2.1
      (by decide) with
    | ⟨s, h1, h2, _⟩ => ⟨s, h1, h2⟩,
   by decide⟩

open vtkBorderRepresentation in
/-- C16: `MoveAction` on a widget in state `Start` with a representation, the
subclass hook returning 0.  It runs the hit test at the event position, which
leaves the interaction state at `ev.hit`, and requests the cursor of that state;
the widget stays in `Start` with its focus and abort flag as they were; it
calls neither `WidgetInteraction` nor `SetAbortFlag` and emits no event; the
`Moving` flag ends on when `Selectable` is off and the new state is `Inside`, and
off otherwise; and it renders exactly when a border is `BORDER_ACTIVE` and the
interaction state changed to or from `Outside`. -/
theorem MoveAction_while_Start (self : vtkBorderWidget) (rep : vtkBorderRepresentation)
    (ev : EventInfo) (hr : self.WidgetRep = some rep) (hs : ev.Subclass = 0)
    (hw : self.WidgetState = vtkBorderWidget.Start) :
    ∃ s rep', MoveAction self ev = some s ∧ s.WidgetRep = some rep' ∧
      rep'.InteractionState = ev.hit ∧
      rep'.Moving = (if self.Selectable = 0 ∧ ev.hit = Inside then 1 else 0) ∧
      s.WidgetState = vtkBorderWidget.Start ∧ s.Focus = self.Focus ∧
      s.AbortFlag = self.AbortFlag ∧
      callsSince self s =
        [Call.ComputeInteractionState ev.X ev.Y,
          Call.RequestCursorShape (cursorShape self.Resizable rep.Moving ev.hit)] ++
        (if (rep.ShowVerticalBorder = BORDER_ACTIVE ∨
              rep.ShowHorizontalBorder = BORDER_ACTIVE) ∧
            rep.InteractionState ≠ ev.hit ∧
            (rep.InteractionState = Outside ∨ ev.hit = Outside) then [Call.Render]
          else []) ∧
      (∀ x y, Call.WidgetInteraction x y ∉ callsSince self s) ∧
      (∀ e, Call.InvokeEvent e ∉ callsSince self s) ∧
      (∀ f, Call.SetAbortFlag f ∉ callsSince self s) ∧
      (Call.Render ∈ callsSince self s ↔
        (rep.ShowVerticalBorder = BORDER_ACTIVE ∨
          rep.ShowHorizontalBorder = BORDER_ACTIVE) ∧
        rep.InteractionState ≠ ev.hit ∧
        (rep.InteractionState = Outside ∨ ev.hit = Outside)) := by
  rw [MoveAction_Start_eq self rep ev hr hs hw]
  refine ⟨_, _, rfl, rfl, rfl, rfl, hw, rfl, rfl, callsSince_append _ _ _ rfl, ?_, ?_, ?_, ?_⟩
  · intro x y
    rw [callsSince_append _ _ _ rfl]
    split_ifs <;> simp
  · intro e
    rw [callsSince_append _ _ _ rfl]
    split_ifs <;> simp
  · intro f
    rw [callsSince_append _ _ _ rfl]
    split_ifs <;> simp
  · rw [callsSince_append _ _ _ rfl]
    split_ifs with h <;> simp [h]

/-- C16 at the widget `insideWidget`, whose borders are not `BORDER_ACTIVE`: a
move to the corner `AdjustingP0` changes the cursor and nothing is rendered. -/
theorem MoveAction_while_Start_witness :
    ∃ s rep', MoveAction insideWidget cornerEvent = some s ∧ s.WidgetRep = some rep' ∧
      rep'.InteractionState = vtkBorderRepresentation.AdjustingP0 ∧ rep'.Moving = 0 ∧
      s.WidgetState = vtkBorderWidget.Start ∧
      callsSince insideWidget s =
        [Call.ComputeInteractionState 10 20, Call.RequestCursorShape VTK_CURSOR_SIZESW] :=
  match MoveAction_while_Start insideWidget _ cornerEvent rfl rfl rfl with
  | ⟨s, rep', h1, h2, h3, h4, h5, _, _, h6, _⟩ =>
    ⟨s, rep', h1, h2, h3, h4.trans (by decide), h5, h6.trans (by decide)⟩

/-! ## Color channels -/

theorem GetColorChannels_of_slot (w : World) (index : Int) (i : Fin 4)
    (hs : slot index = some i) : GetColorChannels w index = w.self.ColorChannels i := by
  unfold slot at hs
  split_ifs at hs with h
  simp only [Option.some.injEq] at hs
  subst hs
  have hn : ¬(index < 0 ∨ index > 3) := by omega
  simp only [GetColorChannels, dif_neg hn]

theorem SetColor_vtkPiecewiseFunction_channels (w : World) (index : Int) (i : Fin 4)
    (f : Option Ptr) (hs : slot index = some i) :
    ∃ w', SetColor_vtkPiecewiseFunction w index f = some w' ∧
      w'.self.ColorChannels i = 1 ∧
      ∀ j, j ≠ i → w'.self.ColorChannels j = w.self.ColorChannels j ∧
        w'.self.GrayTransferFunction j = w.self.GrayTransferFunction j ∧
        w'.self.RGBTransferFunction j = w.self.RGBTransferFunction j := by
  simp only [SetColor_vtkPiecewiseFunction, hs]
  split_ifs <;> refine ⟨_, rfl, ?_, ?_⟩ <;> simp_all [Function.update_apply]

theorem SetColor_vtkColorTransferFunction_channels (w : World) (index : Int) (i : Fin 4)
    (f : Option Ptr) (hs : slot index = some i) :
    ∃ w', SetColor_vtkColorTransferFunction w index f = some w' ∧
      w'.self.ColorChannels i = 3 ∧
      ∀ j, j ≠ i → w'.self.ColorChannels j = w.self.ColorChannels j ∧
        w'.self.GrayTransferFunction j = w.self.GrayTransferFunction j ∧
        w'.self.RGBTransferFunction j = w.self.RGBTransferFunction j := by
  simp only [SetColor_vtkColorTransferFunction, hs]
  split_ifs <;> refine ⟨_, rfl, ?_, ?_⟩ <;> simp_all [Function.update_apply]

/-- C17: for a valid index (slot `i`) and any function pointer `f`, null or the
one already stored included, `SetColor(index, f)` with a gray function returns
and leaves `GetColorChannels(index)` at 1, and with an RGB function leaves it at
3; the color channels, the gray function and the RGB function of every other
component are as before. -/
theorem SetColor_sets_ColorChannels (w : World) (index : Int) (i : Fin 4) (f : Option Ptr)
    (hs : slot index = some i) :
    (∃ w', SetColor_vtkPiecewiseFunction w index f = some w' ∧
      GetColorChannels w' index = 1 ∧
      ∀ j, j ≠ i → w'.self.ColorChannels j = w.self.ColorChannels j ∧
        w'.self.GrayTransferFunction j = w.self.GrayTransferFunction j ∧
        w'.self.RGBTransferFunction j = w.self.RGBTransferFunction j) ∧
    (∃ w', SetColor_vtkColorTransferFunction w index f = some w' ∧
      GetColorChannels w' index = 3 ∧
      ∀ j, j ≠ i → w'.self.ColorChannels j = w.self.ColorChannels j ∧
        w'.self.GrayTransferFunction j = w.self.GrayTransferFunction j ∧
        w'.self.RGBTransferFunction j = w.self.RGBTransferFunction j) := by
  obtain ⟨w1, h1, h2, h3⟩ := SetColor_vtkPiecewiseFunction_channels w index i f hs
  obtain ⟨w3, h4, h5, h6⟩ := SetColor_vtkColorTransferFunction_channels w index i f hs
  exact ⟨⟨w1, h1, (GetColorChannels_of_slot w1 index i hs).trans h2, h3⟩,
    ⟨w3, h4, (GetColorChannels_of_slot w3 index i hs).trans h5, h6⟩⟩

/-- C17 on a fresh property: `SetColor(2, nullptr)` with an RGB function makes
the color channels of component 2 three and leaves those of component 1 at 1. -/
theorem SetColor_sets_ColorChannels_witness :
    slot 2 = some 2 ∧
    (∃ w', SetColor_vtkColorTransferFunction (construct emptyEnv) 2 none = some w' ∧
      GetColorChannels w' 2 = 3 ∧ w'.self.ColorChannels 1 = 1) :=
  ⟨by decide,
    match (SetColor_sets_ColorChannels (construct emptyEnv) 2 2 none (by decide)).2 with
    | ⟨w', h1, h2, h3⟩ => ⟨w', h1, h2, ((h3 1 (by decide)).1).trans (by decide)⟩⟩

/-! ## The gradient-opacity switch -/

theorem CreateDefaultGradientOpacity_spec (w : World) (index : Int) (i : Fin 4)
    (hs : slot index = some i) :
    ∃ d w', CreateDefaultGradientOpacity w index = some w' ∧
      w'.self.DefaultGradientOpacity i = some d ∧
      w'.nodes d = [(0, [1]), (255, [1])] ∧
      w'.self.GradientOpacity = w.self.GradientOpacity ∧
      w'.self.DisableGradientOpacity = w.self.DisableGradientOpacity ∧
      (∀ d0, w.self.DefaultGradientOpacity i = some d0 → d = d0) := by
  simp only [CreateDefaultGradientOpacity, hs]
  rcases h : w.self.DefaultGradientOpacity i with _ | d0
  · refine ⟨w.next, _, rfl, ?_, ?_, ?_, ?_, ?_⟩ <;>
      simp [New, AddPoint, RemoveAllPoints, insertNode_two]
  · refine ⟨d0, _, rfl, ?_, ?_, ?_, ?_, ?_⟩ <;>
      simp [AddPoint, RemoveAllPoints, insertNode_two, h]

theorem GetGradientOpacity_fst_disabled (w : World) (index : Int) (i : Fin 4)
    (hs : slot index = some i) (hf : w.self.DisableGradientOpacity i ≠ 0) :
    (GetGradientOpacity w index).map Prod.fst =
      some (some ((w.self.DefaultGradientOpacity i).getD w.next)) := by
  simp only [GetGradientOpacity, hs, if_pos hf]
  rcases h : w.self.DefaultGradientOpacity i with _ | d0
  · simp [CreateDefaultGradientOpacity, hs, h, New, AddPoint, RemoveAllPoints]
  · simp

/-- C18 as stated fails: in the state `aliasedGradient`, reached by
`SetDisableGradientOpacity(0, 1)` and `SetGradientOpacity(0, f)` with `f` the
default function, the flag of component 0 is non-zero and `GetGradientOpacity(0)`
returns the object 1, which is the function the user stored in
`GradientOpacity[0]`. -/
theorem GetGradientOpacity_returns_user_object :
    Reachable (fun _ => True) emptyEnv aliasedGradient ∧
    (GetGradientOpacity ((step (construct emptyEnv)
      (Op.SetDisableGradientOpacity 0 1)).getD (construct emptyEnv)) 0).map Prod.fst =
        some (some 1) ∧
    aliasedGradient.self.DisableGradientOpacity 0 ≠ 0 ∧
    aliasedGradient.self.GradientOpacity 0 = some 1 ∧
    (GetGradientOpacity aliasedGradient 0).map Prod.fst =
      some (aliasedGradient.self.GradientOpacity 0) :=
  ⟨Reachable.call (Op.SetGradientOpacity 0 (some 1))
      (Reachable.call (Op.SetDisableGradientOpacity 0 1) Reachable.init trivial rfl)
      trivial rfl,
    by decide, by decide, by decide, by decide⟩

/-- C18, amended: for a valid index (slot `i`).  When `DisableGradientOpacity[i]`
is non-zero `GetGradientOpacity` returns the function of the slot
`DefaultGradientOpacity[i]`: the object stored there, returned with the state
unchanged, or when the slot is empty a newly created object, which it stores
there.  It does not touch the slot `GradientOpacity[i]` of the user, and the
object it returns is the same whatever that slot stores.  After
`SetDisableGradientOpacity(index, v)` with `v` non-zero and different from the
flag, the flag is `v` and the default function, the one `GetGradientOpacity`
returns then, has exactly the nodes (0, 1) and (255, 1).  When the flag is 0
`GetGradientOpacity` is `GetStoredGradientOpacity`.  And
`SetDisableGradientOpacity` with the value of the flag changes nothing. -/
theorem DisableGradientOpacity_selects (w : World) (index : Int) (i : Fin 4)
    (hs : slot index = some i) :
    (w.self.DisableGradientOpacity i ≠ 0 →
      ∃ d w', GetGradientOpacity w index = some (some d, w') ∧
        d = (w.self.DefaultGradientOpacity i).getD w.next ∧
        w'.self.DefaultGradientOpacity i = some d ∧
        w'.self.GradientOpacity i = w.self.GradientOpacity i ∧
        (∀ g, (GetGradientOpacity (w.setGradientOpacity i g) index).map Prod.fst =
          some (some d)) ∧
        (∀ d0, w.self.DefaultGradientOpacity i = some d0 → d = d0 ∧ w' = w)) ∧
    (∀ v, v ≠ 0 → v ≠ w.self.DisableGradientOpacity i →
      ∃ d w', SetDisableGradientOpacity w index v = some w' ∧
        w'.self.DisableGradientOpacity i = v ∧
        w'.self.DefaultGradientOpacity i = some d ∧
        w'.nodes d = [(0, [1]), (255, [1])] ∧
        GetGradientOpacity w' index = some (some d, w')) ∧
    (w.self.DisableGradientOpacity i = 0 →
      GetGradientOpacity w index = GetStoredGradientOpacity w index) ∧
    SetDisableGradientOpacity w index (w.self.DisableGradientOpacity i) = some w := by
  refine ⟨?_, ?_, ?_, ?_⟩
  · intro hf
    have hfst := GetGradientOpacity_fst_disabled w index i hs hf
    have hind : ∀ g, (GetGradientOpacity (w.setGradientOpacity i g) index).map Prod.fst =
        some (some ((w.self.DefaultGradientOpacity i).getD w.next)) := by
      intro g
      have := GetGradientOpacity_fst_disabled (w.setGradientOpacity i g) index i hs
        (by simpa using hf)
      simpa using this
    rcases h : w.self.DefaultGradientOpacity i with _ | d0
    · obtain ⟨d, w', h1, h2, _, h4, _, _⟩ := CreateDefaultGradientOpacity_spec w index i hs
      have hd : d = w.next := by
        simp only [GetGradientOpacity, hs, if_pos hf, h, if_true, h1, Option.map_some', h2,
          Option.getD_none, Option.some.injEq] at hfst
        exact hfst
      subst hd
      refine ⟨w.next, w', ?_, ?_, h2, by rw [h4], ?_, ?_⟩
      · simp only [GetGradientOpacity, hs, if_pos hf, h, if_true, h1, Option.map_some', h2]
      · simp
      · intro g
        rw [hind g, h]
        rfl
      · intro d0 hd0
        exact absurd hd0 (by simp)
    · refine ⟨d0, w, ?_, by simp, h, rfl, ?_, ?_⟩
      · simp [GetGradientOpacity, hs, hf, h]
      · intro g
        rw [hind g, h]
        rfl
      · intro d1 hd1
        exact ⟨(Option.some.inj hd1), rfl⟩
  · intro v hv hne
    have hne' : ¬ w.self.DisableGradientOpacity i = v := fun h => hne h.symm
    simp only [SetDisableGradientOpacity, hs, if_neg hne', if_pos hv]
    obtain ⟨d, w', h1, h2, h3, _, h5, _⟩ :=
      CreateDefaultGradientOpacity_spec (w.setDisableGradientOpacity i v) index i hs
    rw [h1]
    refine ⟨d, _, rfl, ?_, ?_, ?_, ?_⟩
    · simp [h5]
    · simp [h2]
    · simp [h3]
    · have hf : (Modified (w'.stampGradientOpacityMTime i)).self.DisableGradientOpacity i ≠ 0 := by
        simp [h5, hv]
      have hd : ¬ (Modified (w'.stampGradientOpacityMTime i)).self.DefaultGradientOpacity i = none := by
        simp [h2]
      simp only [GetGradientOpacity, hs, if_pos hf, if_neg hd]
      simp [h2]
  · intro h0
    have : ¬ w.self.DisableGradientOpacity i ≠ 0 := fun h => h h0
    simp only [GetGradientOpacity, hs, if_neg this]
  · simp only [SetDisableGradientOpacity, hs, if_true]

/-- C18, amended, on a fresh property at index 1, where
`SetDisableGradientOpacity(1, 1)` creates the object 1 as default function with
the nodes (0, 1) and (255, 1), and at `aliasedGradient`, where the object
returned for component 0 is the object 1 whatever the user slot stores. -/
theorem DisableGradientOpacity_selects_witness :
    slot 1 = some 1 ∧
    (SetDisableGradientOpacity (construct emptyEnv) 1 1).map
      (fun w => (w.self.DefaultGradientOpacity 1, w.nodes 1)) =
        some (some 1, [(0, [1]), (255, [1])]) ∧
    (∃ d w', SetDisableGradientOpacity (construct emptyEnv) 1 1 = some w' ∧
      w'.self.DefaultGradientOpacity 1 = some d ∧
      GetGradientOpacity w' 1 = some (some d, w')) ∧
    aliasedGradient.self.DisableGradientOpacity 0 ≠ 0 ∧
    (∃ d w', GetGradientOpacity aliasedGradient 0 = some (some d, w') ∧ d = 1 ∧
      ∀ g, (GetGradientOpacity (aliasedGradient.setGradientOpacity 0 g) 0).map Prod.fst =
        some (some d)) :=
  ⟨by decide, by decide,
    match (DisableGradientOpacity_selects (construct emptyEnv) 1 1 (by decide)).2.1 1
      (by decide) (by decide) with
    | ⟨d, w', h1, _, h2, _, h3⟩ => ⟨d, w', h1, h2, h3⟩,
    by decide,
    match (DisableGradientOpacity_selects aliasedGradient 0 0 (by decide)).1 (by decide) with
    | ⟨d, w', h1, h2, _, _, h3, _⟩ => ⟨d, w', h1, h2.trans (by decide), h3⟩⟩

/-! ## The reserved label -/

theorem ZeroFree_step (w w' : World) (op : Op) (hi : ZeroFree w)
    (h : step w op = some w') : ZeroFree w' := by
  unfold ZeroFree at hi ⊢
  cases op
  case SetLabelColor l f =>
    simp only [step, Option.some.injEq] at h
    subst h
    by_cases hl : l = 0
    · simp only [SetLabelColor, if_pos hl]
      exact hi
    · obtain ⟨e1, e2, e3, _⟩ := SetLabelColor_labels w l f hl
      rw [e1, e2, e3, if_neg (Ne.symm hl)]
      exact hi
  case SetLabelScalarOpacity l f =>
    simp only [step, Option.some.injEq] at h
    subst h
    by_cases hl : l = 0
    · simp only [SetLabelScalarOpacity, if_pos hl]
      exact hi
    · obtain ⟨e1, e2, e3, _⟩ := SetLabelScalarOpacity_labels w l f hl
      rw [e1, e2, e3, if_neg (Ne.symm hl)]
      exact hi
  case SetLabelGradientOpacity l f =>
    simp only [step, Option.some.injEq] at h
    subst h
    by_cases hl : l = 0
    · simp only [SetLabelGradientOpacity, if_pos hl]
      exact hi
    · obtain ⟨e1, e2, e3, _⟩ := SetLabelGradientOpacity_labels w l f hl
      rw [e1, e2, e3, if_neg (Ne.symm hl)]
      exact hi
  case GetLabelMapLabels =>
    simp only [step, Option.some.injEq] at h
    subst h
    obtain ⟨e1, e2, e3, _⟩ := GetLabelMapLabels_snd w
    rw [e1, e2, e3]
    exact hi
  all_goals
    have hv := step_labelView w w' _ (by rfl) h
    simp only [labelView, Prod.mk.injEq] at hv
    rw [hv.1, hv.2.1, hv.2.2.1]
    exact hi

theorem ZeroFree_construct (e : Env) : ZeroFree (construct e) := by
  simp [ZeroFree, construct, LabelMap.get]

theorem ZeroFree_of_reachable (allowed : Op → Prop) (e : Env) (w : World)
    (hr : Reachable allowed e w) : ZeroFree w := by
  induction hr with
  | init => exact ZeroFree_construct e
  | call op _ _ hs ih => exact ZeroFree_step _ _ op ih hs

/-- C19: label 0 is reserved.  In any state the three label setters called with
label 0 return the state they were given, whatever the function; and in every
state a constructed property reaches by any calls, `GetLabelColor(0)`,
`GetLabelScalarOpacity(0)` and `GetLabelGradientOpacity(0)` are null and 0 is
not among the labels `GetLabelMapLabels()` returns. -/
theorem label_zero_reserved (allowed : Op → Prop) (e : Env) (w : World)
    (hr : Reachable allowed e w) :
    (∀ (v : World) (f : Option Ptr), SetLabelColor v 0 f = v ∧
      SetLabelScalarOpacity v 0 f = v ∧ SetLabelGradientOpacity v 0 f = v) ∧
    GetLabelColor w 0 = none ∧ GetLabelScalarOpacity w 0 = none ∧
    GetLabelGradientOpacity w 0 = none ∧ (0 : Int) ∉ (GetLabelMapLabels w).1 := by
  obtain ⟨h1, h2, h3⟩ := ZeroFree_of_reachable allowed e w hr
  refine ⟨fun v f => ⟨by simp [SetLabelColor], by simp [SetLabelScalarOpacity],
    by simp [SetLabelGradientOpacity]⟩, ?_, ?_, ?_, ?_⟩
  · rw [GetLabelColor_eq, h1]
  · rw [GetLabelScalarOpacity_eq, h2]
  · rw [GetLabelGradientOpacity_eq, h3]
  · intro hm
    have ha := ((GetLabelMapLabels_fst_mem w 0).mp hm).2
    rw [activeLabel_iff, h1, h2, h3] at ha
    simp at ha

/-- C19 on a fresh property after `SetLabelColor(0, 7)` and `SetLabelColor(5, 7)`:
label 5 is reported, label 0 is not. -/
theorem label_zero_reserved_witness :
    Reachable (fun _ => True) emptyEnv labelledZero ∧
    GetLabelColor labelledZero 0 = none ∧ GetLabelColor labelledZero 5 = some 7 ∧
    (GetLabelMapLabels labelledZero).1 = [5] ∧
    (0 : Int) ∉ (GetLabelMapLabels labelledZero).1 :=
  have hr : Reachable (fun _ => True) emptyEnv labelledZero :=
    Reachable.call (Op.SetLabelColor 5 (some 7))
      (Reachable.call (Op.SetLabelColor 0 (some 7)) Reachable.init trivial rfl) trivial rfl
  ⟨hr, by decide, by decide, by decide,
    (label_zero_reserved (fun _ => True) emptyEnv labelledZero hr).2.2.2.2⟩

/-! ## Copying the scalars of another property -/

theorem slot_natCast (i : Fin 4) : slot ((i : Nat) : Int) = some i := by
  unfold slot
  have h : 0 ≤ ((i : Nat) : Int) ∧ ((i : Nat) : Int) < 4 := by omega
  rw [dif_pos h]
  simp

theorem slot_bounds (index : Int) (i : Fin 4) (hs : slot index = some i) :
    ∃ h : 0 ≤ index ∧ index < 4, i = ⟨index.toNat, by omega⟩ := by
  unfold slot at hs
  split_ifs at hs with h
  simp only [Option.some.injEq] at hs
  exact ⟨h, hs.symm⟩

theorem SetComponentWeight_scalars (w : World) (index : Int) (i : Fin 4) (v : ℚ)
    (hs : slot index = some i) :
    scalars (SetComponentWeight w index v).self =
      { scalars w.self with
        ComponentWeight := Function.update w.self.ComponentWeight i
          (if v < 0 then 0 else if v > 1 then 1 else v) } := by
  obtain ⟨h, rfl⟩ := slot_bounds index i hs
  have hn : ¬(index < 0 ∨ index ≥ VTK_MAX_VRCOMP) := by
    unfold VTK_MAX_VRCOMP
    omega
  simp only [SetComponentWeight, dif_neg hn]
  split_ifs <;> simp_all [scalars]

theorem GetComponentWeight_of_slot (w : World) (index : Int) (i : Fin 4)
    (hs : slot index = some i) : GetComponentWeight w index = w.self.ComponentWeight i := by
  obtain ⟨h, rfl⟩ := slot_bounds index i hs
  have hn : ¬(index < 0 ∨ index ≥ VTK_MAX_VRCOMP) := by
    unfold VTK_MAX_VRCOMP
    omega
  simp only [GetComponentWeight, dif_neg hn]

theorem SetScalarOpacityUnitDistance_scalars (w : World) (index : Int) (i : Fin 4) (v : ℚ)
    (hs : slot index = some i) :
    scalars (SetScalarOpacityUnitDistance w index v).self =
      { scalars w.self with
        ScalarOpacityUnitDistance := Function.update w.self.ScalarOpacityUnitDistance i v } := by
  obtain ⟨h, rfl⟩ := slot_bounds index i hs
  have hn : ¬(index < 0 ∨ index > 3) := by omega
  simp only [SetScalarOpacityUnitDistance, dif_neg hn]
  split_ifs <;> simp_all [scalars]

theorem GetScalarOpacityUnitDistance_of_slot (w : World) (index : Int) (i : Fin 4)
    (hs : slot index = some i) :
    GetScalarOpacityUnitDistance w index = w.self.ScalarOpacityUnitDistance i := by
  obtain ⟨h, rfl⟩ := slot_bounds index i hs
  have hn : ¬(index < 0 ∨ index > 3) := by omega
  simp only [GetScalarOpacityUnitDistance, dif_neg hn]

theorem GetRGBTransferFunction_scalars (w : World) (index : Int) (i : Fin 4)
    (hs : slot index = some i) :
    ∃ r, GetRGBTransferFunction w index = some r ∧
      (∃ f, r.1 = some f ∧ r.2.self.RGBTransferFunction i = some f) ∧
      scalars r.2.self = { scalars w.self with
        ColorChannels := if w.self.RGBTransferFunction i = none then
          Function.update w.self.ColorChannels i 3 else w.self.ColorChannels } := by
  by_cases h : w.self.RGBTransferFunction i = none
  · simp only [GetRGBTransferFunction, hs, if_pos h]
    refine ⟨_, rfl, ⟨w.next, ?_, ?_⟩, ?_⟩
    · split_ifs <;> simp [New, AddPoint]
    · split_ifs <;> simp [New, AddPoint]
    · split_ifs with hc
      · simp [New, AddPoint, scalars]
      · simp only [New, AddPoint, scalars] at hc ⊢
        simp only [ne_eq, not_not] at hc
        simp at hc
        simp [← hc]
  · simp only [GetRGBTransferFunction, hs, if_neg h]
    obtain ⟨f, hf⟩ := Option.ne_none_iff_exists'.mp h
    exact ⟨_, rfl, ⟨f, hf, hf⟩, by simp [scalars]⟩

theorem GetGrayTransferFunction_scalars (w : World) (index : Int) (i : Fin 4)
    (hs : slot index = some i) :
    ∃ r, GetGrayTransferFunction w index = some r ∧
      (∃ f, r.1 = some f ∧ r.2.self.GrayTransferFunction i = some f) ∧
      scalars r.2.self = { scalars w.self with
        ColorChannels := if w.self.GrayTransferFunction i = none then
          Function.update w.self.ColorChannels i 1 else w.self.ColorChannels } := by
  by_cases h : w.self.GrayTransferFunction i = none
  · simp only [GetGrayTransferFunction, hs, if_pos h]
    refine ⟨_, rfl, ⟨w.next, ?_, ?_⟩, ?_⟩
    · split_ifs <;> simp [New, AddPoint]
    · split_ifs <;> simp [New, AddPoint]
    · split_ifs with hc
      · simp [New, AddPoint, scalars]
      · simp only [New, AddPoint, scalars] at hc ⊢
        simp only [ne_eq, not_not] at hc
        simp at hc
        simp [← hc]
  · simp only [GetGrayTransferFunction, hs, if_neg h]
    obtain ⟨f, hf⟩ := Option.ne_none_iff_exists'.mp h
    exact ⟨_, rfl, ⟨f, hf, hf⟩, by simp [scalars]⟩

theorem SetColor_vtkColorTransferFunction_scalars (w : World) (index : Int) (i : Fin 4)
    (f : Option Ptr) (hs : slot index = some i) :
    ∃ w', SetColor_vtkColorTransferFunction w index f = some w' ∧
      w'.self.RGBTransferFunction i = f ∧
      scalars w'.self = { scalars w.self with
        ColorChannels := Function.update w.self.ColorChannels i 3 } := by
  simp only [SetColor_vtkColorTransferFunction, hs]
  split_ifs <;> refine ⟨_, rfl, ?_, ?_⟩ <;> simp_all [scalars]

theorem SetColor_vtkPiecewiseFunction_scalars (w : World) (index : Int) (i : Fin 4)
    (f : Option Ptr) (hs : slot index = some i) :
    ∃ w', SetColor_vtkPiecewiseFunction w index f = some w' ∧
      w'.self.GrayTransferFunction i = f ∧
      scalars w'.self = { scalars w.self with
        ColorChannels := Function.update w.self.ColorChannels i 1 } := by
  simp only [SetColor_vtkPiecewiseFunction, hs]
  split_ifs <;> refine ⟨_, rfl, ?_, ?_⟩ <;> simp_all [scalars]

theorem GetScalarOpacity_scalars (w : World) (index : Int) (i : Fin 4)
    (hs : slot index = some i) :
    ∃ r, GetScalarOpacity w index = some r ∧ (∃ f, r.1 = some f) ∧
      scalars r.2.self = scalars w.self := by
  by_cases h : w.self.ScalarOpacity i = none
  · simp only [GetScalarOpacity, hs, if_pos h]
    exact ⟨_, rfl, ⟨w.next, by simp [New, AddPoint]⟩, by simp [New, AddPoint, scalars]⟩
  · simp only [GetScalarOpacity, hs, if_neg h]
    obtain ⟨f, hf⟩ := Option.ne_none_iff_exists'.mp h
    exact ⟨_, rfl, ⟨f, hf⟩, rfl⟩

theorem GetStoredGradientOpacity_scalars (w : World) (index : Int) (i : Fin 4)
    (hs : slot index = some i) :
    ∃ r, GetStoredGradientOpacity w index = some r ∧ (∃ f, r.1 = some f) ∧
      scalars r.2.self = scalars w.self := by
  by_cases h : w.self.GradientOpacity i = none
  · simp only [GetStoredGradientOpacity, hs, if_pos h]
    exact ⟨_, rfl, ⟨w.next, by simp [New, AddPoint]⟩, by simp [New, AddPoint, scalars]⟩
  · simp only [GetStoredGradientOpacity, hs, if_neg h]
    obtain ⟨f, hf⟩ := Option.ne_none_iff_exists'.mp h
    exact ⟨_, rfl, ⟨f, hf⟩, rfl⟩

theorem CreateDefaultGradientOpacity_scalars (w : World) (index : Int) (i : Fin 4)
    (hs : slot index = some i) :
    ∃ d w', CreateDefaultGradientOpacity w index = some w' ∧
      w'.self.DefaultGradientOpacity i = some d ∧ scalars w'.self = scalars w.self := by
  simp only [CreateDefaultGradientOpacity, hs]
  rcases h : w.self.DefaultGradientOpacity i with _ | d0
  · refine ⟨w.next, _, rfl, ?_, ?_⟩ <;> simp [New, AddPoint, RemoveAllPoints, scalars]
  · refine ⟨d0, _, rfl, ?_, ?_⟩ <;> simp [AddPoint, RemoveAllPoints, scalars, h]

theorem GetGradientOpacity_scalars (w : World) (index : Int) (i : Fin 4)
    (hs : slot index = some i) :
    ∃ r, GetGradientOpacity w index = some r ∧ (∃ f, r.1 = some f) ∧
      scalars r.2.self = scalars w.self := by
  by_cases hf : w.self.DisableGradientOpacity i ≠ 0
  · simp only [GetGradientOpacity, hs, if_pos hf]
    by_cases h : w.self.DefaultGradientOpacity i = none
    · obtain ⟨d, w', h1, h2, h3⟩ := CreateDefaultGradientOpacity_scalars w index i hs
      simp only [if_pos h, h1, Option.map_some']
      exact ⟨_, rfl, ⟨d, h2⟩, h3⟩
    · simp only [if_neg h]
      obtain ⟨f, hf⟩ := Option.ne_none_iff_exists'.mp h
      exact ⟨_, rfl, ⟨f, hf⟩, rfl⟩
  · simp only [GetGradientOpacity, hs, if_neg hf]
    exact GetStoredGradientOpacity_scalars w index i hs

theorem SetDisableGradientOpacity_scalars (w : World) (index : Int) (i : Fin 4) (v : Int)
    (hs : slot index = some i) :
    ∃ w', SetDisableGradientOpacity w index v = some w' ∧
      scalars w'.self = { scalars w.self with
        DisableGradientOpacity := Function.update w.self.DisableGradientOpacity i v } := by
  simp only [SetDisableGradientOpacity, hs]
  by_cases h : w.self.DisableGradientOpacity i = v
  · rw [if_pos h]
    refine ⟨w, rfl, ?_⟩
    simp only [scalars]
    rw [← h, Function.update_eq_self]
  · rw [if_neg h]
    by_cases hv : v ≠ 0
    · rw [if_pos hv]
      obtain ⟨d, w', h1, _, h3⟩ :=
        CreateDefaultGradientOpacity_scalars (w.setDisableGradientOpacity i v) index i hs
      rw [h1]
      refine ⟨_, rfl, ?_⟩
      simp only [scalars] at h3 ⊢
      simp only [Scalars.mk.injEq] at h3 ⊢
      simpa using h3
    · rw [if_neg hv]
      refine ⟨_, rfl, ?_⟩
      simp [scalars]

theorem SetShade_scalars (w : World) (index : Int) (i : Fin 4) (v : Int)
    (hs : slot index = some i) (hv : v = 0 ∨ v = 1) :
    ∃ w', SetShade w index v = some w' ∧
      scalars w'.self = { scalars w.self with Shade := Function.update w.self.Shade i v } := by
  have hn : ¬(v ≠ 0 ∧ v ≠ 1) := by omega
  simp only [SetShade, if_neg hn, hs]
  split_ifs with h <;> refine ⟨_, rfl, ?_⟩ <;> simp_all [scalars]

theorem SetAmbient_scalars (w : World) (index : Int) (i : Fin 4) (v : ℚ)
    (hs : slot index = some i) :
    ∃ w', SetAmbient w index v = some w' ∧
      scalars w'.self = { scalars w.self with
        Ambient := Function.update w.self.Ambient i v } := by
  simp only [SetAmbient, hs]
  split_ifs with h <;> refine ⟨_, rfl, ?_⟩ <;> simp_all [scalars]

theorem SetDiffuse_scalars (w : World) (index : Int) (i : Fin 4) (v : ℚ)
    (hs : slot index = some i) :
    ∃ w', SetDiffuse w index v = some w' ∧
      scalars w'.self = { scalars w.self with
        Diffuse := Function.update w.self.Diffuse i v } := by
  simp only [SetDiffuse, hs]
  split_ifs with h <;> refine ⟨_, rfl, ?_⟩ <;> simp_all [scalars]

theorem SetSpecular_scalars (w : World) (index : Int) (i : Fin 4) (v : ℚ)
    (hs : slot index = some i) :
    ∃ w', SetSpecular w index v = some w' ∧
      scalars w'.self = { scalars w.self with
        Specular := Function.update w.self.Specular i v } := by
  simp only [SetSpecular, hs]
  split_ifs with h <;> refine ⟨_, rfl, ?_⟩ <;> simp_all [scalars]

theorem SetSpecularPower_scalars (w : World) (index : Int) (i : Fin 4) (v : ℚ)
    (hs : slot index = some i) :
    ∃ w', SetSpecularPower w index v = some w' ∧
      scalars w'.self = { scalars w.self with
        SpecularPower := Function.update w.self.SpecularPower i v } := by
  simp only [SetSpecularPower, hs]
  split_ifs with h <;> refine ⟨_, rfl, ?_⟩ <;> simp_all [scalars]

theorem copyFunction_self (w w' : World) (d : Ptr) (src : Option Ptr)
    (h : copyFunction w (some d) src = some w') : w'.self = w.self := by
  cases src <;> simp only [copyFunction, Option.some.injEq] at h <;> subst h <;> rfl

theorem copyFunction_isSome (w : World) (d : Ptr) (src : Option Ptr) :
    ∃ w', copyFunction w (some d) src = some w' := by
  cases src <;> exact ⟨_, rfl⟩

theorem DeepCopy_shading_scalars (w : World) (p : vtkVolumeProperty) (index : Int)
    (i : Fin 4) (hs : slot index = some i) (hv : p.Shade i = 0 ∨ p.Shade i = 1) :
    ∃ w', DeepCopy.shading w p index = some w' ∧
      scalars w'.self = { scalars w.self with
        Shade := Function.update w.self.Shade i (p.Shade i)
        Ambient := Function.update w.self.Ambient i (p.Ambient i)
        Diffuse := Function.update w.self.Diffuse i (p.Diffuse i)
        Specular := Function.update w.self.Specular i (p.Specular i)
        SpecularPower := Function.update w.self.SpecularPower i (p.SpecularPower i) } := by
  obtain ⟨w1, h1, e1⟩ := SetShade_scalars w index i (p.Shade i) hs hv
  obtain ⟨w2, h2, e2⟩ := SetAmbient_scalars w1 index i (p.Ambient i) hs
  obtain ⟨w3, h3, e3⟩ := SetDiffuse_scalars w2 index i (p.Diffuse i) hs
  obtain ⟨w4, h4, e4⟩ := SetSpecular_scalars w3 index i (p.Specular i) hs
  obtain ⟨w5, h5, e5⟩ := SetSpecularPower_scalars w4 index i (p.SpecularPower i) hs
  refine ⟨w5, ?_, ?_⟩
  · simp only [DeepCopy.shading, GetShade, GetAmbient, GetDiffuse, GetSpecular,
      GetSpecularPower, hs, World.withSelf_self, Option.some_bind, h1, h2, h3, h4, h5]
  · simp only [scalars, Scalars.mk.injEq] at e1 e2 e3 e4 e5 ⊢
    simp_all

theorem DeepCopy_scalarOpacity_scalars (w : World) (p : vtkVolumeProperty) (index : Int)
    (i : Fin 4) (hs : slot index = some i) :
    ∃ s, DeepCopy.scalarOpacity w p index = some s ∧
      scalars s.1.self = { scalars w.self with
        ScalarOpacityUnitDistance :=
          Function.update w.self.ScalarOpacityUnitDistance i (p.ScalarOpacityUnitDistance i) } ∧
      scalars s.2 = scalars p := by
  obtain ⟨r1, h1, ⟨f1, hf1⟩, e1⟩ := GetScalarOpacity_scalars w index i hs
  obtain ⟨r2, h2, _, e2⟩ := GetScalarOpacity_scalars (r1.2.withSelf p) index i hs
  obtain ⟨w3, h3⟩ := copyFunction_isSome (r2.2.withSelf r1.2.self) f1 r2.1
  have e3 := copyFunction_self _ _ _ _ h3
  simp only [DeepCopy.scalarOpacity, h1, Option.some_bind, onSource, h2, Option.map_some',
    hf1, h3]
  refine ⟨_, rfl, ?_, ?_⟩
  · rw [SetScalarOpacityUnitDistance_scalars _ _ i _ hs,
      GetScalarOpacityUnitDistance_of_slot _ _ i hs]
    simp only [scalars, Scalars.mk.injEq, World.withSelf_self] at e1 e2 e3 ⊢
    simp_all
  · simpa using e2

theorem DeepCopy_gradientOpacity_scalars (w : World) (p : vtkVolumeProperty) (index : Int)
    (i : Fin 4) (hs : slot index = some i) :
    ∃ s, DeepCopy.gradientOpacity w p index = some s ∧
      scalars s.1.self = { scalars w.self with
        DisableGradientOpacity :=
          Function.update w.self.DisableGradientOpacity i (p.DisableGradientOpacity i) } ∧
      scalars s.2 = scalars p := by
  obtain ⟨r1, h1, ⟨f1, hf1⟩, e1⟩ := GetGradientOpacity_scalars w index i hs
  obtain ⟨r2, h2, _, e2⟩ := GetGradientOpacity_scalars (r1.2.withSelf p) index i hs
  obtain ⟨w3, h3⟩ := copyFunction_isSome (r2.2.withSelf r1.2.self) f1 r2.1
  have e3 := copyFunction_self _ _ _ _ h3
  obtain ⟨w4, h4, e4⟩ :=
    SetDisableGradientOpacity_scalars w3 index i (r2.2.self.DisableGradientOpacity i) hs
  simp only [DeepCopy.gradientOpacity, h1, Option.some_bind, onSource, h2, Option.map_some',
    hf1, h3, GetDisableGradientOpacity, hs, World.withSelf_self, h4]
  refine ⟨_, rfl, ?_, ?_⟩
  · simp only [scalars, Scalars.mk.injEq, World.withSelf_self] at e1 e2 e3 e4 ⊢
    simp_all
  · simpa using e2

theorem DeepCopy_color_scalars (w : World) (p : vtkVolumeProperty) (index : Int)
    (i : Fin 4) (hs : slot index = some i)
    (hc : p.ColorChannels i = 1 ∨ p.ColorChannels i = 3)
    (h0 : 0 ≤ p.ComponentWeight i) (h1 : p.ComponentWeight i ≤ 1) :
    ∃ s, DeepCopy.color w p index = some s ∧
      scalars s.1.self = { scalars w.self with
        ColorChannels := Function.update w.self.ColorChannels i (p.ColorChannels i)
        ComponentWeight := Function.update w.self.ComponentWeight i (p.ComponentWeight i) } ∧
      scalars s.2 = scalars p := by
  have ew := SetComponentWeight_scalars w index i (p.ComponentWeight i) hs
  have hclamp : (if p.ComponentWeight i < 0 then 0
      else if p.ComponentWeight i > 1 then 1 else p.ComponentWeight i) = p.ComponentWeight i := by
    rw [if_neg (not_lt.mpr h0), if_neg (not_lt.mpr h1)]
  rw [hclamp] at ew
  simp only [DeepCopy.color, GetComponentWeight_of_slot _ _ i hs,
    GetColorChannels_of_slot _ _ i hs, World.withSelf_self]
  generalize SetComponentWeight w index (p.ComponentWeight i) = w1 at ew ⊢
  rcases hc with hc | hc
  · have hgt : ¬ p.ColorChannels i > 1 := by omega
    rw [if_neg hgt]
    obtain ⟨r2, h2, ⟨f2, hf2, hslot2⟩, e2⟩ := GetGrayTransferFunction_scalars w1 index i hs
    obtain ⟨w3, h3, hslot3, e3⟩ :=
      SetColor_vtkPiecewiseFunction_scalars r2.2 index i r2.1 hs
    obtain ⟨r4, h4, ⟨f4, hf4, _⟩, e4⟩ := GetGrayTransferFunction_scalars w3 index i hs
    obtain ⟨r5, h5, _, e5⟩ := GetGrayTransferFunction_scalars (r4.2.withSelf p) index i hs
    obtain ⟨w6, h6⟩ := copyFunction_isSome (r5.2.withSelf r4.2.self) f4 r5.1
    have e6 := copyFunction_self _ _ _ _ h6
    simp only [h2, Option.some_bind, h3, h4, onSource, h5, Option.map_some', hf4, h6]
    refine ⟨_, rfl, ?_, ?_⟩
    · rw [hslot3, hf2] at e4
      simp only [scalars, Scalars.mk.injEq, World.withSelf_self] at ew e2 e3 e4 e5 e6 ⊢
      simp_all
      split_ifs <;> simp
    · simp only [scalars, Scalars.mk.injEq, World.withSelf_self] at e5 ⊢
      simp_all
  · have hgt : p.ColorChannels i > 1 := by omega
    rw [if_pos hgt]
    obtain ⟨r2, h2, ⟨f2, hf2, hslot2⟩, e2⟩ := GetRGBTransferFunction_scalars w1 index i hs
    obtain ⟨w3, h3, hslot3, e3⟩ :=
      SetColor_vtkColorTransferFunction_scalars r2.2 index i r2.1 hs
    obtain ⟨r4, h4, ⟨f4, hf4, _⟩, e4⟩ := GetRGBTransferFunction_scalars w3 index i hs
    obtain ⟨r5, h5, _, e5⟩ := GetRGBTransferFunction_scalars (r4.2.withSelf p) index i hs
    obtain ⟨w6, h6⟩ := copyFunction_isSome (r5.2.withSelf r4.2.self) f4 r5.1
    have e6 := copyFunction_self _ _ _ _ h6
    simp only [h2, Option.some_bind, h3, h4, onSource, h5, Option.map_some', hf4, h6]
    refine ⟨_, rfl, ?_, ?_⟩
    · rw [hslot3, hf2] at e4
      simp only [scalars, Scalars.mk.injEq, World.withSelf_self] at ew e2 e3 e4 e5 e6 ⊢
      simp_all
      split_ifs <;> simp
    · simp only [scalars, Scalars.mk.injEq, World.withSelf_self] at e5 ⊢
      simp_all

theorem DeepCopy_body_scalars (w : World) (p : vtkVolumeProperty) (i : Fin 4)
    (hv : (scalars p).Valid) :
    ∃ s, DeepCopy.body w p i = some s ∧
      scalars s.1.self = (scalars w.self).copyAt (scalars p) i ∧
      scalars s.2 = scalars p := by
  have hs := slot_natCast i
  obtain ⟨hc, h0, h1, hsh⟩ := hv i
  obtain ⟨s1, e1, a1, b1⟩ := DeepCopy_color_scalars w p _ i hs hc h0 h1
  obtain ⟨s2, e2, a2, b2⟩ := DeepCopy_scalarOpacity_scalars s1.1 s1.2 _ i hs
  obtain ⟨s3, e3, a3, b3⟩ := DeepCopy_gradientOpacity_scalars s2.1 s2.2 _ i hs
  have hp3 : scalars s3.2 = scalars p := b3.trans (b2.trans b1)
  have hsh3 : s3.2.Shade i = 0 ∨ s3.2.Shade i = 1 := by
    have := congrArg (fun t => t.Shade i) hp3
    simp only [scalars] at this hsh
    rw [this]
    exact hsh
  obtain ⟨w4, e4, a4⟩ := DeepCopy_shading_scalars s3.1 s3.2 _ i hs hsh3
  simp only [DeepCopy.body, e1, e2, e3, e4, Option.some_bind, Option.map_some']
  refine ⟨_, rfl, ?_, hp3⟩
  have hp2 : scalars s2.2 = scalars p := b2.trans b1
  simp only [scalars, Scalars.mk.injEq, Scalars.copyAt] at a1 a2 a3 a4 b1 hp2 hp3 ⊢
  simp_all

theorem Scalars.copyAt_all (t s : Scalars) :
    (((t.copyAt s 0).copyAt s 1).copyAt s 2).copyAt s 3 = s := by
  have hu : ∀ (α : Type) (f g : Fin 4 → α),
      Function.update (Function.update (Function.update (Function.update f 0 (g 0)) 1 (g 1))
        2 (g 2)) 3 (g 3) = g := by
    intro α f g
    funext j
    fin_cases j <;> simp [Function.update]
  cases s
  simp only [Scalars.copyAt, hu]

theorem DeepCopy_loop_scalars (w : World) (p : vtkVolumeProperty) (hv : (scalars p).Valid) :
    ∃ s, (List.finRange 4).foldl
        (fun s i => s.bind fun s => DeepCopy.body s.1 s.2 i) (some (w, p)) = some s ∧
      scalars s.1.self = scalars p ∧ scalars s.2 = scalars p := by
  obtain ⟨s0, e0, a0, b0⟩ := DeepCopy_body_scalars w p 0 hv
  obtain ⟨s1, e1, a1, b1⟩ := DeepCopy_body_scalars s0.1 s0.2 1 (b0 ▸ hv)
  obtain ⟨s2, e2, a2, b2⟩ := DeepCopy_body_scalars s1.1 s1.2 2 (b1 ▸ b0 ▸ hv)
  obtain ⟨s3, e3, a3, b3⟩ := DeepCopy_body_scalars s2.1 s2.2 3 (b2 ▸ b1 ▸ b0 ▸ hv)
  refine ⟨s3, ?_, ?_, ?_⟩
  · rw [finRange_four]
    simp only [List.foldl, Option.some_bind, e0, e1, e2, e3]
  · rw [a3, a2, a1, a0, b2, b1, b0]
    exact Scalars.copyAt_all _ _
  · rw [b3, b2, b1, b0]

theorem SetComponentWeight_valid (w : World) (index : Int) (v : ℚ)
    (hv : (scalars w.self).Valid) : (scalars (SetComponentWeight w index v).self).Valid := by
  rcases hs : slot index with _ | i
  · have hn : index < 0 ∨ index ≥ VTK_MAX_VRCOMP := by
      unfold slot at hs
      unfold VTK_MAX_VRCOMP
      split_ifs at hs
      omega
    simp only [SetComponentWeight, dif_pos hn]
    exact hv
  · rw [SetComponentWeight_scalars w index i v hs]
    intro j
    obtain ⟨h1, h2, h3, h4⟩ := hv j
    refine ⟨h1, ?_, ?_, h4⟩
    · simp only [Function.update_apply]
      split_ifs <;> first | exact h2 | exact le_refl _ | exact zero_le_one | linarith
    · simp only [Function.update_apply]
      split_ifs <;> first | exact h3 | exact le_refl _ | exact zero_le_one | linarith

theorem SetShade_valid (w w' : World) (index : Int) (v : Int)
    (hv : (scalars w.self).Valid) (h : SetShade w index v = some w') :
    (scalars w'.self).Valid := by
  by_cases hn : v ≠ 0 ∧ v ≠ 1
  · simp only [SetShade, if_pos hn, Option.some.injEq] at h
    subst h
    exact hv
  · have hv01 : v = 0 ∨ v = 1 := by omega
    rcases hs : slot index with _ | i
    · simp [SetShade, hn, hs] at h
    · obtain ⟨w1, h1, e1⟩ := SetShade_scalars w index i v hs hv01
      rw [h1] at h
      cases h
      rw [e1]
      intro j
      obtain ⟨h1, h2, h3, h4⟩ := hv j
      refine ⟨h1, h2, h3, ?_⟩
      simp only [Function.update_apply]
      split_ifs
      · exact hv01
      · exact h4

set_option maxHeartbeats 8000000 in
theorem step_valid (w w' : World) (op : Op) (hv : (scalars w.self).Valid)
    (h : step w op = some w') : (scalars w'.self).Valid := by
  revert h
  cases op
  case SetComponentWeight index v =>
    simp only [step, Option.some.injEq]
    intro h
    subst h
    exact SetComponentWeight_valid w index v hv
  case SetShade index v =>
    simp only [step]
    exact SetShade_valid w w' index v hv
  all_goals
    simp only [step, SetColor_vtkPiecewiseFunction, GetGrayTransferFunction,
      SetColor_vtkColorTransferFunction, GetRGBTransferFunction, SetScalarOpacity,
      GetScalarOpacity, SetScalarOpacityUnitDistance, SetGradientOpacity, GetGradientOpacity,
      GetStoredGradientOpacity, SetTransferFunction2D, SetDisableGradientOpacity,
      SetAmbient, SetDiffuse, SetSpecular, SetSpecularPower,
      SetLabelColor, SetLabelScalarOpacity, SetLabelGradientOpacity,
      GetLabelMapLabels, CreateDefaultGradientOpacity, UpdateMTimes, finRange_four,
      List.foldl]
    repeat' split
    all_goals
      intro h
      first
        | (simp only [Option.map_some', Option.map_none', Option.some.injEq, reduceCtorEq] at h
           done)
        | (simp only [Option.map_some', Option.map_none', Option.some.injEq, reduceCtorEq] at h
           subst h
           first
             | (with_reducible exact hv)
             | (intro j
                have hj := hv j
                simp only [scalars] at hj ⊢
                simp [New, AddPoint, RemoveAllPoints, Function.update_apply]
                all_goals
                  (try split_ifs) <;> (try subst_vars) <;> (try simp_all)))

theorem DeepCopy_scalars (w : World) (p : vtkVolumeProperty) (hv : (scalars p).Valid) :
    ∃ w' p', DeepCopy w (some p) = some (w', some p') ∧
      scalars w'.self = scalars p ∧ scalars p' = scalars p := by
  simp only [DeepCopy, copyFunction, Option.some_bind]
  generalize SetClippedVoxelIntensity _ _ = w0
  obtain ⟨s, e, a, b⟩ := DeepCopy_loop_scalars w0 p hv
  rw [e]
  refine ⟨_, _, rfl, ?_, b⟩
  rw [← a]
  simp [scalars]

theorem perComponent_eq (w : World) (i : Fin 4) :
    perComponent w ((i : Nat) : Int) =
      ((scalars w.self).ColorChannels i, (scalars w.self).ComponentWeight i,
        (scalars w.self).ScalarOpacityUnitDistance i,
        some ((scalars w.self).DisableGradientOpacity i), some ((scalars w.self).Shade i),
        some ((scalars w.self).Ambient i), some ((scalars w.self).Diffuse i),
        some ((scalars w.self).Specular i), some ((scalars w.self).SpecularPower i)) := by
  have hs := slot_natCast i
  simp only [perComponent, GetColorChannels_of_slot _ _ i hs,
    GetComponentWeight_of_slot _ _ i hs, GetScalarOpacityUnitDistance_of_slot _ _ i hs,
    GetDisableGradientOpacity, GetShade, GetAmbient, GetDiffuse, GetSpecular,
    GetSpecularPower, hs, scalars]

theorem valid_construct (e : Env) : (scalars (construct e).self).Valid := by
  intro i
  simp [scalars, construct]

theorem sceneStep_valid (s s' : Scene) (op : SceneOp)
    (hv : (scalars s.w.self).Valid ∧ (scalars s.p).Valid)
    (h : sceneStep s op = some s') :
    (scalars s'.w.self).Valid ∧ (scalars s'.p).Valid := by
  cases op
  case onTarget op =>
    simp only [sceneStep, Option.map_eq_some'] at h
    obtain ⟨w', hw, rfl⟩ := h
    exact ⟨step_valid _ _ op hv.1 hw, hv.2⟩
  case onSource op =>
    simp only [sceneStep, Option.map_eq_some'] at h
    obtain ⟨v, hw, rfl⟩ := h
    exact ⟨hv.1, step_valid _ _ op hv.2 hw⟩
  case copyToTarget =>
    obtain ⟨w', p', e, a, b⟩ := DeepCopy_scalars s.w s.p hv.2
    simp only [sceneStep, e, Option.some_bind, Option.map_some', Option.some.injEq] at h
    subst h
    exact ⟨a ▸ hv.2, b ▸ hv.2⟩
  case copyToSource =>
    obtain ⟨w', p', e, a, b⟩ := DeepCopy_scalars (s.w.withSelf s.p) s.w.self hv.1
    simp only [sceneStep, e, Option.some_bind, Option.map_some', Option.some.injEq] at h
    subst h
    exact ⟨b ▸ hv.1, a ▸ hv.1⟩

theorem valid_of_sceneReachable (e : Env) (s : Scene) (hr : SceneReachable e s) :
    (scalars s.w.self).Valid ∧ (scalars s.p).Valid := by
  induction hr with
  | init => exact ⟨valid_construct e, valid_construct _⟩
  | call op _ hs ih => exact sceneStep_valid _ _ op ih hs

/-- C20: for a target and a source property in any state two properties
constructed in one object system reach (by calls on either and by `DeepCopy`
of either from the other), `DeepCopy` on the target with the source returns,
and afterwards each of the nine per-component getters returns for every
component of the target what it returned for the source before the call, which
is also what it returns for the source after the call; nothing is lost to the
clamp of `SetComponentWeight` or the 0/1 test of `SetShade`.  And
`DeepCopy(nullptr)` returns with the target unchanged. -/
theorem DeepCopy_copies_scalars (e : Env) (s : Scene) (hr : SceneReachable e s) :
    (∃ w' p', DeepCopy s.w (some s.p) = some (w', some p') ∧
      ∀ i : Fin 4,
        perComponent w' ((i : Nat) : Int) = perComponent (s.w.withSelf s.p) ((i : Nat) : Int) ∧
        perComponent (w'.withSelf p') ((i : Nat) : Int) =
          perComponent (s.w.withSelf s.p) ((i : Nat) : Int)) ∧
    DeepCopy s.w none = some (s.w, none) := by
  obtain ⟨w', p', e1, a, b⟩ := DeepCopy_scalars s.w s.p (valid_of_sceneReachable e s hr).2
  refine ⟨⟨w', p', e1, fun i => ?_⟩, rfl⟩
  simp only [perComponent_eq, World.withSelf_self, a, b, and_self]

/-- C20 at `copyScene`, whose source has three color channels in component 1
and whose target has one. -/
theorem DeepCopy_copies_scalars_witness :
    SceneReachable emptyEnv copyScene ∧
    GetColorChannels copyScene.w 1 = 1 ∧
    GetColorChannels (copyScene.w.withSelf copyScene.p) 1 = 3 ∧
    ∃ w' p', DeepCopy copyScene.w (some copyScene.p) = some (w', some p') ∧
      GetColorChannels w' 1 = 3 :=
  have hr : SceneReachable emptyEnv copyScene :=
    SceneReachable.call (SceneOp.onSource (Op.SetColorRGB 1 none)) SceneReachable.init rfl
  have hc : GetColorChannels (copyScene.w.withSelf copyScene.p) 1 = 3 := by decide
  ⟨hr, by decide, hc,
    match (DeepCopy_copies_scalars emptyEnv copyScene hr).1 with
    | ⟨w', p', h1, h2⟩ =>
      ⟨w', p', h1, (congrArg Prod.fst (h2 1).1).trans hc⟩⟩

/-! ## Component weights and the shading switch -/

theorem valid_of_reachable (allowed : Op → Prop) (e : Env) (w : World)
    (hr : Reachable allowed e w) : (scalars w.self).Valid := by
  induction hr with
  | init => exact valid_construct e
  | call op _ _ hs ih => exact step_valid _ _ op ih hs

theorem clamp_eq_min_max (v : ℚ) :
    (if v < 0 then 0 else if v > 1 then 1 else v) = min (max v 0) 1 := by
  split_ifs with h1 h2
  · rw [max_eq_right h1.le, min_eq_left zero_le_one]
  · rw [max_eq_left (not_lt.mp h1), min_eq_right h2.le]
  · rw [max_eq_left (not_lt.mp h1), min_eq_left (not_lt.mp h2)]

theorem SetComponentWeight_eq (w : World) (index : Int) (i : Fin 4) (v : ℚ)
    (hs : slot index = some i) :
    SetComponentWeight w index v =
      if w.self.ComponentWeight i ≠ min (max v 0) 1 then
        Modified (w.setComponentWeight i (min (max v 0) 1))
      else w := by
  obtain ⟨h, rfl⟩ := slot_bounds index i hs
  have hn : ¬(index < 0 ∨ index ≥ VTK_MAX_VRCOMP) := by
    unfold VTK_MAX_VRCOMP
    omega
  simp only [SetComponentWeight, dif_neg hn, clamp_eq_min_max]

/-- C21: for a valid index (slot `i`) and any value `v`, after
`SetComponentWeight(index, v)` the getter `GetComponentWeight(index)` returns
min(max(v, 0), 1) and the weights of the other components are as before; when
that clamped value is the stored one the call returns the state it was given,
so no time stamp moves, and when it differs the property is stamped with the
next value of the global counter.  Hence in every state a constructed property
reaches by any calls, `GetComponentWeight` returns a value in [0, 1]. -/
theorem SetComponentWeight_clamps (allowed : Op → Prop) (e : Env) (w0 : World)
    (hr : Reachable allowed e w0) (w : World) (index : Int) (i : Fin 4) (v : ℚ)
    (hs : slot index = some i) :
    GetComponentWeight (SetComponentWeight w index v) index = min (max v 0) 1 ∧
    (∀ j, j ≠ i → (SetComponentWeight w index v).self.ComponentWeight j =
      w.self.ComponentWeight j) ∧
    (w.self.ComponentWeight i = min (max v 0) 1 → SetComponentWeight w index v = w) ∧
    (w.self.ComponentWeight i ≠ min (max v 0) 1 →
      (SetComponentWeight w index v).self.MTime = w.clock + 1 ∧
      (SetComponentWeight w index v).clock = w.clock + 1) ∧
    (∀ k : Int, 0 ≤ GetComponentWeight w0 k ∧ GetComponentWeight w0 k ≤ 1) := by
  refine ⟨?_, ?_, ?_, ?_, ?_⟩
  · rw [GetComponentWeight_of_slot _ _ i hs, SetComponentWeight_eq w index i v hs]
    split_ifs with h
    · simp
    · exact not_not.mp h
  · intro j hj
    rw [SetComponentWeight_eq w index i v hs]
    split_ifs with h
    · simp [Function.update_apply, hj]
    · rfl
  · intro h
    rw [SetComponentWeight_eq w index i v hs, if_neg (not_not.mpr h)]
  · intro h
    rw [SetComponentWeight_eq w index i v hs, if_pos h]
    simp
  · intro k
    rcases hk : slot k with _ | j
    · have hn : k < 0 ∨ k ≥ VTK_MAX_VRCOMP := by
        unfold slot at hk
        unfold VTK_MAX_VRCOMP
        split_ifs at hk
        omega
      simp only [GetComponentWeight, dif_pos hn]
      exact ⟨le_refl _, zero_le_one⟩
    · rw [GetComponentWeight_of_slot _ _ j hk]
      obtain ⟨_, h2, h3, _⟩ := valid_of_reachable allowed e w0 hr j
      exact ⟨h2, h3⟩

/-- C21 at the state `weighted`, reached by `SetComponentWeight(2, 5)`: the
weight of component 2 is 1, and `SetComponentWeight(1, -3)` makes that of
component 1 zero. -/
theorem SetComponentWeight_clamps_witness :
    Reachable (fun _ => True) emptyEnv weighted ∧ slot 1 = some 1 ∧
    GetComponentWeight weighted 2 = 1 ∧
    GetComponentWeight (SetComponentWeight weighted 1 (-3)) 1 = 0 ∧
    (0 ≤ GetComponentWeight weighted 2 ∧ GetComponentWeight weighted 2 ≤ 1) :=
  have hr : Reachable (fun _ => True) emptyEnv weighted :=
    Reachable.call (Op.SetShade 3 1)
      (Reachable.call (Op.SetComponentWeight 2 5) Reachable.init trivial rfl) trivial rfl
  have hc := SetComponentWeight_clamps (fun _ => True) emptyEnv weighted hr weighted 1 1 (-3)
    (by decide)
  ⟨hr, by decide, by decide, hc.1.trans (by norm_num), hc.2.2.2.2 2⟩

/-- C22: for a valid index (slot `i`).  `SetShade(index, v)` with `v` other than
0 and 1 returns the state it was given; with `v` 0 or 1 it returns and
`GetShade(index)` is `v` afterwards, the shading switches of the other
components being as before; `ShadeOn(index)` leaves it at 1 and
`ShadeOff(index)` at 0.  Hence in every state a constructed property reaches
by any calls, `GetShade` returns 0 or 1 for each of the four components. -/
theorem SetShade_accepts_zero_one (allowed : Op → Prop) (e : Env) (w0 : World)
    (hr : Reachable allowed e w0) (w : World) (index : Int) (i : Fin 4) (v : Int)
    (hs : slot index = some i) :
    (v ≠ 0 ∧ v ≠ 1 → SetShade w index v = some w) ∧
    (v = 0 ∨ v = 1 → ∃ w', SetShade w index v = some w' ∧ GetShade w' index = some v ∧
      ∀ j, j ≠ i → w'.self.Shade j = w.self.Shade j) ∧
    (∃ w', ShadeOn w index = some w' ∧ GetShade w' index = some 1) ∧
    (∃ w', ShadeOff w index = some w' ∧ GetShade w' index = some 0) ∧
    (∀ k : Fin 4, GetShade w0 ((k : Nat) : Int) = some 0 ∨
      GetShade w0 ((k : Nat) : Int) = some 1) := by
  have hset : ∀ u : Int, u = 0 ∨ u = 1 →
      ∃ w', SetShade w index u = some w' ∧ GetShade w' index = some u ∧
        ∀ j, j ≠ i → w'.self.Shade j = w.self.Shade j := by
    intro u hu
    obtain ⟨w', h1, e1⟩ := SetShade_scalars w index i u hs hu
    have e2 := congrArg (fun t => t.Shade) e1
    simp only [scalars] at e2
    refine ⟨w', h1, ?_, ?_⟩
    · simp only [GetShade, hs, e2, Function.update_same]
    · intro j hj
      rw [e2, Function.update_noteq hj]
  refine ⟨?_, hset v, ?_, ?_, ?_⟩
  · intro hv
    simp only [SetShade, if_pos hv]
  · obtain ⟨w', h1, h2, _⟩ := hset 1 (Or.inr rfl)
    exact ⟨w', h1, h2⟩
  · obtain ⟨w', h1, h2, _⟩ := hset 0 (Or.inl rfl)
    exact ⟨w', h1, h2⟩
  · intro k
    obtain ⟨_, _, _, h4⟩ := valid_of_reachable allowed e w0 hr k
    simp only [scalars] at h4
    simp only [GetShade, slot_natCast, Option.some.injEq]
    exact h4

/-- C22 at the state `weighted`, reached by `SetShade(3, 1)`: the switch of
component 3 is on, `SetShade(3, 2)` changes nothing and `ShadeOff(3)` turns it
off. -/
theorem SetShade_accepts_zero_one_witness :
    Reachable (fun _ => True) emptyEnv weighted ∧ slot 3 = some 3 ∧
    GetShade weighted 3 = some 1 ∧
    SetShade weighted 3 2 = some weighted ∧
    (∃ w', ShadeOff weighted 3 = some w' ∧ GetShade w' 3 = some 0) :=
  have hr : Reachable (fun _ => True) emptyEnv weighted :=
    Reachable.call (Op.SetShade 3 1)
      (Reachable.call (Op.SetComponentWeight 2 5) Reachable.init trivial rfl) trivial rfl
  have hc := SetShade_accepts_zero_one (fun _ => True) emptyEnv weighted hr weighted 3 3 2
    (by decide)
  ⟨hr, by decide, by decide, hc.1 (by decide), hc.2.2.2.1⟩

end VTK
